import Mathlib

/-!
# Ash engine: frame lifecycle of `VulkanAPI`

A shallow embedding of `Engine/src/VulkanAPI.cpp`.  Engine procedures are
state transformers over the fields of `VulkanAPI` (plus the collaborators they
touch: the window flag, the scene, the renderer stores).  Every call into
Vulkan, VMA or GLFW is appended to a trace, and what the driver answers during
one engine call is supplied by a `World`.  `ASH_ASSERT` failures, undefined
behaviour (out-of-range indexing, null dereference) and a wait that never
returns are explicit faults.
-/

set_option autoImplicit false

namespace Ash

/-! ## Vulkan values -/

/-- Opaque driver handle; `0` is `VK_NULL_HANDLE`. -/
abbrev Handle := Nat

/-- The null handle. -/
def VK_NULL_HANDLE : Handle := 0

/-- Result codes the engine distinguishes; `VK_ERROR_UNKNOWN` stands for every
other code. -/
inductive VkResult
  | VK_SUCCESS
  | VK_SUBOPTIMAL_KHR
  | VK_ERROR_OUT_OF_DATE_KHR
  | VK_ERROR_UNKNOWN
deriving DecidableEq, Repr

/-- Two-dimensional extent of 32-bit unsigned components. -/
structure VkExtent2D where
  width : Nat
  height : Nat
deriving DecidableEq, Repr

/-- Image formats named in the source; `other` is any further format code. -/
inductive VkFormat
  | VK_FORMAT_B8G8R8_SRGB
  | VK_FORMAT_R8G8B8A8_SRGB
  | VK_FORMAT_D32_SFLOAT
  | VK_FORMAT_D32_SFLOAT_S8_UINT
  | VK_FORMAT_D24_UNORM_S8_UINT
  | other (code : Nat)
deriving DecidableEq, Repr

/-- Colour spaces. -/
inductive VkColorSpaceKHR
  | VK_COLOR_SPACE_SRGB_NONLINEAR_KHR
  | other (code : Nat)
deriving DecidableEq, Repr

/-- Surface format pair. -/
structure VkSurfaceFormatKHR where
  format : VkFormat
  colorSpace : VkColorSpaceKHR
deriving DecidableEq, Repr

/-- Present modes. -/
inductive VkPresentModeKHR
  | VK_PRESENT_MODE_IMMEDIATE_KHR
  | VK_PRESENT_MODE_MAILBOX_KHR
  | VK_PRESENT_MODE_FIFO_KHR
  | VK_PRESENT_MODE_FIFO_RELAXED_KHR
deriving DecidableEq, Repr

/-- Fields of `VkSurfaceCapabilitiesKHR` read by the engine. -/
structure VkSurfaceCapabilitiesKHR where
  minImageCount : Nat
  maxImageCount : Nat
  currentExtent : VkExtent2D
  minImageExtent : VkExtent2D
  maxImageExtent : VkExtent2D
deriving DecidableEq, Repr

/-- Result of `querySwapchainSupport`. -/
structure SwapchainSupportDetails where
  capabilities : VkSurfaceCapabilitiesKHR
  formats : List VkSurfaceFormatKHR
  presentModes : List VkPresentModeKHR
deriving DecidableEq, Repr

/-- Image layouts. -/
inductive VkImageLayout
  | VK_IMAGE_LAYOUT_UNDEFINED
  | VK_IMAGE_LAYOUT_TRANSFER_DST_OPTIMAL
  | VK_IMAGE_LAYOUT_SHADER_READ_ONLY_OPTIMAL
  | VK_IMAGE_LAYOUT_DEPTH_STENCIL_ATTACHMENT_OPTIMAL
  | VK_IMAGE_LAYOUT_PRESENT_SRC_KHR
  | VK_IMAGE_LAYOUT_GENERAL
deriving DecidableEq, Repr

/-- Pipeline stages used by the engine. -/
inductive VkPipelineStage
  | VK_PIPELINE_STAGE_TOP_OF_PIPE_BIT
  | VK_PIPELINE_STAGE_TRANSFER_BIT
  | VK_PIPELINE_STAGE_FRAGMENT_SHADER_BIT
  | VK_PIPELINE_STAGE_EARLY_FRAGMENT_TESTS_BIT
  | VK_PIPELINE_STAGE_COLOR_ATTACHMENT_OUTPUT_BIT
deriving DecidableEq, Repr

/-- Access bits used by the engine. -/
inductive VkAccess
  | VK_ACCESS_TRANSFER_WRITE_BIT
  | VK_ACCESS_SHADER_READ_BIT
  | VK_ACCESS_DEPTH_STENCIL_ATTACHMENT_READ_BIT
  | VK_ACCESS_DEPTH_STENCIL_ATTACHMENT_WRITE_BIT
deriving DecidableEq, Repr

/-- Image aspect bits. -/
inductive VkImageAspect
  | VK_IMAGE_ASPECT_COLOR_BIT
  | VK_IMAGE_ASPECT_DEPTH_BIT
  | VK_IMAGE_ASPECT_STENCIL_BIT
deriving DecidableEq, Repr

/-- The `VkImageMemoryBarrier` built by `transitionImageLayout`. -/
structure VkImageMemoryBarrier where
  image : Handle
  oldLayout : VkImageLayout
  newLayout : VkImageLayout
  aspectMask : List VkImageAspect
  srcAccessMask : List VkAccess
  dstAccessMask : List VkAccess
deriving DecidableEq, Repr

/-- A descriptor set handle together with the pool it was allocated from. -/
structure VkDescriptorSet where
  pool : Handle
  handle : Handle
deriving DecidableEq, Repr

/-- Descriptor types written by the engine. -/
inductive VkDescriptorType
  | VK_DESCRIPTOR_TYPE_UNIFORM_BUFFER_DYNAMIC
  | VK_DESCRIPTOR_TYPE_COMBINED_IMAGE_SAMPLER
deriving DecidableEq, Repr

/-- Kinds of driver objects that only `init` creates and only `cleanup`
destroys. -/
inductive VkObject
  | VkInstance
  | VkDebugUtilsMessengerEXT
  | VkSurfaceKHR
  | VkDevice
  | VmaAllocator
  | VkPipelineCache
  | VkDescriptorSetLayout
  | VkShaderModule
  | VkPipelineLayout
  | VkPipeline
  | VkCommandPool
  | VkSampler
  | VkSemaphore
  | VkFence
deriving DecidableEq, Repr

/-- One queue family of a physical device: the graphics bit and whether it
can present to the surface. -/
structure QueueFamily where
  graphics : Bool
  present : Bool
deriving DecidableEq, Repr

/-- `VulkanAPI::QueueFamilyIndices`. -/
structure QueueFamilyIndices where
  graphicsFamily : Option Nat
  presentsFamily : Option Nat
deriving DecidableEq, Repr

/-- `QueueFamilyIndices::isComplete`. -/
def QueueFamilyIndices.isComplete (q : QueueFamilyIndices) : Bool :=
  q.graphicsFamily.isSome && q.presentsFamily.isSome

/-- Static properties the driver reports for a physical device. -/
structure PhysicalDevice where
  handle : Handle
  queueFamilies : List QueueFamily
  minUniformBufferOffsetAlignment : Nat
  linearTilingFeatures : VkFormat → Nat
  optimalTilingFeatures : VkFormat → Nat

/-! ## Scene and renderer collaborators -/

/-- `IndexedVertexBuffer`: one buffer holding vertices then indices. -/
structure IndexedVertexBuffer where
  buffer : Handle
  vertSize : Nat
  numIndices : Nat
deriving DecidableEq, Repr

/-- A mesh owns one indexed vertex buffer. -/
structure Mesh where
  ivb : IndexedVertexBuffer
deriving DecidableEq, Repr

/-- A model lists mesh and texture references. -/
structure Model where
  meshes : List Nat
  textures : List Nat
deriving DecidableEq, Repr

/-- `Texture`: image, allocation and view. -/
structure Texture where
  image : Handle
  imageView : Handle
deriving DecidableEq, Repr

/-- The `Renderable` component: model reference, pipeline name and the
descriptor sets indexed by mesh then by swapchain image. -/
structure Renderable where
  model : Nat
  pipeline : String
  descriptorSets : List (List VkDescriptorSet)
deriving DecidableEq, Repr

/-- An entity of the registry with the two components the engine reads; the
transform is an opaque payload. -/
structure Entity where
  renderable : Option Renderable
  transform : Option Nat
deriving DecidableEq, Repr

/-- The scene: its registry, in iteration order. -/
structure Scene where
  registry : List Entity
deriving DecidableEq, Repr

/-- Lookups `Renderer::getModel`, `Renderer::getMesh`, `Renderer::getTexture`. -/
structure Renderer where
  getModel : Nat → Model
  getMesh : Nat → Mesh
  getTexture : Nat → Texture

/-- `ShaderStages`. -/
inductive ShaderStages
  | VERTEX_SHADER_STAGE
  | FRAGMENT_SHADER_STAGE
deriving DecidableEq, Repr

/-- A caller-supplied `Pipeline`: its name, its shader stages and the path of
the code of each stage. -/
structure Pipeline where
  name : String
  stages : List ShaderStages
  paths : List String
deriving DecidableEq, Repr

/-- Compile-time constants whose definitions lie outside the translated file. -/
structure Constants where
  MAX_FRAMES_IN_FLIGHT : Nat
  MAX_INSTANCES : Nat
  sizeofUniformBufferObject : Nat

/-! ## Calls into Vulkan, VMA and GLFW -/

set_option maxHeartbeats 1000000 in
/-- One call made by the engine.  Creation calls carry the handle they
return.  `vkCreate k h` is the creation call for an object of kind `k`
(`vkCreateInstance`, `CreateDebugUtilsMessengerEXT`, `glfwCreateWindowSurface`,
`vkCreateDevice`, `vmaCreateAllocator`, `vkCreatePipelineCache`,
`vkCreateDescriptorSetLayout`, `vkCreateShaderModule`, `vkCreatePipelineLayout`,
`vkCreateGraphicsPipelines`, `vkCreateCommandPool`, `vkCreateSampler`) and
`vkDestroy k h` the destruction call for it (`vkDestroyInstance`, ...,
`vmaDestroyAllocator`, `vkDestroySemaphore`, `vkDestroyFence`). -/
inductive Call
  | recreateSwapchain
  | glfwGetFramebufferSize
  | glfwWaitEvents
  | vkDeviceWaitIdle
  | vkQueueWaitIdle
  | vkResetCommandPool (pool : Handle)
  | vkAllocateCommandBuffers (pool : Handle) (buffers : List Handle)
  | vkFreeCommandBuffers (pool : Handle) (buffers : List Handle)
  | vkBeginCommandBuffer (cb : Handle)
  | vkEndCommandBuffer (cb : Handle)
  | vkCmdBeginRenderPass (cb renderPass framebuffer : Handle) (extent : VkExtent2D)
  | vkCmdSetViewport (cb : Handle) (width height : Nat)
  | vkCmdSetScissor (cb : Handle) (extent : VkExtent2D)
  | vkCmdBindPipeline (cb pipeline : Handle)
  | vkCmdBindVertexBuffers (cb buffer : Handle)
  | vkCmdBindIndexBuffer (cb buffer : Handle) (offset : Nat)
  | vkCmdBindDescriptorSets (cb layout : Handle) (firstSet : Nat)
      (set : VkDescriptorSet) (dynamicOffsets : List Nat)
  | vkCmdDrawIndexed (cb : Handle) (indexCount : Nat)
  | vkCmdEndRenderPass (cb : Handle)
  | vkCmdPipelineBarrier (cb : Handle) (src dst : VkPipelineStage)
      (barrier : VkImageMemoryBarrier)
  | vkWaitForFences (fence : Handle)
  | vkResetFences (fence : Handle)
  | vkAcquireNextImageKHR (swapchain semaphore : Handle)
  | vkQueueSubmit (cb : Handle) (wait signal : Option Handle) (fence : Handle)
  | vkQueuePresentKHR (wait swapchain : Handle) (imageIndex : Nat)
  | vmaMapMemory (buffer : Handle)
  | memcpy (buffer : Handle) (offset size : Nat) (transform : Nat)
  | vmaUnmapMemory (buffer : Handle)
  | vkDestroyImageView (view : Handle)
  | vmaDestroyImage (image : Handle)
  | vkDestroyFramebuffer (framebuffer : Handle)
  | vkDestroyRenderPass (renderPass : Handle)
  | vkDestroySwapchainKHR (swapchain : Handle)
  | vkDestroyDescriptorPool (pool : Handle)
  | vkCreateSwapchainKHR (minImageCount : Nat) (format : VkSurfaceFormatKHR)
      (extent : VkExtent2D) (presentMode : VkPresentModeKHR) (concurrent : Bool)
      (swapchain : Handle)
  | vkGetSwapchainImagesKHR (swapchain : Handle) (images : List Handle)
  | vkCreateImageView (image : Handle) (format : VkFormat) (aspect : VkImageAspect)
      (view : Handle)
  | vkCreateRenderPass (colorFormat depthFormat : VkFormat) (renderPass : Handle)
  | vmaCreateImage (extent : VkExtent2D) (format : VkFormat) (image : Handle)
  | vkCreateFramebuffer (renderPass colorView depthView : Handle) (extent : VkExtent2D)
      (framebuffer : Handle)
  | vkCreateDescriptorPool (uniformCount samplerCount maxSets : Nat) (pool : Handle)
  | vkAllocateDescriptorSets (pool layout : Handle) (sets : List VkDescriptorSet)
  | vkUpdateDescriptorSets (set : VkDescriptorSet) (binding : Nat)
      (type : VkDescriptorType) (resource : Handle)
  | vkCreateSemaphore (semaphore : Handle)
  | vkCreateFence (fence : Handle)
  | stbi_load (path : String)
  | stbi_image_free
  | vmaCreateBuffer (size : Nat) (buffer : Handle)
  | vmaDestroyBuffer (buffer : Handle)
  | vkCmdCopyBufferToImage (cb buffer image : Handle) (layout : VkImageLayout)
      (width height : Nat)
  | vkCreate (object : VkObject) (handle : Handle)
  | vkDestroy (object : VkObject) (handle : Handle)
deriving Repr

/-- One argument of a recorded call. -/
inductive CallArg
  | nat (n : Nat)
  | nats (l : List Nat)
  | extent (e : VkExtent2D)
  | set (d : VkDescriptorSet)
  | sets (l : List VkDescriptorSet)
  | stage (p : VkPipelineStage)
  | barrier (b : VkImageMemoryBarrier)
  | optional (h : Option Handle)
  | surfaceFormat (f : VkSurfaceFormatKHR)
  | presentMode (m : VkPresentModeKHR)
  | bool (b : Bool)
  | format (f : VkFormat)
  | aspect (a : VkImageAspect)
  | descriptorType (t : VkDescriptorType)
  | string (s : String)
  | layout (l : VkImageLayout)
  | object (o : VkObject)
deriving DecidableEq

/-- The position of a call in the declaration of `Call` and its arguments. -/
def Call.encode : Call → Nat × List CallArg
  | .recreateSwapchain => (0, [])
  | .glfwGetFramebufferSize => (1, [])
  | .glfwWaitEvents => (2, [])
  | .vkDeviceWaitIdle => (3, [])
  | .vkQueueWaitIdle => (4, [])
  | .vkResetCommandPool pool => (5, [.nat pool])
  | .vkAllocateCommandBuffers pool buffers => (6, [.nat pool, .nats buffers])
  | .vkFreeCommandBuffers pool buffers => (7, [.nat pool, .nats buffers])
  | .vkBeginCommandBuffer cb => (8, [.nat cb])
  | .vkEndCommandBuffer cb => (9, [.nat cb])
  | .vkCmdBeginRenderPass cb renderPass framebuffer extent =>
      (10, [.nat cb, .nat renderPass, .nat framebuffer, .extent extent])
  | .vkCmdSetViewport cb width height => (11, [.nat cb, .nat width, .nat height])
  | .vkCmdSetScissor cb extent => (12, [.nat cb, .extent extent])
  | .vkCmdBindPipeline cb pipeline => (13, [.nat cb, .nat pipeline])
  | .vkCmdBindVertexBuffers cb buffer => (14, [.nat cb, .nat buffer])
  | .vkCmdBindIndexBuffer cb buffer offset => (15, [.nat cb, .nat buffer, .nat offset])
  | .vkCmdBindDescriptorSets cb layout firstSet set dynamicOffsets =>
      (16, [.nat cb, .nat layout, .nat firstSet, .set set, .nats dynamicOffsets])
  | .vkCmdDrawIndexed cb indexCount => (17, [.nat cb, .nat indexCount])
  | .vkCmdEndRenderPass cb => (18, [.nat cb])
  | .vkCmdPipelineBarrier cb src dst barrier =>
      (19, [.nat cb, .stage src, .stage dst, .barrier barrier])
  | .vkWaitForFences fence => (20, [.nat fence])
  | .vkResetFences fence => (21, [.nat fence])
  | .vkAcquireNextImageKHR swapchain semaphore => (22, [.nat swapchain, .nat semaphore])
  | .vkQueueSubmit cb wait signal fence =>
      (23, [.nat cb, .optional wait, .optional signal, .nat fence])
  | .vkQueuePresentKHR wait swapchain imageIndex =>
      (24, [.nat wait, .nat swapchain, .nat imageIndex])
  | .vmaMapMemory buffer => (25, [.nat buffer])
  | .memcpy buffer offset size transform =>
      (26, [.nat buffer, .nat offset, .nat size, .nat transform])
  | .vmaUnmapMemory buffer => (27, [.nat buffer])
  | .vkDestroyImageView view => (28, [.nat view])
  | .vmaDestroyImage image => (29, [.nat image])
  | .vkDestroyFramebuffer framebuffer => (30, [.nat framebuffer])
  | .vkDestroyRenderPass renderPass => (31, [.nat renderPass])
  | .vkDestroySwapchainKHR swapchain => (32, [.nat swapchain])
  | .vkDestroyDescriptorPool pool => (33, [.nat pool])
  | .vkCreateSwapchainKHR minImageCount format extent presentMode concurrent swapchain =>
      (34, [.nat minImageCount, .surfaceFormat format, .extent extent,
        .presentMode presentMode, .bool concurrent, .nat swapchain])
  | .vkGetSwapchainImagesKHR swapchain images => (35, [.nat swapchain, .nats images])
  | .vkCreateImageView image format aspect view =>
      (36, [.nat image, .format format, .aspect aspect, .nat view])
  | .vkCreateRenderPass colorFormat depthFormat renderPass =>
      (37, [.format colorFormat, .format depthFormat, .nat renderPass])
  | .vmaCreateImage extent format image => (38, [.extent extent, .format format, .nat image])
  | .vkCreateFramebuffer renderPass colorView depthView extent framebuffer =>
      (39, [.nat renderPass, .nat colorView, .nat depthView, .extent extent,
        .nat framebuffer])
  | .vkCreateDescriptorPool uniformCount samplerCount maxSets pool =>
      (40, [.nat uniformCount, .nat samplerCount, .nat maxSets, .nat pool])
  | .vkAllocateDescriptorSets pool layout sets => (41, [.nat pool, .nat layout, .sets sets])
  | .vkUpdateDescriptorSets set binding type resource =>
      (42, [.set set, .nat binding, .descriptorType type, .nat resource])
  | .vkCreateSemaphore semaphore => (43, [.nat semaphore])
  | .vkCreateFence fence => (44, [.nat fence])
  | .stbi_load path => (45, [.string path])
  | .stbi_image_free => (46, [])
  | .vmaCreateBuffer size buffer => (47, [.nat size, .nat buffer])
  | .vmaDestroyBuffer buffer => (48, [.nat buffer])
  | .vkCmdCopyBufferToImage cb buffer image layout width height =>
      (49, [.nat cb, .nat buffer, .nat image, .layout layout, .nat width, .nat height])
  | .vkCreate object handle => (50, [.object object, .nat handle])
  | .vkDestroy object handle => (51, [.object object, .nat handle])

/-- The call with a given position and arguments, if there is one. -/
def Call.decode : Nat × List CallArg → Option Call
  | (0, []) => some .recreateSwapchain
  | (1, []) => some .glfwGetFramebufferSize
  | (2, []) => some .glfwWaitEvents
  | (3, []) => some .vkDeviceWaitIdle
  | (4, []) => some .vkQueueWaitIdle
  | (5, [.nat pool]) => some (.vkResetCommandPool pool)
  | (6, [.nat pool, .nats buffers]) => some (.vkAllocateCommandBuffers pool buffers)
  | (7, [.nat pool, .nats buffers]) => some (.vkFreeCommandBuffers pool buffers)
  | (8, [.nat cb]) => some (.vkBeginCommandBuffer cb)
  | (9, [.nat cb]) => some (.vkEndCommandBuffer cb)
  | (10, [.nat cb, .nat renderPass, .nat framebuffer, .extent extent]) =>
      some (.vkCmdBeginRenderPass cb renderPass framebuffer extent)
  | (11, [.nat cb, .nat width, .nat height]) => some (.vkCmdSetViewport cb width height)
  | (12, [.nat cb, .extent extent]) => some (.vkCmdSetScissor cb extent)
  | (13, [.nat cb, .nat pipeline]) => some (.vkCmdBindPipeline cb pipeline)
  | (14, [.nat cb, .nat buffer]) => some (.vkCmdBindVertexBuffers cb buffer)
  | (15, [.nat cb, .nat buffer, .nat offset]) => some (.vkCmdBindIndexBuffer cb buffer offset)
  | (16, [.nat cb, .nat layout, .nat firstSet, .set set, .nats dynamicOffsets]) =>
      some (.vkCmdBindDescriptorSets cb layout firstSet set dynamicOffsets)
  | (17, [.nat cb, .nat indexCount]) => some (.vkCmdDrawIndexed cb indexCount)
  | (18, [.nat cb]) => some (.vkCmdEndRenderPass cb)
  | (19, [.nat cb, .stage src, .stage dst, .barrier barrier]) =>
      some (.vkCmdPipelineBarrier cb src dst barrier)
  | (20, [.nat fence]) => some (.vkWaitForFences fence)
  | (21, [.nat fence]) => some (.vkResetFences fence)
  | (22, [.nat swapchain, .nat semaphore]) => some (.vkAcquireNextImageKHR swapchain semaphore)
  | (23, [.nat cb, .optional wait, .optional signal, .nat fence]) =>
      some (.vkQueueSubmit cb wait signal fence)
  | (24, [.nat wait, .nat swapchain, .nat imageIndex]) =>
      some (.vkQueuePresentKHR wait swapchain imageIndex)
  | (25, [.nat buffer]) => some (.vmaMapMemory buffer)
  | (26, [.nat buffer, .nat offset, .nat size, .nat transform]) =>
      some (.memcpy buffer offset size transform)
  | (27, [.nat buffer]) => some (.vmaUnmapMemory buffer)
  | (28, [.nat view]) => some (.vkDestroyImageView view)
  | (29, [.nat image]) => some (.vmaDestroyImage image)
  | (30, [.nat framebuffer]) => some (.vkDestroyFramebuffer framebuffer)
  | (31, [.nat renderPass]) => some (.vkDestroyRenderPass renderPass)
  | (32, [.nat swapchain]) => some (.vkDestroySwapchainKHR swapchain)
  | (33, [.nat pool]) => some (.vkDestroyDescriptorPool pool)
  | (34, [.nat minImageCount, .surfaceFormat format, .extent extent,
        .presentMode presentMode, .bool concurrent, .nat swapchain]) =>
      some (.vkCreateSwapchainKHR minImageCount format extent presentMode concurrent swapchain)
  | (35, [.nat swapchain, .nats images]) => some (.vkGetSwapchainImagesKHR swapchain images)
  | (36, [.nat image, .format format, .aspect aspect, .nat view]) =>
      some (.vkCreateImageView image format aspect view)
  | (37, [.format colorFormat, .format depthFormat, .nat renderPass]) =>
      some (.vkCreateRenderPass colorFormat depthFormat renderPass)
  | (38, [.extent extent, .format format, .nat image]) =>
      some (.vmaCreateImage extent format image)
  | (39, [.nat renderPass, .nat colorView, .nat depthView, .extent extent,
        .nat framebuffer]) =>
      some (.vkCreateFramebuffer renderPass colorView depthView extent framebuffer)
  | (40, [.nat uniformCount, .nat samplerCount, .nat maxSets, .nat pool]) =>
      some (.vkCreateDescriptorPool uniformCount samplerCount maxSets pool)
  | (41, [.nat pool, .nat layout, .sets sets]) =>
      some (.vkAllocateDescriptorSets pool layout sets)
  | (42, [.set set, .nat binding, .descriptorType type, .nat resource]) =>
      some (.vkUpdateDescriptorSets set binding type resource)
  | (43, [.nat semaphore]) => some (.vkCreateSemaphore semaphore)
  | (44, [.nat fence]) => some (.vkCreateFence fence)
  | (45, [.string path]) => some (.stbi_load path)
  | (46, []) => some .stbi_image_free
  | (47, [.nat size, .nat buffer]) => some (.vmaCreateBuffer size buffer)
  | (48, [.nat buffer]) => some (.vmaDestroyBuffer buffer)
  | (49, [.nat cb, .nat buffer, .nat image, .layout layout, .nat width, .nat height]) =>
      some (.vkCmdCopyBufferToImage cb buffer image layout width height)
  | (50, [.object object, .nat handle]) => some (.vkCreate object handle)
  | (51, [.object object, .nat handle]) => some (.vkDestroy object handle)
  | _ => none

/-- Equality of calls is decided on their codes: `decode` recovers a call from
its code, so two calls with the same code are the same call. -/
instance : DecidableEq Call := fun a b =>
  decidable_of_iff (a.encode = b.encode)
    ⟨fun h => by
      have hd : ∀ c : Call, Call.decode c.encode = some c := by
        intro c; cases c <;> rfl
      have h2 := congrArg Call.decode h
      rw [hd a, hd b] at h2
      exact Option.some.inj h2,
     fun h => congrArg Call.encode h⟩

/-- One pass of the minimised-window loop: the size read by
`glfwGetFramebufferSize` and whether the following `glfwWaitEvents` delivered
a resize notification. -/
structure Poll where
  width : Int
  height : Int
  resized : Bool
deriving DecidableEq, Repr

/-- What `stbi_load` leaves behind: the pixel pointer (`none` is the null
pointer of a failed decode) and the values of `texWidth` and `texHeight` after
the call. -/
structure StbiImage where
  pixels : Option Nat
  texWidth : Int
  texHeight : Int
deriving DecidableEq, Repr

/-- One entry of `vkEnumeratePhysicalDevices` with what the driver answers
when `isDeviceSuitable` queries it: the extension names, the swapchain support
for the surface and the `samplerAnisotropy` feature. -/
structure DeviceReport where
  device : PhysicalDevice
  availableExtensions : List String
  swapChainSupport : SwapchainSupportDetails
  samplerAnisotropy : Bool

/-- What the driver and the window system answer during one engine call. -/
structure World where
  result : Call → VkResult
  acquireResult : VkResult
  imageIndex : Nat
  submitResult : VkResult
  presentResult : VkResult
  framebufferWidth : Int
  framebufferHeight : Int
  polls : List Poll
  support : SwapchainSupportDetails
  extentWidth : Int
  extentHeight : Int
  swapchainImageCount : Nat
  devices : List DeviceReport
  stbi_load : String → StbiImage

/-! ## Engine state -/

/-- Fields of `VulkanAPI`, the collaborators it reads and writes, the trace of
calls made so far and the next unused driver handle.  `instanceHandle` is the
member `instance`. -/
structure State where
  physicalDevice : PhysicalDevice
  swapchain : Handle
  swapchainImages : List Handle
  swapchainImageFormat : VkFormat
  swapchainExtent : VkExtent2D
  swapchainImageViews : List Handle
  swapchainFramebuffers : List Handle
  renderPass : Handle
  depthImage : Handle
  depthImageView : Handle
  descriptorPool : Handle
  descriptorSetLayout : Handle
  uboDescriptorSets : List VkDescriptorSet
  uniformBuffers : List Handle
  textureSampler : Handle
  pipelineLayout : Handle
  graphicsPipelines : List (String × Handle)
  commandPool : Handle
  commandBuffers : List Handle
  imageAvailableSemaphores : List Handle
  renderFinishedSemaphores : List Handle
  inFlightFences : List Handle
  imagesInFlight : List Handle
  copyFinishedFence : Handle
  textures : List Texture
  instanceHandle : Handle
  debugMessenger : Handle
  surface : Handle
  device : Handle
  allocator : Handle
  pipelineCache : Handle
  imageDescriptorSetLayout : Handle
  transferCommandPool : Handle
  indexedVertexBuffers : List IndexedVertexBuffer
  pipelineObjects : List Pipeline
  enableValidationLayers : Bool
  currentFrame : Nat
  framebufferResized : Bool
  scene : Option Scene
  renderer : Renderer
  trace : List Call
  nextHandle : Nat

/-- Ways an engine call can fail to return normally. -/
inductive Fault
  | assertion
  | undefinedBehaviour
  | exception
  | blocked
deriving DecidableEq, Repr

/-- Outcome of running a procedure: a value and the state reached, or a fault
and the state at which it struck. -/
inductive Outcome (α : Type)
  | ok (a : α) (s : State)
  | fault (f : Fault) (s : State)

/-- Final state of an outcome. -/
def Outcome.state {α : Type} : Outcome α → State
  | .ok _ s => s
  | .fault _ s => s

/-- Whether the outcome is a normal return. -/
def Outcome.isOk {α : Type} : Outcome α → Bool
  | .ok _ _ => true
  | .fault _ _ => false

/-- The fault an outcome ended in, if any. -/
def Outcome.raised {α : Type} : Outcome α → Option Fault
  | .ok _ _ => none
  | .fault f _ => some f

/-- An engine procedure. -/
def Proc (α : Type) : Type := State → Outcome α

/-- Sequencing: a fault stops the procedure. -/
def Proc.bind {α β : Type} (m : Proc α) (f : α → Proc β) : Proc β :=
  fun s => match m s with
    | .ok a s1 => f a s1
    | .fault e s1 => .fault e s1

/-- Return a value without touching the state. -/
def Proc.pure {α : Type} (a : α) : Proc α := fun s => .ok a s

instance : Monad Proc where
  pure := Proc.pure
  bind := Proc.bind

/-- Read the whole state. -/
def readState : Proc State := fun s => .ok s s

/-- Update the state. -/
def update (f : State → State) : Proc Unit := fun s => .ok () (f s)

/-- Make a call: append it to the trace. -/
def call (c : Call) : Proc Unit := fun s => .ok () { s with trace := s.trace ++ [c] }

/-- Make a call whose arguments are read from the state at the time of the
call. -/
def callS (c : State → Call) : Proc Unit :=
  fun s => .ok () { s with trace := s.trace ++ [c s] }

/-- Stop with a fault. -/
def raise {α : Type} (f : Fault) : Proc α := fun s => .fault f s

/-- `ASH_ASSERT`: a false condition is fatal. -/
def ASH_ASSERT (cond : Bool) : Proc Unit :=
  fun s => if cond then .ok () s else .fault .assertion s

/-- Take the next unused driver handle. -/
def fresh : Proc Handle :=
  fun s => .ok s.nextHandle { s with nextHandle := s.nextHandle + 1 }

/-- Take `n` consecutive unused driver handles. -/
def freshN (n : Nat) : Proc (List Handle) :=
  fun s => .ok (List.range' s.nextHandle n) { s with nextHandle := s.nextHandle + n }

/-- Element access `v[i]` of a `std::vector`: out of range is undefined
behaviour. -/
def index {α : Type} (xs : List α) (i : Nat) : Proc α :=
  match xs[i]? with
  | some x => pure x
  | none => raise .undefinedBehaviour

/-- Range loop `for (x : xs)`. -/
def forEach {α : Type} : List α → (α → Proc Unit) → Proc Unit
  | [], _ => pure ()
  | x :: xs, f => do f x; forEach xs f

/-- Counted loop `for (i = lo; i < lo + n; i++)`. -/
def forRange : Nat → Nat → (Nat → Proc Unit) → Proc Unit
  | _, 0, _ => pure ()
  | lo, n + 1, f => do f lo; forRange (lo + 1) n f

/-- Indexed range loop: `f i x` for the elements in order, `i` counting from
`lo`. -/
def forEachIdx {α : Type} : Nat → List α → (Nat → α → Proc Unit) → Proc Unit
  | _, [], _ => pure ()
  | lo, x :: xs, f => do f lo x; forEachIdx (lo + 1) xs f

/-- `std::vector::resize(n, d)`. -/
def resize {α : Type} (xs : List α) (n : Nat) (d : α) : List α :=
  xs.take n ++ List.replicate (n - xs.length) d

/-- `std::optional::value()`: throws on an empty optional. -/
def value {α : Type} : Option α → Proc α
  | some a => pure a
  | none => raise .exception

/-- Use of a value whose computation may be undefined behaviour. -/
def defined {α : Type} : Option α → Proc α
  | some a => pure a
  | none => raise .undefinedBehaviour

/-! ## Pure helpers of `VulkanAPI.cpp` -/

/-- `calculateDynamicAllignment` on 64-bit `size_t`. -/
def calculateDynamicAllignment (minUniformBufferAllignment dynamicAllignment : Nat) : Nat :=
  if minUniformBufferAllignment > 0 then
    Nat.land ((dynamicAllignment + minUniformBufferAllignment - 1) % 2 ^ 64)
      (2 ^ 64 - 1 - (minUniformBufferAllignment - 1))
  else dynamicAllignment

/-- The stride every caller computes:
`calculateDynamicAllignment(minUniformBufferOffsetAlignment, sizeof(UniformBufferObject))`. -/
def alignedStride (K : Constants) (s : State) : Nat :=
  calculateDynamicAllignment s.physicalDevice.minUniformBufferOffsetAlignment
    K.sizeofUniformBufferObject

/-- `findQueueFamilies`, the loop from family index `i`. -/
def findQueueFamiliesFrom : Nat → QueueFamilyIndices → List QueueFamily → QueueFamilyIndices
  | _, indices, [] => indices
  | i, indices, q :: rest =>
    let indices1 := if q.graphics then { indices with graphicsFamily := some i } else indices
    let indices2 := if q.present then { indices1 with presentsFamily := some i } else indices1
    if indices2.isComplete then indices2 else findQueueFamiliesFrom (i + 1) indices2 rest

/-- `VulkanAPI::findQueueFamilies`. -/
def findQueueFamilies (device : PhysicalDevice) : QueueFamilyIndices :=
  findQueueFamiliesFrom 0 ⟨none, none⟩ device.queueFamilies

/-- `VulkanAPI::chooseSwapSurfaceFormat`; `none` is the undefined
`availableFormats[0]` of an empty vector. -/
def chooseSwapSurfaceFormat (availableFormats : List VkSurfaceFormatKHR) :
    Option VkSurfaceFormatKHR :=
  match availableFormats.find? (fun f => f.format == .VK_FORMAT_B8G8R8_SRGB &&
      f.colorSpace == .VK_COLOR_SPACE_SRGB_NONLINEAR_KHR) with
  | some f => some f
  | none => availableFormats[0]?

/-- `VulkanAPI::chooseSwapPresentMode`. -/
def chooseSwapPresentMode (availablePresentModes : List VkPresentModeKHR) : VkPresentModeKHR :=
  match availablePresentModes.find? (fun m => m == .VK_PRESENT_MODE_MAILBOX_KHR) with
  | some m => m
  | none => .VK_PRESENT_MODE_FIFO_KHR

/-- `UINT32_MAX`. -/
def UINT32_MAX : Nat := 2 ^ 32 - 1

/-- `static_cast<uint32_t>` of an `int`. -/
def toUInt32 (x : Int) : Nat := (x % 2 ^ 32).toNat

/-- `std::clamp(v, lo, hi)`. -/
def clamp (v lo hi : Nat) : Nat := if v < lo then lo else if hi < v then hi else v

/-- The extent `chooseSwapExtent` derives from a framebuffer size. -/
def clampedExtent (capabilities : VkSurfaceCapabilitiesKHR) (width height : Int) : VkExtent2D :=
  { width := clamp (toUInt32 width) capabilities.minImageExtent.width
      capabilities.maxImageExtent.width
    height := clamp (toUInt32 height) capabilities.minImageExtent.height
      capabilities.maxImageExtent.height }

/-- `VulkanAPI::chooseSwapExtent`. -/
def chooseSwapExtent (w : World) (capabilities : VkSurfaceCapabilitiesKHR) : Proc VkExtent2D :=
  if capabilities.currentExtent.width ≠ UINT32_MAX then
    pure capabilities.currentExtent
  else do
    call .glfwGetFramebufferSize
    pure (clampedExtent capabilities w.extentWidth w.extentHeight)

/-- The image count `createSwapchain` requests (32-bit unsigned). -/
def requestedImageCount (capabilities : VkSurfaceCapabilitiesKHR) : Nat :=
  let imageCount := (capabilities.minImageCount + 1) % 2 ^ 32
  if capabilities.maxImageCount > 0 ∧ imageCount > capabilities.maxImageCount then
    capabilities.maxImageCount
  else imageCount

/-- `VulkanAPI::hasStencilComponent`. -/
def hasStencilComponent (format : VkFormat) : Bool :=
  format == .VK_FORMAT_D32_SFLOAT_S8_UINT || format == .VK_FORMAT_D24_UNORM_S8_UINT

/-- `VK_FORMAT_FEATURE_DEPTH_STENCIL_ATTACHMENT_BIT`. -/
def VK_FORMAT_FEATURE_DEPTH_STENCIL_ATTACHMENT_BIT : Nat := 0x200

/-- `VulkanAPI::findSupportedFormat` for optimal tiling; `none` is the failed
`ASH_ASSERT(false, ...)` after the loop. -/
def findSupportedFormat (device : PhysicalDevice) (candidates : List VkFormat)
    (features : Nat) : Option VkFormat :=
  candidates.find? (fun format => Nat.land (device.optimalTilingFeatures format) features == features)

/-- `VulkanAPI::findDepthFormat`. -/
def findDepthFormat : Proc VkFormat := do
  let s ← readState
  match findSupportedFormat s.physicalDevice
      [.VK_FORMAT_D32_SFLOAT, .VK_FORMAT_D32_SFLOAT_S8_UINT, .VK_FORMAT_D24_UNORM_S8_UINT]
      VK_FORMAT_FEATURE_DEPTH_STENCIL_ATTACHMENT_BIT with
  | some format => pure format
  | none => raise .assertion

/-- Entities seen by `registry.view<Renderable>()`. -/
def Scene.renderables (scene : Scene) : List Renderable :=
  scene.registry.filterMap (fun e => e.renderable)

/-- Entities seen by `registry.view<Renderable, Transform>()`, with their
transform. -/
def Scene.renderablesWithTransform (scene : Scene) : List (Renderable × Nat) :=
  scene.registry.filterMap (fun e =>
    match e.renderable, e.transform with
    | some r, some t => some (r, t)
    | _, _ => none)

/-! ## Command recording -/

/-- `graphicsPipelines[name]`: `operator[]` inserts a null pipeline for a
missing key. -/
def pipelineAt (name : String) : Proc Handle := fun s =>
  match s.graphicsPipelines.lookup name with
  | some p => .ok p s
  | none => .ok VK_NULL_HANDLE
      { s with graphicsPipelines := s.graphicsPipelines ++ [(name, VK_NULL_HANDLE)] }

/-- Body of the mesh loop of `recordCommandBuffers`: command buffer `cb` of
image `i`, renderable number `h`, mesh number `j`. -/
def recordMesh (K : Constants) (i : Nat) (cb : Handle) (renderable : Renderable) (h : Nat)
    (j : Nat) (meshRef : Nat) : Proc Unit := do
  let s ← readState
  let mesh := s.renderer.getMesh meshRef
  let pipeline ← pipelineAt renderable.pipeline
  call (.vkCmdBindPipeline cb pipeline)
  call (.vkCmdBindVertexBuffers cb mesh.ivb.buffer)
  call (.vkCmdBindIndexBuffer cb mesh.ivb.buffer mesh.ivb.vertSize)
  let dynamicAllignment := alignedStride K s
  let dynamicOffset := (h * (dynamicAllignment % 2 ^ 32)) % 2 ^ 32
  let ubo ← index s.uboDescriptorSets i
  call (.vkCmdBindDescriptorSets cb s.pipelineLayout 0 ubo [])
  let sets ← index renderable.descriptorSets j
  let set ← index sets i
  call (.vkCmdBindDescriptorSets cb s.pipelineLayout 0 set [dynamicOffset])
  call (.vkCmdDrawIndexed cb mesh.ivb.numIndices)

/-- The renderable loop of `recordCommandBuffers`; `h` is the 32-bit instance
counter. -/
def recordRenderables (K : Constants) (i : Nat) (cb : Handle) :
    Nat → List Renderable → Proc Unit
  | _, [] => pure ()
  | h, renderable :: rest => do
    let s ← readState
    let model := s.renderer.getModel renderable.model
    forEachIdx 0 model.meshes (recordMesh K i cb renderable h)
    recordRenderables K i cb ((h + 1) % 2 ^ 32) rest

/-- Body of the outer loop of `recordCommandBuffers` for command buffer `i`. -/
def recordCommandBuffer (K : Constants) (w : World) (i : Nat) : Proc Unit := do
  let s ← readState
  let cb ← index s.commandBuffers i
  call (.vkBeginCommandBuffer cb)
  ASH_ASSERT (w.result (.vkBeginCommandBuffer cb) == .VK_SUCCESS)
  let framebuffer ← index s.swapchainFramebuffers i
  callS (fun s => .vkCmdBeginRenderPass cb s.renderPass framebuffer s.swapchainExtent)
  callS (fun s => .vkCmdSetViewport cb s.swapchainExtent.width s.swapchainExtent.height)
  callS (fun s => .vkCmdSetScissor cb s.swapchainExtent)
  (match s.scene with
    | some scene => recordRenderables K i cb 0 scene.renderables
    | none => pure ())
  call (.vkCmdEndRenderPass cb)
  call (.vkEndCommandBuffer cb)
  ASH_ASSERT (w.result (.vkEndCommandBuffer cb) == .VK_SUCCESS)

/-- `VulkanAPI::recordCommandBuffers`. -/
def recordCommandBuffers (K : Constants) (w : World) : Proc Unit := do
  let s ← readState
  forRange 0 s.commandBuffers.length (recordCommandBuffer K w)

/-- `VulkanAPI::updateCommandBuffers`. -/
def updateCommandBuffers (K : Constants) (w : World) : Proc Unit := do
  let s ← readState
  call .vkQueueWaitIdle
  call (.vkResetCommandPool s.commandPool)
  recordCommandBuffers K w

/-- `VulkanAPI::updateUniformBuffers`. -/
def updateUniformBuffers (K : Constants) (currentImage : Nat) : Proc Unit := do
  let s ← readState
  let dynamicAllignment := alignedStride K s
  match s.scene with
  | some scene =>
    forEachIdx 0 scene.renderablesWithTransform (fun i entity => do
      let buffer ← index s.uniformBuffers currentImage
      call (.vmaMapMemory buffer)
      call (.memcpy buffer ((i * dynamicAllignment) % 2 ^ 64) K.sizeofUniformBufferObject
        entity.2)
      call (.vmaUnmapMemory buffer))
  | none => pure ()

/-! ## Swapchain and the objects built on it -/

/-- `VulkanAPI::createSwapchain`. -/
def createSwapchain (w : World) : Proc Unit := do
  let s ← readState
  let swapchainSupport := w.support
  let surfaceFormat ← defined (chooseSwapSurfaceFormat swapchainSupport.formats)
  let presentMode := chooseSwapPresentMode swapchainSupport.presentModes
  let extent ← chooseSwapExtent w swapchainSupport.capabilities
  let imageCount := requestedImageCount swapchainSupport.capabilities
  let indices := findQueueFamilies s.physicalDevice
  let graphicsFamily ← value indices.graphicsFamily
  let presentsFamily ← value indices.presentsFamily
  let swapchain ← fresh
  let create := Call.vkCreateSwapchainKHR imageCount surfaceFormat extent presentMode
    (graphicsFamily != presentsFamily) swapchain
  call create
  ASH_ASSERT (w.result create == .VK_SUCCESS)
  let images ← freshN w.swapchainImageCount
  call (.vkGetSwapchainImagesKHR swapchain images)
  update (fun s => { s with
    swapchain := swapchain
    swapchainImages := images
    swapchainImageFormat := surfaceFormat.format
    swapchainExtent := extent })

/-- `VulkanAPI::createImageView`. -/
def createImageView (w : World) (image : Handle) (format : VkFormat)
    (aspectFlags : VkImageAspect) : Proc Handle := do
  let imageView ← fresh
  let create := Call.vkCreateImageView image format aspectFlags imageView
  call create
  ASH_ASSERT (w.result create == .VK_SUCCESS)
  pure imageView

/-- `VulkanAPI::createImageViews`. -/
def createImageViews (w : World) : Proc Unit := do
  let s ← readState
  update (fun s => { s with
    swapchainImageViews := resize s.swapchainImageViews s.swapchainImages.length VK_NULL_HANDLE })
  forRange 0 s.swapchainImages.length (fun i => do
    let s ← readState
    let image ← index s.swapchainImages i
    let view ← createImageView w image s.swapchainImageFormat .VK_IMAGE_ASPECT_COLOR_BIT
    update (fun s => { s with swapchainImageViews := s.swapchainImageViews.set i view }))

/-- `VulkanAPI::createRenderPass`. -/
def createRenderPass (w : World) : Proc Unit := do
  let s ← readState
  let depthFormat ← findDepthFormat
  let renderPass ← fresh
  let create := Call.vkCreateRenderPass s.swapchainImageFormat depthFormat renderPass
  call create
  ASH_ASSERT (w.result create == .VK_SUCCESS)
  update (fun s => { s with renderPass := renderPass })

/-- `VulkanAPI::createImage`. -/
def createImage (w : World) (extent : VkExtent2D) (format : VkFormat) : Proc Handle := do
  let image ← fresh
  let create := Call.vmaCreateImage extent format image
  call create
  ASH_ASSERT (w.result create == .VK_SUCCESS)
  pure image

/-- `VulkanAPI::beginSingleTimeCommands`. -/
def beginSingleTimeCommands : Proc Handle := do
  let s ← readState
  let commandBuffer ← fresh
  call (.vkAllocateCommandBuffers s.commandPool [commandBuffer])
  call (.vkBeginCommandBuffer commandBuffer)
  pure commandBuffer

/-- `VulkanAPI::endSingleTimeCommands`. -/
def endSingleTimeCommands (commandBuffer : Handle) : Proc Unit := do
  let s ← readState
  call (.vkEndCommandBuffer commandBuffer)
  call (.vkQueueSubmit commandBuffer none none VK_NULL_HANDLE)
  call .vkQueueWaitIdle
  call (.vkFreeCommandBuffers s.commandPool [commandBuffer])

/-- `VulkanAPI::transitionImageLayout`. -/
def transitionImageLayout (image : Handle) (format : VkFormat)
    (oldLayout newLayout : VkImageLayout) : Proc Unit := do
  let commandBuffer ← beginSingleTimeCommands
  let aspectMask : List VkImageAspect :=
    if newLayout = .VK_IMAGE_LAYOUT_DEPTH_STENCIL_ATTACHMENT_OPTIMAL then
      if hasStencilComponent format then
        [.VK_IMAGE_ASPECT_DEPTH_BIT, .VK_IMAGE_ASPECT_STENCIL_BIT]
      else [.VK_IMAGE_ASPECT_DEPTH_BIT]
    else [.VK_IMAGE_ASPECT_COLOR_BIT]
  if oldLayout = .VK_IMAGE_LAYOUT_UNDEFINED ∧
      newLayout = .VK_IMAGE_LAYOUT_TRANSFER_DST_OPTIMAL then do
    call (.vkCmdPipelineBarrier commandBuffer .VK_PIPELINE_STAGE_TOP_OF_PIPE_BIT
      .VK_PIPELINE_STAGE_TRANSFER_BIT
      ⟨image, oldLayout, newLayout, aspectMask, [], [.VK_ACCESS_TRANSFER_WRITE_BIT]⟩)
    endSingleTimeCommands commandBuffer
  else if oldLayout = .VK_IMAGE_LAYOUT_TRANSFER_DST_OPTIMAL ∧
      newLayout = .VK_IMAGE_LAYOUT_SHADER_READ_ONLY_OPTIMAL then do
    call (.vkCmdPipelineBarrier commandBuffer .VK_PIPELINE_STAGE_TRANSFER_BIT
      .VK_PIPELINE_STAGE_FRAGMENT_SHADER_BIT
      ⟨image, oldLayout, newLayout, aspectMask, [.VK_ACCESS_TRANSFER_WRITE_BIT],
        [.VK_ACCESS_SHADER_READ_BIT]⟩)
    endSingleTimeCommands commandBuffer
  else if oldLayout = .VK_IMAGE_LAYOUT_UNDEFINED ∧
      newLayout = .VK_IMAGE_LAYOUT_DEPTH_STENCIL_ATTACHMENT_OPTIMAL then do
    call (.vkCmdPipelineBarrier commandBuffer .VK_PIPELINE_STAGE_TOP_OF_PIPE_BIT
      .VK_PIPELINE_STAGE_EARLY_FRAGMENT_TESTS_BIT
      ⟨image, oldLayout, newLayout, aspectMask, [],
        [.VK_ACCESS_DEPTH_STENCIL_ATTACHMENT_READ_BIT,
          .VK_ACCESS_DEPTH_STENCIL_ATTACHMENT_WRITE_BIT]⟩)
    endSingleTimeCommands commandBuffer
  else
    ASH_ASSERT false

/-- `VulkanAPI::createDepthResources`. -/
def createDepthResources (w : World) : Proc Unit := do
  let s ← readState
  let depthFormat ← findDepthFormat
  let depthImage ← createImage w s.swapchainExtent depthFormat
  update (fun s => { s with depthImage := depthImage })
  let depthImageView ← createImageView w depthImage depthFormat .VK_IMAGE_ASPECT_DEPTH_BIT
  update (fun s => { s with depthImageView := depthImageView })
  transitionImageLayout depthImage depthFormat .VK_IMAGE_LAYOUT_UNDEFINED
    .VK_IMAGE_LAYOUT_DEPTH_STENCIL_ATTACHMENT_OPTIMAL

/-- `VulkanAPI::createFramebuffers`. -/
def createFramebuffers (w : World) : Proc Unit := do
  let s ← readState
  update (fun s => { s with
    swapchainFramebuffers :=
      resize s.swapchainFramebuffers s.swapchainImageViews.length VK_NULL_HANDLE })
  forRange 0 s.swapchainImageViews.length (fun i => do
    let s ← readState
    let view ← index s.swapchainImageViews i
    let framebuffer ← fresh
    let create := Call.vkCreateFramebuffer s.renderPass view s.depthImageView
      s.swapchainExtent framebuffer
    call create
    ASH_ASSERT (w.result create == .VK_SUCCESS)
    update (fun s => { s with swapchainFramebuffers := s.swapchainFramebuffers.set i framebuffer }))

/-- `VulkanAPI::createDescriptorPool`. -/
def createDescriptorPool (w : World) (maxSets : Nat) : Proc Unit := do
  let s ← readState
  let pool ← fresh
  let create := Call.vkCreateDescriptorPool
    ((s.swapchainImages.length * maxSets) % 2 ^ 32)
    (s.swapchainImages.length % 2 ^ 32)
    ((s.swapchainImages.length * maxSets) % 2 ^ 32) pool
  call create
  ASH_ASSERT (w.result create == .VK_SUCCESS)
  update (fun s => { s with descriptorPool := pool })

/-- `VulkanAPI::createDescriptorSets(sets, texture)`: returns the new contents
of `sets`. -/
def createDescriptorSets (w : World) (texture : Texture) : Proc (List VkDescriptorSet) := do
  let s ← readState
  let handles ← freshN s.swapchainImages.length
  let sets := handles.map (fun h => VkDescriptorSet.mk s.descriptorPool h)
  let allocate := Call.vkAllocateDescriptorSets s.descriptorPool s.descriptorSetLayout sets
  call allocate
  ASH_ASSERT (w.result allocate == .VK_SUCCESS)
  forEach sets (fun set =>
    call (.vkUpdateDescriptorSets set 1 .VK_DESCRIPTOR_TYPE_COMBINED_IMAGE_SAMPLER
      texture.imageView))
  pure sets

/-- `VulkanAPI::createCommandBuffers`. -/
def createCommandBuffers (K : Constants) (w : World) : Proc Unit := do
  let s ← readState
  let buffers ← freshN s.swapchainFramebuffers.length
  let allocate := Call.vkAllocateCommandBuffers s.commandPool buffers
  call allocate
  update (fun s => { s with commandBuffers := buffers })
  ASH_ASSERT (w.result allocate == .VK_SUCCESS)
  recordCommandBuffers K w

/-- `VulkanAPI::createSyncObjects`. -/
def createSyncObjects (K : Constants) (w : World) : Proc Unit := do
  update (fun s => { s with
    imageAvailableSemaphores :=
      resize s.imageAvailableSemaphores K.MAX_FRAMES_IN_FLIGHT VK_NULL_HANDLE
    renderFinishedSemaphores :=
      resize s.renderFinishedSemaphores K.MAX_FRAMES_IN_FLIGHT VK_NULL_HANDLE
    inFlightFences := resize s.inFlightFences K.MAX_FRAMES_IN_FLIGHT VK_NULL_HANDLE
    imagesInFlight := resize s.imagesInFlight s.swapchainImages.length VK_NULL_HANDLE })
  forRange 0 K.MAX_FRAMES_IN_FLIGHT (fun i => do
    let imageAvailable ← fresh
    call (.vkCreateSemaphore imageAvailable)
    ASH_ASSERT (w.result (.vkCreateSemaphore imageAvailable) == .VK_SUCCESS)
    update (fun s => { s with
      imageAvailableSemaphores := s.imageAvailableSemaphores.set i imageAvailable })
    let renderFinished ← fresh
    call (.vkCreateSemaphore renderFinished)
    ASH_ASSERT (w.result (.vkCreateSemaphore renderFinished) == .VK_SUCCESS)
    update (fun s => { s with
      renderFinishedSemaphores := s.renderFinishedSemaphores.set i renderFinished })
    let fence ← fresh
    call (.vkCreateFence fence)
    ASH_ASSERT (w.result (.vkCreateFence fence) == .VK_SUCCESS)
    update (fun s => { s with inFlightFences := s.inFlightFences.set i fence }))
  let copyFinished ← fresh
  call (.vkCreateFence copyFinished)
  ASH_ASSERT (w.result (.vkCreateFence copyFinished) == .VK_SUCCESS)
  update (fun s => { s with copyFinishedFence := copyFinished })

/-- `VulkanAPI::cleanupSwapchain`. -/
def cleanupSwapchain : Proc Unit := do
  let s ← readState
  call (.vkDestroyImageView s.depthImageView)
  call (.vmaDestroyImage s.depthImage)
  forEach s.swapchainFramebuffers (fun framebuffer => call (.vkDestroyFramebuffer framebuffer))
  call (.vkFreeCommandBuffers s.commandPool s.commandBuffers)
  call (.vkDestroyRenderPass s.renderPass)
  forEach s.swapchainImageViews (fun imageView => call (.vkDestroyImageView imageView))
  call (.vkDestroySwapchainKHR s.swapchain)
  call (.vkDestroyDescriptorPool s.descriptorPool)

/-- The minimised-window loop of `recreateSwapchain`: while the last size read
has a zero component, read the size again and wait for events.  When the
window system has no further event to deliver the wait never returns. -/
def waitWhileMinimized : Int → Int → List Poll → Proc Unit
  | width, height, [] =>
    if width = 0 ∨ height = 0 then raise .blocked else pure ()
  | width, height, p :: rest =>
    if width = 0 ∨ height = 0 then do
      call .glfwGetFramebufferSize
      call .glfwWaitEvents
      update (fun s => { s with framebufferResized := s.framebufferResized || p.resized })
      waitWhileMinimized p.width p.height rest
    else pure ()

/-- The mesh loop of `recreateSwapchain` for one renderable, from mesh index
`i` with `n` meshes left; returns the renderable with its new descriptor
sets. -/
def recreateDescriptorSets (w : World) (model : Model) :
    Nat → Nat → Renderable → Proc Renderable
  | _, 0, renderable => pure renderable
  | i, n + 1, renderable => do
    let _ ← index renderable.descriptorSets i
    let textureRef ← index model.textures i
    let s ← readState
    let sets ← createDescriptorSets w (s.renderer.getTexture textureRef)
    recreateDescriptorSets w model (i + 1) n
      { renderable with descriptorSets := renderable.descriptorSets.set i sets }

/-- The renderable loop of `recreateSwapchain` over the registry; returns the
entities with their renderables updated. -/
def recreateRenderables (w : World) : List Entity → Proc (List Entity)
  | [] => pure []
  | entity :: rest => do
    let entity1 ← match entity.renderable with
      | some renderable => do
        let s ← readState
        let model := s.renderer.getModel renderable.model
        let renderable1 ← recreateDescriptorSets w model 0 model.meshes.length renderable
        pure { entity with renderable := some renderable1 }
      | none => pure entity
    let rest1 ← recreateRenderables w rest
    pure (entity1 :: rest1)

/-- Body of `VulkanAPI::recreateSwapchain`. -/
def recreateBody (K : Constants) (w : World) : Proc Unit := do
  call .glfwGetFramebufferSize
  waitWhileMinimized w.framebufferWidth w.framebufferHeight w.polls
  call .vkDeviceWaitIdle
  cleanupSwapchain
  createSwapchain w
  createImageViews w
  createRenderPass w
  createDepthResources w
  createFramebuffers w
  createDescriptorPool w K.MAX_INSTANCES
  let s ← readState
  (match s.scene with
    | none => raise .undefinedBehaviour
    | some scene => do
      let registry ← recreateRenderables w scene.registry
      update (fun s => { s with scene := some { registry := registry } }))
  createCommandBuffers K w

/-- `VulkanAPI::recreateSwapchain`: the entry is recorded in the trace, then
the body runs. -/
def recreateSwapchain (K : Constants) (w : World) : Proc Unit := do
  call .recreateSwapchain
  recreateBody K w

/-! ## The frame -/

/-- `VulkanAPI::render`. -/
def render (K : Constants) (w : World) : Proc Unit := do
  updateCommandBuffers K w
  let s ← readState
  let fence ← index s.inFlightFences s.currentFrame
  call (.vkWaitForFences fence)
  let imageAvailable ← index s.imageAvailableSemaphores s.currentFrame
  call (.vkAcquireNextImageKHR s.swapchain imageAvailable)
  let imageIndex := w.imageIndex
  if w.acquireResult = .VK_ERROR_OUT_OF_DATE_KHR then
    recreateSwapchain K w
  else do
    ASH_ASSERT (w.acquireResult == .VK_SUCCESS || w.acquireResult == .VK_SUBOPTIMAL_KHR)
    let inFlight ← index s.imagesInFlight imageIndex
    (if inFlight ≠ VK_NULL_HANDLE then call (.vkWaitForFences inFlight) else pure ())
    update (fun s => { s with imagesInFlight := s.imagesInFlight.set imageIndex fence })
    updateUniformBuffers K imageIndex
    let commandBuffer ← index s.commandBuffers imageIndex
    let renderFinished ← index s.renderFinishedSemaphores s.currentFrame
    call (.vkResetFences fence)
    call (.vkQueueSubmit commandBuffer (some imageAvailable) (some renderFinished) fence)
    ASH_ASSERT (w.submitResult == .VK_SUCCESS)
    call (.vkQueuePresentKHR renderFinished s.swapchain imageIndex)
    let s1 ← readState
    (if w.presentResult = .VK_ERROR_OUT_OF_DATE_KHR ∨ w.presentResult = .VK_SUBOPTIMAL_KHR ∨
        s1.framebufferResized = true then do
      update (fun s => { s with framebufferResized := false })
      recreateSwapchain K w
    else
      ASH_ASSERT (w.presentResult == .VK_SUCCESS))
    update (fun s => { s with currentFrame := (s.currentFrame + 1) % K.MAX_FRAMES_IN_FLIGHT })

/-- Calls made during a run that started in state `s`. -/
def emitted {α : Type} (s : State) (o : Outcome α) : List Call :=
  o.state.trace.drop s.trace.length

/-- Consecutive `render()` calls, one world per call; a fault ends the run. -/
def renders (K : Constants) : List World → Proc Unit
  | [] => pure ()
  | w :: ws => do render K w; renders K ws

/-! ## Reasoning about procedures -/

/-- A reflexive, transitive relation between a state and a later one. -/
structure Frame where
  rel : State → State → Prop
  refl : ∀ s, rel s s
  trans : ∀ a b c, rel a b → rel b c → rel a c

/-- Every run of `m`, faulting or not, ends in a state related to its start. -/
def Keeps {α : Type} (F : Frame) (m : Proc α) : Prop := ∀ s, F.rel s (m s).state

/-- The frame "the view `V` is unchanged and every call made satisfies `P`",
where `P` may depend on the view. -/
def frameOf {β : Type} (V : State → β) (P : β → Call → Prop) : Frame where
  rel s t := V t = V s ∧ ∃ seg, t.trace = s.trace ++ seg ∧ ∀ c ∈ seg, P (V s) c
  refl s := ⟨rfl, [], by simp, by simp⟩
  trans a b c := by
    rintro ⟨h1, seg1, e1, p1⟩ ⟨h2, seg2, e2, p2⟩
    refine ⟨h2.trans h1, seg1 ++ seg2, by simp [e2, e1], ?_⟩
    intro x hx
    rcases List.mem_append.mp hx with h | h
    · exact p1 x h
    · exact h1 ▸ p2 x h

/-! ## Classifying calls -/

/-- Calls that use the frame's fences and semaphores: fence waits and resets,
image acquisition, presentation, and a queue submit that waits on or signals
one (the one-off submit of `endSingleTimeCommands` passes none). -/
def Call.usesSync : Call → Bool
  | .vkWaitForFences _ => true
  | .vkResetFences _ => true
  | .vkAcquireNextImageKHR _ _ => true
  | .vkQueuePresentKHR _ _ _ => true
  | .vkQueueSubmit _ wait signal fence => wait.isSome || signal.isSome || fence != VK_NULL_HANDLE
  | _ => false

/-- Calls that record into a command buffer between begin and end. -/
def Call.isRecording : Call → Bool
  | .vkBeginCommandBuffer _ => true
  | .vkEndCommandBuffer _ => true
  | .vkCmdBeginRenderPass _ _ _ _ => true
  | .vkCmdSetViewport _ _ _ => true
  | .vkCmdSetScissor _ _ => true
  | .vkCmdBindPipeline _ _ => true
  | .vkCmdBindVertexBuffers _ _ => true
  | .vkCmdBindIndexBuffer _ _ _ => true
  | .vkCmdBindDescriptorSets _ _ _ _ _ => true
  | .vkCmdDrawIndexed _ _ => true
  | .vkCmdEndRenderPass _ => true
  | _ => false

/-- A viewport, scissor or render-area command uses exactly the extent `e`;
every other call passes. -/
def Call.respectsExtent (e : VkExtent2D) : Call → Bool
  | .vkCmdSetViewport _ width height => width == e.width && height == e.height
  | .vkCmdSetScissor _ extent => extent == e
  | .vkCmdBeginRenderPass _ _ _ extent => extent == e
  | _ => true

/-- The three calls `updateUniformBuffers` makes. -/
def Call.isUniformWrite : Call → Bool
  | .vmaMapMemory _ => true
  | .memcpy _ _ _ _ => true
  | .vmaUnmapMemory _ => true
  | _ => false

/-- Entry into `recreateSwapchain`. -/
def Call.isRecreate : Call → Bool
  | .recreateSwapchain => true
  | _ => false

/-- Creation or destruction of the swapchain object itself. -/
def Call.isSwapchainLifecycle : Call → Bool
  | .vkCreateSwapchainKHR _ _ _ _ _ _ => true
  | .vkDestroySwapchainKHR _ => true
  | _ => false

/-- Queue submits of any kind. -/
def Call.isQueueSubmit : Call → Bool
  | .vkQueueSubmit _ _ _ _ => true
  | _ => false

/-- Calls that create, allocate, destroy or free a driver object. -/
def Call.isLifecycle : Call → Bool
  | .vkAllocateCommandBuffers _ _ => true
  | .vkFreeCommandBuffers _ _ => true
  | .vkDestroyImageView _ => true
  | .vmaDestroyImage _ => true
  | .vkDestroyFramebuffer _ => true
  | .vkDestroyRenderPass _ => true
  | .vkDestroySwapchainKHR _ => true
  | .vkDestroyDescriptorPool _ => true
  | .vkCreateSwapchainKHR _ _ _ _ _ _ => true
  | .vkCreateImageView _ _ _ _ => true
  | .vkCreateRenderPass _ _ _ => true
  | .vmaCreateImage _ _ _ => true
  | .vkCreateFramebuffer _ _ _ _ _ => true
  | .vkCreateDescriptorPool _ _ _ _ => true
  | .vkAllocateDescriptorSets _ _ _ => true
  | .vkCreateSemaphore _ => true
  | .vkCreateFence _ => true
  | _ => false

/-! ## Views of the state -/

/-- Everything `recordCommandBuffers` leaves alone: the state with the trace
and the pipeline registry blanked. -/
def recordView (s : State) : State :=
  { s with trace := [], graphicsPipelines := [] }

/-- Everything `updateUniformBuffers` leaves alone. -/
def uniformView (s : State) : State :=
  { s with trace := [] }

/-- Everything the rebuild steps after `createSwapchain` leave alone. -/
def rebuildView (s : State) : State :=
  { s with
    trace := []
    nextHandle := 0
    graphicsPipelines := []
    swapchainImageViews := []
    swapchainFramebuffers := []
    renderPass := 0
    depthImage := 0
    depthImageView := 0
    descriptorPool := 0
    commandBuffers := []
    scene := none }

/-- Everything `recreateSwapchain` leaves alone. -/
def recreateView (s : State) : State :=
  { rebuildView s with
    swapchain := 0
    swapchainImages := []
    swapchainImageFormat := .other 0
    swapchainExtent := ⟨0, 0⟩
    framebufferResized := false }

/-- Frame of `recordCommandBuffers`: only recording calls, all with the
current extent. -/
@[reducible]
def recordFrame : Frame :=
  frameOf recordView (fun v c => c.isRecording = true ∧ c.respectsExtent v.swapchainExtent = true)

/-- Calls that neither synchronise the frame, re-enter the recreation, create
or destroy the swapchain, nor record with an extent other than `e`. -/
def Call.isBackground (e : VkExtent2D) (c : Call) : Bool :=
  !c.usesSync && !c.isRecreate && !c.isSwapchainLifecycle && c.respectsExtent e

/-- Frame of `updateCommandBuffers`. -/
@[reducible]
def updateFrame : Frame :=
  frameOf recordView (fun v c => c.isBackground v.swapchainExtent = true ∧ c.isLifecycle = false)

/-- Frame of `updateUniformBuffers`. -/
@[reducible]
def uniformFrame : Frame :=
  frameOf uniformView (fun _ c => c.isUniformWrite = true)

/-- Frame of the rebuild steps after `createSwapchain`: no frame
synchronisation, no re-entry, no swapchain creation or destruction, recording
only with the current extent. -/
@[reducible]
def rebuildFrame : Frame :=
  frameOf rebuildView (fun v c => c.isBackground v.swapchainExtent = true)

/-- Frame of the steps of `recreateSwapchain` after its entry. -/
@[reducible]
def recreateFrame : Frame :=
  frameOf recreateView (fun _ c => c.usesSync = false ∧ c.isRecreate = false)

/-- Frame of `recreateSwapchain` as a whole. -/
@[reducible]
def recreateEntryFrame : Frame :=
  frameOf recreateView (fun _ c => c.usesSync = false)

/-- The frame "a slot index below `MAX_FRAMES_IN_FLIGHT` stays below it". -/
def slotFrame (K : Constants) : Frame where
  rel s t := s.currentFrame < K.MAX_FRAMES_IN_FLIGHT → t.currentFrame < K.MAX_FRAMES_IN_FLIGHT
  refl _ h := h
  trans _ _ _ h1 h2 h := h2 (h1 h)

/-! ## Reading traces -/

/-- The frame-synchronisation calls of a trace, in order. -/
def syncCalls (t : List Call) : List Call := t.filter Call.usesSync

/-- Number of entries into `recreateSwapchain` in a trace. -/
def recreations (t : List Call) : Nat := t.countP Call.isRecreate

/-- Steps 1 to 7 of the frame state machine as the spec lists them, for the
slot `currentFrame` of `s` and the image index the world hands out: wait on
the slot's fence, acquire, wait on the image's fence if one is recorded, reset
the slot's fence, submit, present. -/
def frameProtocol (s : State) (w : World) : List Call :=
  let fence := s.inFlightFences.getD s.currentFrame VK_NULL_HANDLE
  let imageAvailable := s.imageAvailableSemaphores.getD s.currentFrame VK_NULL_HANDLE
  let renderFinished := s.renderFinishedSemaphores.getD s.currentFrame VK_NULL_HANDLE
  let inFlight := s.imagesInFlight.getD w.imageIndex VK_NULL_HANDLE
  let commandBuffer := s.commandBuffers.getD w.imageIndex VK_NULL_HANDLE
  [.vkWaitForFences fence, .vkAcquireNextImageKHR s.swapchain imageAvailable] ++
    (if inFlight ≠ VK_NULL_HANDLE then [.vkWaitForFences inFlight] else []) ++
    [.vkResetFences fence,
      .vkQueueSubmit commandBuffer (some imageAvailable) (some renderFinished) fence,
      .vkQueuePresentKHR renderFinished s.swapchain w.imageIndex]

/-! ## A small running engine -/

/-- Two frames in flight, sixteen instances, a 192-byte uniform block. -/
def demoConstants : Constants :=
  { MAX_FRAMES_IN_FLIGHT := 2, MAX_INSTANCES := 16, sizeofUniformBufferObject := 192 }

/-- A device with one queue family that does graphics and presents, a 256-byte
uniform alignment and depth support for every format. -/
def demoDevice : PhysicalDevice :=
  { handle := 1
    queueFamilies := [⟨true, true⟩]
    minUniformBufferOffsetAlignment := 256
    linearTilingFeatures := fun _ => 0
    optimalTilingFeatures := fun _ => 0x200 }

/-- Every model owns one mesh and one texture. -/
def demoRenderer : Renderer :=
  { getModel := fun _ => ⟨[0], [0]⟩
    getMesh := fun _ => ⟨⟨50, 64, 6⟩⟩
    getTexture := fun _ => ⟨60, 61⟩ }

/-- An engine state as `init` leaves it for a two-image swapchain, with a
scene of one renderable that has a transform. -/
def demoState : State :=
  { physicalDevice := demoDevice
    swapchain := 2
    swapchainImages := [3, 4]
    swapchainImageFormat := .VK_FORMAT_B8G8R8_SRGB
    swapchainExtent := ⟨800, 600⟩
    swapchainImageViews := [5, 6]
    swapchainFramebuffers := [7, 8]
    renderPass := 9
    depthImage := 10
    depthImageView := 11
    descriptorPool := 12
    descriptorSetLayout := 13
    uboDescriptorSets := [⟨12, 14⟩, ⟨12, 15⟩]
    uniformBuffers := [16, 17]
    textureSampler := 18
    pipelineLayout := 19
    graphicsPipelines := [("main", 20)]
    commandPool := 21
    commandBuffers := [22, 23]
    imageAvailableSemaphores := [24, 25]
    renderFinishedSemaphores := [26, 27]
    inFlightFences := [28, 29]
    imagesInFlight := [0, 0]
    copyFinishedFence := 30
    textures := []
    instanceHandle := 40
    debugMessenger := 0
    surface := 41
    device := 42
    allocator := 43
    pipelineCache := 44
    imageDescriptorSetLayout := 45
    transferCommandPool := 46
    indexedVertexBuffers := [⟨50, 64, 6⟩]
    pipelineObjects := []
    enableValidationLayers := false
    currentFrame := 0
    framebufferResized := false
    scene := some ⟨[⟨some ⟨0, "main", [[⟨12, 31⟩, ⟨12, 32⟩]]⟩, some 7⟩]⟩
    renderer := demoRenderer
    trace := []
    nextHandle := 100 }

/-- What the driver reports for `demoDevice`. -/
def demoReport : DeviceReport :=
  { device := demoDevice
    availableExtensions := ["VK_KHR_swapchain"]
    swapChainSupport :=
      { capabilities := ⟨2, 0, ⟨800, 600⟩, ⟨1, 1⟩, ⟨4096, 4096⟩⟩
        formats := [⟨.VK_FORMAT_B8G8R8_SRGB, .VK_COLOR_SPACE_SRGB_NONLINEAR_KHR⟩]
        presentModes := [.VK_PRESENT_MODE_FIFO_KHR] }
    samplerAnisotropy := true }

/-- A world in which every call succeeds, image `0` is acquired, the
surface offers a fixed 800 by 600 extent and two images, one device is
enumerated and every image file decodes to 2 by 2 pixels. -/
def demoWorld : World :=
  { result := fun _ => .VK_SUCCESS
    acquireResult := .VK_SUCCESS
    imageIndex := 0
    submitResult := .VK_SUCCESS
    presentResult := .VK_SUCCESS
    framebufferWidth := 800
    framebufferHeight := 600
    polls := []
    support :=
      { capabilities := ⟨2, 0, ⟨800, 600⟩, ⟨1, 1⟩, ⟨4096, 4096⟩⟩
        formats := [⟨.VK_FORMAT_B8G8R8_SRGB, .VK_COLOR_SPACE_SRGB_NONLINEAR_KHR⟩]
        presentModes := [.VK_PRESENT_MODE_FIFO_KHR] }
    extentWidth := 800
    extentHeight := 600
    swapchainImageCount := 2
    devices := [demoReport]
    stbi_load := fun _ => ⟨some 1, 2, 2⟩ }

/-- The world of `demoWorld` with a suboptimal acquire. -/
def suboptimalWorld : World :=
  { demoWorld with acquireResult := .VK_SUBOPTIMAL_KHR }

/-! ## Destruction and creation steps -/

/-- What a call destroys or creates: a destroying or freeing call as it was made,
or the kind of object a creating or allocating call makes. -/
inductive Step
  | destroy (c : Call)
  | createSwapchain
  | createImageView (aspect : VkImageAspect)
  | createRenderPass
  | createImage
  | createFramebuffer
  | createDescriptorPool
  | allocateDescriptorSets (pool : Handle) (count : Nat)
  | allocateCommandBuffers (count : Nat)
  | createSemaphore
  | createFence
deriving DecidableEq, Repr

/-- The step a call performs, if it destroys or creates anything. -/
def Call.step : Call → Option Step
  | .vkFreeCommandBuffers pool buffers => some (.destroy (.vkFreeCommandBuffers pool buffers))
  | .vkDestroyImageView view => some (.destroy (.vkDestroyImageView view))
  | .vmaDestroyImage image => some (.destroy (.vmaDestroyImage image))
  | .vkDestroyFramebuffer framebuffer => some (.destroy (.vkDestroyFramebuffer framebuffer))
  | .vkDestroyRenderPass renderPass => some (.destroy (.vkDestroyRenderPass renderPass))
  | .vkDestroySwapchainKHR swapchain => some (.destroy (.vkDestroySwapchainKHR swapchain))
  | .vkDestroyDescriptorPool pool => some (.destroy (.vkDestroyDescriptorPool pool))
  | .vkCreateSwapchainKHR _ _ _ _ _ _ => some .createSwapchain
  | .vkCreateImageView _ _ aspect _ => some (.createImageView aspect)
  | .vkCreateRenderPass _ _ _ => some .createRenderPass
  | .vmaCreateImage _ _ _ => some .createImage
  | .vkCreateFramebuffer _ _ _ _ _ => some .createFramebuffer
  | .vkCreateDescriptorPool _ _ _ _ => some .createDescriptorPool
  | .vkAllocateDescriptorSets pool _ sets => some (.allocateDescriptorSets pool sets.length)
  | .vkAllocateCommandBuffers _ buffers => some (.allocateCommandBuffers buffers.length)
  | .vkCreateSemaphore _ => some .createSemaphore
  | .vkCreateFence _ => some .createFence
  | _ => none

/-- The destruction and creation steps of a trace, in order. -/
def steps (t : List Call) : List Step := t.filterMap Call.step

/-- The calls of `cleanupSwapchain` on the state `s`, in source order. -/
def teardownCalls (s : State) : List Call :=
  [.vkDestroyImageView s.depthImageView, .vmaDestroyImage s.depthImage] ++
    s.swapchainFramebuffers.map Call.vkDestroyFramebuffer ++
    [.vkFreeCommandBuffers s.commandPool s.commandBuffers, .vkDestroyRenderPass s.renderPass] ++
    s.swapchainImageViews.map Call.vkDestroyImageView ++
    [.vkDestroySwapchainKHR s.swapchain, .vkDestroyDescriptorPool s.descriptorPool]

/-- The creation steps in the order the recreation protocol lists them, for
`n` presentable images, `sets` meshes over all renderables, the new descriptor
pool `pool`, and the one-off command buffer `transient` of the depth-image layout
transition, which belongs to the depth resources. -/
def rebuildSteps (n sets : Nat) (pool commandPool transient : Handle) : List Step :=
  [.createSwapchain] ++
    List.replicate n (.createImageView .VK_IMAGE_ASPECT_COLOR_BIT) ++
    [.createRenderPass] ++
    [.createImage, .createImageView .VK_IMAGE_ASPECT_DEPTH_BIT, .allocateCommandBuffers 1,
      .destroy (.vkFreeCommandBuffers commandPool [transient])] ++
    List.replicate n .createFramebuffer ++
    [.createDescriptorPool] ++
    List.replicate sets (.allocateDescriptorSets pool n) ++
    [.allocateCommandBuffers n]

/-- The framebuffer size with which the minimised-window loop of
`recreateSwapchain` exits, if it does. -/
def settledSize : Int → Int → List Poll → Option (Int × Int)
  | width, height, [] => if width = 0 ∨ height = 0 then none else some (width, height)
  | width, height, p :: rest =>
    if width = 0 ∨ height = 0 then settledSize p.width p.height rest else some (width, height)

/-- Whether a wait of the minimised-window loop delivered a resize
notification before the loop exits. -/
def resizedWhileWaiting : Int → Int → List Poll → Bool
  | _, _, [] => false
  | width, height, p :: rest =>
    if width = 0 ∨ height = 0 then p.resized || resizedWhileWaiting p.width p.height rest
    else false

/-- Number of meshes over all renderables of a registry: one call of
`createDescriptorSets(sets, texture)` is made for each. -/
def meshCount (renderer : Renderer) (registry : List Entity) : Nat :=
  ((registry.filterMap (fun e => e.renderable)).map
    (fun r => (renderer.getModel r.model).meshes.length)).sum

/-- Everything `createImageViews` leaves alone. -/
def imageViewsView (s : State) : State :=
  { s with trace := [], nextHandle := 0, swapchainImageViews := [] }

/-- Everything `createFramebuffers` leaves alone. -/
def framebuffersView (s : State) : State :=
  { s with trace := [], nextHandle := 0, swapchainFramebuffers := [] }

/-- Everything the descriptor-set loop of `recreateSwapchain` leaves alone in
the engine state. -/
def handlesView (s : State) : State :=
  { s with trace := [], nextHandle := 0 }

/-- Everything `createCommandBuffers` leaves alone. -/
def commandBuffersView (s : State) : State :=
  { s with trace := [], nextHandle := 0, commandBuffers := [], graphicsPipelines := [] }

/-- Everything `createSyncObjects` leaves alone. -/
def syncView (s : State) : State :=
  { s with
    trace := []
    nextHandle := 0
    imageAvailableSemaphores := []
    renderFinishedSemaphores := []
    inFlightFences := []
    imagesInFlight := []
    copyFinishedFence := 0 }

/-- The running engine with a scene without entities, before
`createSyncObjects`, the last step of `init`. -/
def preSyncState : State :=
  { demoState with
    scene := some { registry := [] }
    imageAvailableSemaphores := []
    renderFinishedSemaphores := []
    inFlightFences := []
    imagesInFlight := []
    copyFinishedFence := 0 }

/-- The world of `demoWorld` in which the surface hands out three images, the
third of which is acquired. -/
def threeImageWorld : World :=
  { demoWorld with swapchainImageCount := 3, imageIndex := 2 }

/-! ## Draws and their dynamic offsets -/

/-- What matters of a recording call for the draws: the start of a command
buffer, a descriptor-set bind that carries dynamic offsets, a draw. -/
inductive DrawEvent
  | begin (cb : Handle)
  | offsets (cb : Handle) (dynamicOffsets : List Nat)
  | draw (cb : Handle)
deriving DecidableEq, Repr

/-- The draw event of a call, if it is one. -/
def Call.drawEvent : Call → Option DrawEvent
  | .vkBeginCommandBuffer cb => some (.begin cb)
  | .vkCmdBindDescriptorSets cb _ _ _ (o :: os) => some (.offsets cb (o :: os))
  | .vkCmdDrawIndexed cb _ => some (.draw cb)
  | _ => none

/-- The draw events of a trace, in order. -/
def drawEvents (t : List Call) : List DrawEvent := t.filterMap Call.drawEvent

/-- The draws of one renderable with `M` meshes into `cb`, each issued right
after the bind that carries `offset`. -/
def drawsAt (cb : Handle) (offset M : Nat) : List DrawEvent :=
  (List.replicate M [DrawEvent.offsets cb [offset], DrawEvent.draw cb]).flatten

/-- The draws of `R` renderables with `M` meshes each into `cb`, numbered from
`lo`: renderable `i` draws with the 32-bit offset `(i * stride) mod 2^32`. -/
def drawsFrom (cb : Handle) (stride M lo R : Nat) : List DrawEvent :=
  ((List.range' lo R).map (fun i => drawsAt cb ((i * stride) % 2 ^ 32) M)).flatten

/-- A device whose uniform-buffer offset alignment is `2^31`. -/
def wideDevice : PhysicalDevice :=
  { demoDevice with minUniformBufferOffsetAlignment := 2 ^ 31 }

/-- The running engine on `wideDevice` with three renderables of one mesh. -/
def wideState : State :=
  { demoState with
    physicalDevice := wideDevice
    scene := some ⟨[⟨some ⟨0, "main", [[⟨12, 31⟩, ⟨12, 32⟩]]⟩, some 7⟩,
      ⟨some ⟨0, "main", [[⟨12, 33⟩, ⟨12, 34⟩]]⟩, some 8⟩,
      ⟨some ⟨0, "main", [[⟨12, 35⟩, ⟨12, 36⟩]]⟩, some 9⟩]⟩ }

/-! ## Device selection -/

/-- `VK_KHR_SWAPCHAIN_EXTENSION_NAME`. -/
def VK_KHR_SWAPCHAIN_EXTENSION_NAME : String := "VK_KHR_swapchain"

/-- The member `deviceExtensions` of `VulkanAPI`. -/
def deviceExtensions : List String := [VK_KHR_SWAPCHAIN_EXTENSION_NAME]

/-- `VulkanAPI::checkDeviceExtensionSupport`: every available name is erased
from the set of required names, and the set must end empty. -/
def checkDeviceExtensionSupport (device : DeviceReport) : Bool :=
  (device.availableExtensions.foldl
    (fun requiredExtensions extensionName =>
      requiredExtensions.filter (fun r => r != extensionName))
    deviceExtensions).isEmpty

/-- `VulkanAPI::isDeviceSuitable`. -/
def isDeviceSuitable (device : DeviceReport) : Bool :=
  let indices := findQueueFamilies device.device
  let extensionsSupported := checkDeviceExtensionSupport device
  let swapChainAdequate :=
    if extensionsSupported then
      !device.swapChainSupport.formats.isEmpty && !device.swapChainSupport.presentModes.isEmpty
    else false
  indices.isComplete && extensionsSupported && swapChainAdequate && device.samplerAnisotropy

/-- `VK_NULL_HANDLE` as a physical device; no property is queried from it. -/
def nullPhysicalDevice : PhysicalDevice :=
  { handle := VK_NULL_HANDLE
    queueFamilies := []
    minUniformBufferOffsetAlignment := 0
    linearTilingFeatures := fun _ => 0
    optimalTilingFeatures := fun _ => 0 }

/-- The device loop of `pickPhysicalDevice`: the first suitable device is
stored and ends the loop. -/
def pickFirstSuitable : List DeviceReport → Proc Unit
  | [] => pure ()
  | device :: rest =>
    if isDeviceSuitable device then
      update (fun s => { s with physicalDevice := device.device })
    else pickFirstSuitable rest

/-- `VulkanAPI::pickPhysicalDevice`. -/
def pickPhysicalDevice (w : World) : Proc Unit := do
  update (fun s => { s with physicalDevice := nullPhysicalDevice })
  let deviceCount := w.devices.length
  ASH_ASSERT (deviceCount != 0)
  pickFirstSuitable w.devices
  let s ← readState
  ASH_ASSERT (s.physicalDevice.handle != VK_NULL_HANDLE)

/-! ## Textures -/

/-- `VulkanAPI::createBuffer`. -/
def createBuffer (w : World) (size : Nat) : Proc Handle := do
  let buffer ← fresh
  let create := Call.vmaCreateBuffer size buffer
  call create
  ASH_ASSERT (w.result create == .VK_SUCCESS)
  pure buffer

/-- Pipeline barriers. -/
def Call.isPipelineBarrier : Call → Bool
  | .vkCmdPipelineBarrier _ _ _ _ => true
  | _ => false

/-- `VulkanAPI::createInstance`. -/
def createInstance (w : World) : Proc Unit := do
  let handle ← fresh
  let create := Call.vkCreate .VkInstance handle
  call create
  update (fun s => { s with instanceHandle := handle })
  ASH_ASSERT (w.result create == .VK_SUCCESS)

/-- `VulkanAPI::setupDebugMessenger`. -/
def setupDebugMessenger (w : World) : Proc Unit := do
  let s ← readState
  if !s.enableValidationLayers then pure ()
  else do
    let handle ← fresh
    let create := Call.vkCreate .VkDebugUtilsMessengerEXT handle
    call create
    update (fun s => { s with debugMessenger := handle })
    ASH_ASSERT (w.result create == .VK_SUCCESS)

/-- `VulkanAPI::createSurface`. -/
def createSurface (w : World) : Proc Unit := do
  let handle ← fresh
  let create := Call.vkCreate .VkSurfaceKHR handle
  call create
  update (fun s => { s with surface := handle })
  ASH_ASSERT (w.result create == .VK_SUCCESS)

/-- `VulkanAPI::createLogicalDevice`. -/
def createLogicalDevice (w : World) : Proc Unit := do
  let s ← readState
  let indices := findQueueFamilies s.physicalDevice
  let _ ← value indices.graphicsFamily
  let _ ← value indices.presentsFamily
  let handle ← fresh
  let create := Call.vkCreate .VkDevice handle
  call create
  update (fun s => { s with device := handle })
  ASH_ASSERT (w.result create == .VK_SUCCESS)

/-- `VulkanAPI::createAllocator`. -/
def createAllocator (w : World) : Proc Unit := do
  let handle ← fresh
  let create := Call.vkCreate .VmaAllocator handle
  call create
  update (fun s => { s with allocator := handle })
  ASH_ASSERT (w.result create == .VK_SUCCESS)

/-- `VulkanAPI::createPipelineCache`. -/
def createPipelineCache (w : World) : Proc Unit := do
  let handle ← fresh
  let create := Call.vkCreate .VkPipelineCache handle
  call create
  update (fun s => { s with pipelineCache := handle })
  ASH_ASSERT (w.result create == .VK_SUCCESS)

/-- `VulkanAPI::createDescriptorSetLayout`: two layouts are created, the
second into `imageDescriptorSetLayout`. -/
def createDescriptorSetLayout (w : World) : Proc Unit := do
  let layout ← fresh
  let create := Call.vkCreate .VkDescriptorSetLayout layout
  call create
  update (fun s => { s with descriptorSetLayout := layout })
  ASH_ASSERT (w.result create == .VK_SUCCESS)
  let imageLayout ← fresh
  let createImageLayout := Call.vkCreate .VkDescriptorSetLayout imageLayout
  call createImageLayout
  update (fun s => { s with imageDescriptorSetLayout := imageLayout })
  ASH_ASSERT (w.result createImageLayout == .VK_SUCCESS)

/-- `VulkanAPI::createShaderModule`. -/
def createShaderModule (w : World) : Proc Handle := do
  let module ← fresh
  let create := Call.vkCreate .VkShaderModule module
  call create
  ASH_ASSERT (w.result create == .VK_SUCCESS)
  pure module

/-- `graphicsPipelines[name] = pipeline`: an existing key gets the new value,
a missing key is added. -/
def assignPipeline (name : String) (pipeline : Handle) (registry : List (String × Handle)) :
    List (String × Handle) :=
  match registry.lookup name with
  | some _ => registry.map (fun e => if e.1 = name then (e.1, pipeline) else e)
  | none => registry ++ [(name, pipeline)]

/-- The stage loop of `createGraphicsPipelines` for one pipeline, from stage
`i` with `n` stages left; returns `shaderModules`. -/
def createStageModules (w : World) (pipeline : Pipeline) :
    Nat → Nat → List Handle → Proc (List Handle)
  | _, 0, shaderModules => pure shaderModules
  | i, n + 1, shaderModules => do
    let _ ← index pipeline.paths i
    let module ← createShaderModule w
    createStageModules w pipeline (i + 1) n (shaderModules ++ [module])

/-- Body of the pipeline loop of `createGraphicsPipelines`. -/
def createUserPipeline (w : World) (pipeline : Pipeline) : Proc Unit := do
  let shaderModules ← createStageModules w pipeline 0 pipeline.stages.length []
  let handle ← fresh
  let create := Call.vkCreate .VkPipeline handle
  call create
  update (fun s => { s with
    graphicsPipelines := assignPipeline pipeline.name handle s.graphicsPipelines })
  ASH_ASSERT (w.result create == .VK_SUCCESS)
  forEach shaderModules (fun module => call (.vkDestroy .VkShaderModule module))

/-- `VulkanAPI::createGraphicsPipelines`. -/
def createGraphicsPipelines (w : World) (pipelines : List Pipeline) : Proc Unit := do
  update (fun s => { s with pipelineObjects := pipelines })
  let vertShaderModule ← createShaderModule w
  let fragShaderModule ← createShaderModule w
  let layout ← fresh
  let createLayout := Call.vkCreate .VkPipelineLayout layout
  call createLayout
  update (fun s => { s with pipelineLayout := layout })
  ASH_ASSERT (w.result createLayout == .VK_SUCCESS)
  let main ← fresh
  let create := Call.vkCreate .VkPipeline main
  call create
  update (fun s => { s with graphicsPipelines := assignPipeline "main" main s.graphicsPipelines })
  ASH_ASSERT (w.result create == .VK_SUCCESS)
  forEach pipelines (createUserPipeline w)
  call (.vkDestroy .VkShaderModule vertShaderModule)
  call (.vkDestroy .VkShaderModule fragShaderModule)

/-- The size `createUniformBuffers` gives every uniform buffer, a 64-bit
`VkDeviceSize`. -/
def uniformBufferSize (K : Constants) (s : State) : Nat :=
  (alignedStride K s * K.MAX_INSTANCES) % 2 ^ 64

/-- `VulkanAPI::createUniformBuffers`. -/
def createUniformBuffers (K : Constants) (w : World) : Proc Unit := do
  let s ← readState
  let bufferSize := uniformBufferSize K s
  update (fun s => { s with
    uniformBuffers := resize s.uniformBuffers s.swapchainImages.length VK_NULL_HANDLE })
  forRange 0 s.swapchainImages.length (fun i => do
    let buffer ← createBuffer w bufferSize
    update (fun s => { s with uniformBuffers := s.uniformBuffers.set i buffer }))

/-- `VulkanAPI::createDescriptorSets()`, the overload without parameters: it
allocates the per-image uniform descriptor sets when there are none and
points each at its uniform buffer. -/
def createUboDescriptorSets (w : World) : Proc Unit := do
  let s ← readState
  (if s.uboDescriptorSets.length = 0 then do
    let handles ← freshN s.swapchainImages.length
    let sets := handles.map (fun h => VkDescriptorSet.mk s.descriptorPool h)
    let allocate := Call.vkAllocateDescriptorSets s.descriptorPool s.descriptorSetLayout sets
    call allocate
    update (fun s => { s with uboDescriptorSets := sets })
    ASH_ASSERT (w.result allocate == .VK_SUCCESS)
  else pure ())
  forRange 0 s.swapchainImages.length (fun i => do
    let s ← readState
    let buffer ← index s.uniformBuffers i
    let set ← index s.uboDescriptorSets i
    call (.vkUpdateDescriptorSets set 0 .VK_DESCRIPTOR_TYPE_UNIFORM_BUFFER_DYNAMIC buffer))

/-- `VulkanAPI::createCommandPools`. -/
def createCommandPools (w : World) : Proc Unit := do
  let s ← readState
  let queueFamilyIndices := findQueueFamilies s.physicalDevice
  let _ ← value queueFamilyIndices.graphicsFamily
  let pool ← fresh
  let create := Call.vkCreate .VkCommandPool pool
  call create
  update (fun s => { s with commandPool := pool })
  ASH_ASSERT (w.result create == .VK_SUCCESS)
  let transferPool ← fresh
  let createTransfer := Call.vkCreate .VkCommandPool transferPool
  call createTransfer
  update (fun s => { s with transferCommandPool := transferPool })
  ASH_ASSERT (w.result createTransfer == .VK_SUCCESS)

/-- `VulkanAPI::createTextureSampler`. -/
def createTextureSampler (w : World) : Proc Unit := do
  let sampler ← fresh
  let create := Call.vkCreate .VkSampler sampler
  call create
  update (fun s => { s with textureSampler := sampler })
  ASH_ASSERT (w.result create == .VK_SUCCESS)

/-- `VulkanAPI::init`. -/
def init (K : Constants) (w : World) (pipelines : List Pipeline) : Proc Unit := do
  createInstance w
  setupDebugMessenger w
  createSurface w
  pickPhysicalDevice w
  createLogicalDevice w
  createAllocator w
  createSwapchain w
  createImageViews w
  createRenderPass w
  createPipelineCache w
  createDescriptorSetLayout w
  createGraphicsPipelines w pipelines
  createDescriptorPool w K.MAX_INSTANCES
  createUniformBuffers K w
  createUboDescriptorSets w
  createCommandPools w
  createDepthResources w
  createFramebuffers w
  createCommandBuffers K w
  createTextureSampler w
  createSyncObjects K w

/-! ## Teardown -/

/-- `VulkanAPI::cleanup`.  The members are read once on entry: none of the
calls made changes them.  The pipelines are destroyed in the order of the
registry list; the iteration order of the map is not modelled. -/
def cleanup (K : Constants) : Proc Unit := do
  let s ← readState
  call .vkDeviceWaitIdle
  call (.vkDestroy .VkPipelineCache s.pipelineCache)
  cleanupSwapchain
  call (.vkDestroy .VkSampler s.textureSampler)
  forEach s.textures (fun texture => do
    call (.vkDestroyImageView texture.imageView)
    call (.vmaDestroyImage texture.image))
  forEach s.graphicsPipelines (fun pipeline => call (.vkDestroy .VkPipeline pipeline.2))
  call (.vkDestroy .VkPipelineLayout s.pipelineLayout)
  forEach s.uniformBuffers (fun buffer => call (.vmaDestroyBuffer buffer))
  call (.vkDestroy .VkDescriptorSetLayout s.descriptorSetLayout)
  forEach s.indexedVertexBuffers (fun ivb => call (.vmaDestroyBuffer ivb.buffer))
  call (.vkDestroy .VmaAllocator s.allocator)
  forRange 0 K.MAX_FRAMES_IN_FLIGHT (fun i => do
    let imageAvailable ← index s.imageAvailableSemaphores i
    call (.vkDestroy .VkSemaphore imageAvailable)
    let renderFinished ← index s.renderFinishedSemaphores i
    call (.vkDestroy .VkSemaphore renderFinished)
    let fence ← index s.inFlightFences i
    call (.vkDestroy .VkFence fence))
  call (.vkDestroy .VkFence s.copyFinishedFence)
  call (.vkDestroy .VkCommandPool s.commandPool)
  call (.vkDestroy .VkCommandPool s.transferCommandPool)
  call (.vkDestroy .VkDevice s.device)
  (if s.enableValidationLayers then call (.vkDestroy .VkDebugUtilsMessengerEXT s.debugMessenger)
    else pure ())
  call (.vkDestroy .VkSurfaceKHR s.surface)
  call (.vkDestroy .VkInstance s.instanceHandle)

/-- The running engine with no scene set. -/
def sceneless : State :=
  { demoState with scene := none }

/-! ## The set index of a bind and the pipeline registry -/

/-- The set index (`firstSet`) a descriptor-set bind is made at. -/
def Call.firstSet : Call → Option Nat
  | .vkCmdBindDescriptorSets _ _ firstSet _ _ => some firstSet
  | _ => none

/-- The frame "every descriptor-set bind made is at set index 0". -/
def slotZeroFrame : Frame :=
  frameOf (fun _ => ()) (fun _ c => c.firstSet = none ∨ c.firstSet = some 0)

/-- The frame "every entry of the pipeline registry keeps its value, and an entry
that was not there holds the null pipeline". -/
def registryFrame : Frame where
  rel s t :=
    (∀ name v, s.graphicsPipelines.lookup name = some v →
      t.graphicsPipelines.lookup name = some v) ∧
    (∀ name, s.graphicsPipelines.lookup name = none →
      t.graphicsPipelines.lookup name = none ∨
        t.graphicsPipelines.lookup name = some VK_NULL_HANDLE)
  refl _ := ⟨fun _ _ h => h, fun _ h => Or.inl h⟩
  trans a b c := by
    rintro ⟨h1, n1⟩ ⟨h2, n2⟩
    refine ⟨fun name v h => h2 name v (h1 name v h), fun name h => ?_⟩
    rcases n1 name h with hb | hb
    · exact n2 name hb
    · exact Or.inr (h2 name _ hb)

/-- The running engine whose only renderable names the pipeline `"glow"`, which
is not in the registry. -/
def strayState : State :=
  { demoState with scene := some ⟨[⟨some ⟨0, "glow", [[⟨12, 31⟩, ⟨12, 32⟩]]⟩, some 7⟩]⟩ }

/-! ## Reading a teardown trace -/

/-- What `cleanup` calls before it destroys the device allocator. -/
def cleanupFront (s : State) : List Call :=
  [.vkDeviceWaitIdle, .vkDestroy .VkPipelineCache s.pipelineCache] ++ teardownCalls s ++
    [.vkDestroy .VkSampler s.textureSampler] ++
    (s.textures.map (fun texture =>
      [Call.vkDestroyImageView texture.imageView, Call.vmaDestroyImage texture.image])).flatten ++
    s.graphicsPipelines.map (fun pipeline => Call.vkDestroy .VkPipeline pipeline.2) ++
    [.vkDestroy .VkPipelineLayout s.pipelineLayout] ++
    s.uniformBuffers.map Call.vmaDestroyBuffer ++
    [.vkDestroy .VkDescriptorSetLayout s.descriptorSetLayout] ++
    s.indexedVertexBuffers.map (fun ivb => Call.vmaDestroyBuffer ivb.buffer)

/-- What `cleanup` calls between destroying the device allocator and
destroying the logical device. -/
def cleanupMid (K : Constants) (s : State) : List Call :=
  ((List.range' 0 K.MAX_FRAMES_IN_FLIGHT).map (fun i =>
    [Call.vkDestroy .VkSemaphore (s.imageAvailableSemaphores.getD i 0),
      Call.vkDestroy .VkSemaphore (s.renderFinishedSemaphores.getD i 0),
      Call.vkDestroy .VkFence (s.inFlightFences.getD i 0)])).flatten ++
    [.vkDestroy .VkFence s.copyFinishedFence, .vkDestroy .VkCommandPool s.commandPool,
      .vkDestroy .VkCommandPool s.transferCommandPool]

/-- What `cleanup` calls after it destroyed the logical device. -/
def cleanupBack (s : State) : List Call :=
  (if s.enableValidationLayers then
      [Call.vkDestroy .VkDebugUtilsMessengerEXT s.debugMessenger] else []) ++
    [.vkDestroy .VkSurfaceKHR s.surface, .vkDestroy .VkInstance s.instanceHandle]

/-! ## Writes into uniform buffers -/

/-- The buffer whose mapped memory a call of `updateUniformBuffers` maps,
writes or unmaps. -/
def Call.writesBuffer : Call → Option Handle
  | .vmaMapMemory buffer => some buffer
  | .memcpy buffer _ _ _ => some buffer
  | .vmaUnmapMemory buffer => some buffer
  | _ => none

/-- Two frames in flight and room for two instances in a uniform buffer. -/
def smallConstants : Constants :=
  { MAX_FRAMES_IN_FLIGHT := 2, MAX_INSTANCES := 2, sizeofUniformBufferObject := 192 }

/-- The running engine with three renderables that have a transform. -/
def crowdedState : State :=
  { demoState with
    scene := some ⟨[⟨some ⟨0, "main", [[⟨12, 31⟩, ⟨12, 32⟩]]⟩, some 7⟩,
      ⟨some ⟨0, "main", [[⟨12, 33⟩, ⟨12, 34⟩]]⟩, some 8⟩,
      ⟨some ⟨0, "main", [[⟨12, 35⟩, ⟨12, 36⟩]]⟩, some 9⟩]⟩ }

/-- The engine before `createUniformBuffers`: no uniform buffers yet. -/
def bufferlessState : State :=
  { demoState with uniformBuffers := [] }

/-- The running engine with an entity that has a renderable and no transform
in front of the entity that has both. -/
def orphanState : State :=
  { demoState with
    scene := some ⟨[⟨some ⟨0, "main", [[⟨12, 33⟩, ⟨12, 34⟩]]⟩, none⟩,
      ⟨some ⟨0, "main", [[⟨12, 31⟩, ⟨12, 32⟩]]⟩, some 7⟩]⟩ }

/-! ## The descriptor-set layouts from `init` to `cleanup` -/

/-- The frame "the two descriptor-set layouts stay the same objects"; the trace
only grows. -/
def layoutFrame : Frame :=
  frameOf (fun s => (s.descriptorSetLayout, s.imageDescriptorSetLayout)) (fun _ _ => True)

/-- The engine before `init`: no swapchain objects, no pipelines, no
synchronisation objects, no scene. -/
def bootState : State :=
  { demoState with
    swapchainImages := []
    swapchainImageViews := []
    swapchainFramebuffers := []
    uboDescriptorSets := []
    uniformBuffers := []
    graphicsPipelines := []
    commandBuffers := []
    imageAvailableSemaphores := []
    renderFinishedSemaphores := []
    inFlightFences := []
    imagesInFlight := []
    indexedVertexBuffers := []
    scene := none
    nextHandle := 1 }

/-- A caller-supplied pipeline with a vertex and a fragment stage. -/
def glowPipeline : Pipeline :=
  { name := "glow"
    stages := [.VERTEX_SHADER_STAGE, .FRAGMENT_SHADER_STAGE]
    paths := ["glow.vert.spv", "glow.frag.spv"] }

/-- The frame "the pipeline registry and the uniform buffers stay the same
objects and no call made maps, writes or unmaps a buffer". -/
@[reducible]
def quietFrame : Frame :=
  frameOf (fun s => (s.graphicsPipelines, s.uniformBuffers))
    (fun _ c => c.writesBuffer = none)

/-! # Theorems -/

/-! ## Running the primitives -/

@[simp]
theorem run_pure {α : Type} (a : α) (s : State) : (pure a : Proc α) s = .ok a s := rfl

@[simp]
theorem run_bind {α β : Type} (m : Proc α) (f : α → Proc β) (s : State) :
    (m >>= f) s = match m s with
      | .ok a s1 => f a s1
      | .fault e s1 => .fault e s1 := rfl

@[simp]
theorem run_readState (s : State) : readState s = .ok s s := rfl

@[simp]
theorem run_update (f : State → State) (s : State) : update f s = .ok () (f s) := rfl

@[simp]
theorem run_call (c : Call) (s : State) :
    call c s = .ok () { s with trace := s.trace ++ [c] } := rfl

@[simp]
theorem run_callS (c : State → Call) (s : State) :
    callS c s = .ok () { s with trace := s.trace ++ [c s] } := rfl

@[simp]
theorem run_raise {α : Type} (f : Fault) (s : State) : (raise f : Proc α) s = .fault f s := rfl

@[simp]
theorem run_ASH_ASSERT (cond : Bool) (s : State) :
    ASH_ASSERT cond s = if cond then .ok () s else .fault .assertion s := rfl

@[simp]
theorem run_fresh (s : State) :
    fresh s = .ok s.nextHandle { s with nextHandle := s.nextHandle + 1 } := rfl

@[simp]
theorem run_freshN (n : Nat) (s : State) :
    freshN n s = .ok (List.range' s.nextHandle n) { s with nextHandle := s.nextHandle + n } :=
  rfl

@[simp]
theorem state_ok {α : Type} (a : α) (s : State) : (Outcome.ok a s).state = s := rfl

@[simp]
theorem state_fault {α : Type} (f : Fault) (s : State) :
    (Outcome.fault f s : Outcome α).state = s := rfl

/-! ## Frame rules -/

theorem keeps_pure {α : Type} (F : Frame) (a : α) : Keeps F (pure a : Proc α) :=
  fun s => F.refl s

theorem keeps_raise {α : Type} (F : Frame) (f : Fault) : Keeps F (raise f : Proc α) :=
  fun s => F.refl s

theorem keeps_readState (F : Frame) : Keeps F readState := fun s => F.refl s

theorem keeps_ASH_ASSERT (F : Frame) (cond : Bool) : Keeps F (ASH_ASSERT cond) := by
  intro s
  cases cond <;> exact F.refl s

theorem keeps_index {α : Type} (F : Frame) (xs : List α) (i : Nat) : Keeps F (index xs i) := by
  intro s
  unfold index
  cases xs[i]? <;> exact F.refl s

theorem keeps_value {α : Type} (F : Frame) (o : Option α) : Keeps F (value o) := by
  intro s
  cases o <;> exact F.refl s

theorem keeps_defined {α : Type} (F : Frame) (o : Option α) : Keeps F (defined o) := by
  intro s
  cases o <;> exact F.refl s

theorem keeps_bind {α β : Type} (F : Frame) (m : Proc α) (f : α → Proc β)
    (hm : Keeps F m) (hf : ∀ a, Keeps F (f a)) : Keeps F (m >>= f) := by
  intro s
  have h1 := hm s
  simp only [run_bind]
  cases h : m s with
  | ok a s1 =>
    rw [h] at h1
    exact F.trans _ _ _ h1 (hf a s1)
  | fault e s1 =>
    rw [h] at h1
    exact h1

theorem keeps_forEach {α : Type} (F : Frame) (xs : List α) (f : α → Proc Unit)
    (hf : ∀ a, Keeps F (f a)) : Keeps F (forEach xs f) := by
  induction xs with
  | nil => exact keeps_pure F ()
  | cons x xs ih => exact keeps_bind F _ _ (hf x) (fun _ => ih)

theorem keeps_forEachIdx {α : Type} (F : Frame) (xs : List α) (f : Nat → α → Proc Unit)
    (hf : ∀ i a, Keeps F (f i a)) (lo : Nat) : Keeps F (forEachIdx lo xs f) := by
  induction xs generalizing lo with
  | nil => exact keeps_pure F ()
  | cons x xs ih => exact keeps_bind F _ _ (hf lo x) (fun _ => ih (lo + 1))

theorem keeps_forRange (F : Frame) (n : Nat) (f : Nat → Proc Unit)
    (hf : ∀ i, Keeps F (f i)) (lo : Nat) : Keeps F (forRange lo n f) := by
  induction n generalizing lo with
  | zero => exact keeps_pure F ()
  | succ n ih => exact keeps_bind F _ _ (hf lo) (fun _ => ih (lo + 1))

theorem keeps_call {β : Type} (V : State → β) (P : β → Call → Prop) (c : Call)
    (hV : ∀ s t, V { s with trace := t } = V s) (hc : ∀ s, P (V s) c) :
    Keeps (frameOf V P) (call c) := by
  intro s
  refine ⟨hV s _, [c], rfl, ?_⟩
  simpa using hc s

theorem keeps_callS {β : Type} (V : State → β) (P : β → Call → Prop) (c : State → Call)
    (hV : ∀ s t, V { s with trace := t } = V s) (hc : ∀ s, P (V s) (c s)) :
    Keeps (frameOf V P) (callS c) := by
  intro s
  refine ⟨hV s _, [c s], rfl, ?_⟩
  simpa using hc s

theorem keeps_update {β : Type} (V : State → β) (P : β → Call → Prop) (f : State → State)
    (hV : ∀ s, V (f s) = V s) (ht : ∀ s, (f s).trace = s.trace) :
    Keeps (frameOf V P) (update f) := by
  intro s
  exact ⟨hV s, [], by simp [ht], by simp⟩

theorem keeps_fresh {β : Type} (V : State → β) (P : β → Call → Prop)
    (hV : ∀ s n, V { s with nextHandle := n } = V s) :
    Keeps (frameOf V P) fresh := by
  intro s
  exact ⟨hV s _, [], by simp, by simp⟩

theorem keeps_freshN {β : Type} (V : State → β) (P : β → Call → Prop) (n : Nat)
    (hV : ∀ s n, V { s with nextHandle := n } = V s) :
    Keeps (frameOf V P) (freshN n) := by
  intro s
  exact ⟨hV s _, [], by simp, by simp⟩

/-! ## Frames of the engine procedures -/

theorem keeps_mono {α : Type} (F G : Frame) (m : Proc α)
    (h : ∀ s t, F.rel s t → G.rel s t) (hm : Keeps F m) : Keeps G m :=
  fun s => h _ _ (hm s)

theorem frameOf_mono {β γ : Type} (V : State → β) (W : State → γ)
    (P : β → Call → Prop) (Q : γ → Call → Prop)
    (hV : ∀ s t, V t = V s → W t = W s) (hP : ∀ s c, P (V s) c → Q (W s) c)
    (s t : State) (h : (frameOf V P).rel s t) : (frameOf W Q).rel s t := by
  obtain ⟨h1, seg, e, p⟩ := h
  exact ⟨hV s t h1, seg, e, fun c hc => hP s c (p c hc)⟩

theorem keeps_pipelineAt {β : Type} (V : State → β) (P : β → Call → Prop) (name : String)
    (hV : ∀ s g, V { s with graphicsPipelines := g } = V s) :
    Keeps (frameOf V P) (pipelineAt name) := by
  intro s
  unfold pipelineAt
  cases s.graphicsPipelines.lookup name with
  | some p => exact (frameOf V P).refl s
  | none => exact ⟨hV s _, [], by simp, by simp⟩

theorem keeps_recordMesh (K : Constants) (i : Nat) (cb : Handle) (r : Renderable) (h j m : Nat) :
    Keeps recordFrame (recordMesh K i cb r h j m) := by
  unfold recordMesh
  repeat' with_reducible first
    | apply keeps_bind
    | apply keeps_readState
    | apply keeps_index
    | apply keeps_pure
    | apply keeps_pipelineAt
    | apply keeps_call
    | intro _
  all_goals first | rfl | exact ⟨rfl, rfl⟩

theorem keeps_recordRenderables (K : Constants) (i : Nat) (cb : Handle) (h : Nat)
    (rs : List Renderable) : Keeps recordFrame (recordRenderables K i cb h rs) := by
  induction rs generalizing h with
  | nil => exact keeps_pure _ _
  | cons r rs ih =>
    unfold recordRenderables
    repeat' with_reducible first
      | apply keeps_bind
      | apply keeps_readState
      | apply keeps_forEachIdx
      | apply keeps_recordMesh
      | apply ih
      | intro _

theorem keeps_recordCommandBuffer (K : Constants) (w : World) (i : Nat) :
    Keeps recordFrame (recordCommandBuffer K w i) := by
  unfold recordCommandBuffer
  repeat' with_reducible first
    | apply keeps_bind
    | apply keeps_readState
    | apply keeps_index
    | apply keeps_pure
    | apply keeps_ASH_ASSERT
    | apply keeps_recordRenderables
    | apply keeps_call
    | apply keeps_callS
    | split
    | intro _
  all_goals first | rfl | exact ⟨rfl, rfl⟩ | simp [Call.isRecording, Call.respectsExtent, recordView]

theorem keeps_recordCommandBuffers (K : Constants) (w : World) :
    Keeps recordFrame (recordCommandBuffers K w) := by
  unfold recordCommandBuffers
  repeat' with_reducible first
    | apply keeps_bind
    | apply keeps_readState
    | apply keeps_forRange
    | apply keeps_recordCommandBuffer
    | intro _

/-- Recording calls are neither synchronisation, re-entry nor lifecycle calls. -/
theorem isRecording_background (c : Call) (h : c.isRecording = true) :
    c.usesSync = false ∧ c.isRecreate = false ∧ c.isSwapchainLifecycle = false ∧
      c.isLifecycle = false := by
  cases c <;> simp_all [Call.isRecording, Call.usesSync, Call.isRecreate,
    Call.isSwapchainLifecycle, Call.isLifecycle]

theorem recordFrame_le_updateFrame (s t : State) (h : recordFrame.rel s t) :
    updateFrame.rel s t := by
  refine frameOf_mono _ _ _ _ (fun _ _ h => h) ?_ s t h
  rintro s c ⟨h1, h2⟩
  obtain ⟨a, b, c1, d⟩ := isRecording_background c h1
  simp [Call.isBackground, a, b, c1, d, h2]

theorem keeps_updateCommandBuffers (K : Constants) (w : World) :
    Keeps updateFrame (updateCommandBuffers K w) := by
  unfold updateCommandBuffers
  have hrec := keeps_mono _ _ _ recordFrame_le_updateFrame (keeps_recordCommandBuffers K w)
  repeat' with_reducible first
    | exact hrec
    | apply keeps_bind
    | apply keeps_readState
    | apply keeps_call
    | intro _
  all_goals first | rfl | simp [Call.isBackground, Call.isLifecycle, Call.usesSync,
    Call.isRecreate, Call.isSwapchainLifecycle, Call.respectsExtent]

theorem keeps_updateUniformBuffers (K : Constants) (i : Nat) :
    Keeps uniformFrame (updateUniformBuffers K i) := by
  unfold updateUniformBuffers
  repeat' with_reducible first
    | apply keeps_bind
    | apply keeps_readState
    | apply keeps_index
    | apply keeps_pure
    | apply keeps_forEachIdx
    | apply keeps_call
    | split
    | intro _
  all_goals rfl

theorem keeps_createImageView (w : World) (image : Handle) (format : VkFormat)
    (aspect : VkImageAspect) : Keeps rebuildFrame (createImageView w image format aspect) := by
  unfold createImageView
  repeat' with_reducible first
    | apply keeps_bind
    | apply keeps_pure
    | apply keeps_fresh
    | apply keeps_ASH_ASSERT
    | apply keeps_call
    | intro _
  all_goals rfl

theorem keeps_createImageViews (w : World) : Keeps rebuildFrame (createImageViews w) := by
  unfold createImageViews
  have h1 := keeps_createImageView w
  repeat' with_reducible first
    | apply h1
    | apply keeps_bind
    | apply keeps_readState
    | apply keeps_index
    | apply keeps_forRange
    | apply keeps_update
    | intro _
  all_goals rfl

theorem keeps_findDepthFormat (F : Frame) : Keeps F findDepthFormat := by
  unfold findDepthFormat
  repeat' with_reducible first
    | apply keeps_bind
    | apply keeps_readState
    | apply keeps_pure
    | apply keeps_raise
    | split
    | intro _

theorem keeps_createRenderPass (w : World) : Keeps rebuildFrame (createRenderPass w) := by
  unfold createRenderPass
  repeat' with_reducible first
    | apply keeps_findDepthFormat
    | apply keeps_bind
    | apply keeps_readState
    | apply keeps_fresh
    | apply keeps_ASH_ASSERT
    | apply keeps_call
    | apply keeps_update
    | intro _
  all_goals rfl

theorem keeps_createImage (w : World) (extent : VkExtent2D) (format : VkFormat) :
    Keeps rebuildFrame (createImage w extent format) := by
  unfold createImage
  repeat' with_reducible first
    | apply keeps_bind
    | apply keeps_pure
    | apply keeps_fresh
    | apply keeps_ASH_ASSERT
    | apply keeps_call
    | intro _
  all_goals rfl

theorem keeps_beginSingleTimeCommands : Keeps rebuildFrame beginSingleTimeCommands := by
  unfold beginSingleTimeCommands
  repeat' with_reducible first
    | apply keeps_bind
    | apply keeps_pure
    | apply keeps_readState
    | apply keeps_fresh
    | apply keeps_call
    | intro _
  all_goals rfl

theorem keeps_endSingleTimeCommands (cb : Handle) :
    Keeps rebuildFrame (endSingleTimeCommands cb) := by
  unfold endSingleTimeCommands
  repeat' with_reducible first
    | apply keeps_bind
    | apply keeps_pure
    | apply keeps_readState
    | apply keeps_call
    | intro _
  all_goals rfl

theorem keeps_transitionImageLayout (image : Handle) (format : VkFormat)
    (oldLayout newLayout : VkImageLayout) :
    Keeps rebuildFrame (transitionImageLayout image format oldLayout newLayout) := by
  unfold transitionImageLayout
  have h1 := keeps_beginSingleTimeCommands
  have h2 := keeps_endSingleTimeCommands
  repeat' with_reducible first
    | exact h1
    | apply h2
    | apply keeps_bind
    | apply keeps_ASH_ASSERT
    | apply keeps_call
    | split
    | intro _
  all_goals rfl

theorem keeps_createDepthResources (w : World) : Keeps rebuildFrame (createDepthResources w) := by
  unfold createDepthResources
  have h1 := keeps_createImage w
  have h2 := keeps_createImageView w
  have h3 := keeps_transitionImageLayout
  repeat' with_reducible first
    | apply keeps_findDepthFormat
    | apply h1
    | apply h2
    | apply h3
    | apply keeps_bind
    | apply keeps_readState
    | apply keeps_update
    | intro _
  all_goals rfl

theorem keeps_createFramebuffers (w : World) : Keeps rebuildFrame (createFramebuffers w) := by
  unfold createFramebuffers
  repeat' with_reducible first
    | apply keeps_bind
    | apply keeps_readState
    | apply keeps_index
    | apply keeps_fresh
    | apply keeps_ASH_ASSERT
    | apply keeps_forRange
    | apply keeps_call
    | apply keeps_update
    | intro _
  all_goals rfl

theorem keeps_createDescriptorPool (w : World) (maxSets : Nat) :
    Keeps rebuildFrame (createDescriptorPool w maxSets) := by
  unfold createDescriptorPool
  repeat' with_reducible first
    | apply keeps_bind
    | apply keeps_readState
    | apply keeps_fresh
    | apply keeps_ASH_ASSERT
    | apply keeps_call
    | apply keeps_update
    | intro _
  all_goals rfl

theorem keeps_createDescriptorSets (w : World) (texture : Texture) :
    Keeps rebuildFrame (createDescriptorSets w texture) := by
  unfold createDescriptorSets
  repeat' with_reducible first
    | apply keeps_bind
    | apply keeps_readState
    | apply keeps_pure
    | apply keeps_freshN
    | apply keeps_ASH_ASSERT
    | apply keeps_forEach
    | apply keeps_call
    | intro _
  all_goals rfl

theorem keeps_recreateDescriptorSets (w : World) (model : Model) (i n : Nat) (r : Renderable) :
    Keeps rebuildFrame (recreateDescriptorSets w model i n r) := by
  induction n generalizing i r with
  | zero => exact keeps_pure _ _
  | succ n ih =>
    unfold recreateDescriptorSets
    repeat' with_reducible first
      | apply ih
      | apply keeps_createDescriptorSets
      | apply keeps_bind
      | apply keeps_readState
      | apply keeps_index
      | intro _

theorem keeps_recreateRenderables (w : World) (es : List Entity) :
    Keeps rebuildFrame (recreateRenderables w es) := by
  induction es with
  | nil => exact keeps_pure _ _
  | cons e es ih =>
    unfold recreateRenderables
    repeat' with_reducible first
      | exact ih
      | apply keeps_recreateDescriptorSets
      | apply keeps_bind
      | apply keeps_readState
      | apply keeps_pure
      | split
      | intro _

theorem recordFrame_le_rebuildFrame (s t : State) (h : recordFrame.rel s t) :
    rebuildFrame.rel s t := by
  refine frameOf_mono _ _ _ _ (fun a b h => ?_) ?_ s t h
  · exact (congrArg rebuildView h : rebuildView (recordView b) = rebuildView (recordView a))
  · rintro s c ⟨h1, h2⟩
    obtain ⟨a, b, c1, _⟩ := isRecording_background c h1
    have h3 : (rebuildView s).swapchainExtent = (recordView s).swapchainExtent := rfl
    simp [Call.isBackground, a, b, c1, h2, h3]

theorem keeps_createCommandBuffers (K : Constants) (w : World) :
    Keeps rebuildFrame (createCommandBuffers K w) := by
  unfold createCommandBuffers
  have hrec := keeps_mono _ _ _ recordFrame_le_rebuildFrame (keeps_recordCommandBuffers K w)
  repeat' with_reducible first
    | exact hrec
    | apply keeps_bind
    | apply keeps_readState
    | apply keeps_freshN
    | apply keeps_ASH_ASSERT
    | apply keeps_call
    | apply keeps_update
    | intro _
  all_goals rfl

theorem rebuildFrame_le_recreateFrame (s t : State) (h : rebuildFrame.rel s t) :
    recreateFrame.rel s t := by
  refine frameOf_mono _ _ _ _ (fun a b h => ?_) ?_ s t h
  · exact (congrArg recreateView h : recreateView (rebuildView b) = recreateView (rebuildView a))
  · intro s c h1
    simp only [Call.isBackground, Bool.and_eq_true, Bool.not_eq_true'] at h1
    exact ⟨h1.1.1.1, h1.1.1.2⟩

theorem keeps_cleanupSwapchain : Keeps recreateFrame cleanupSwapchain := by
  unfold cleanupSwapchain
  repeat' with_reducible first
    | apply keeps_bind
    | apply keeps_readState
    | apply keeps_forEach
    | apply keeps_call
    | intro _
  all_goals first | rfl | exact ⟨rfl, rfl⟩

theorem keeps_chooseSwapExtent (w : World) (caps : VkSurfaceCapabilitiesKHR) :
    Keeps recreateFrame (chooseSwapExtent w caps) := by
  unfold chooseSwapExtent
  repeat' with_reducible first
    | apply keeps_bind
    | apply keeps_pure
    | apply keeps_call
    | split
    | intro _
  all_goals first | rfl | exact ⟨rfl, rfl⟩

theorem keeps_createSwapchain (w : World) : Keeps recreateFrame (createSwapchain w) := by
  unfold createSwapchain
  have h1 := keeps_chooseSwapExtent w
  repeat' with_reducible first
    | apply h1
    | apply keeps_bind
    | apply keeps_readState
    | apply keeps_pure
    | apply keeps_raise
    | apply keeps_value
    | apply keeps_defined
    | apply keeps_fresh
    | apply keeps_freshN
    | apply keeps_ASH_ASSERT
    | apply keeps_call
    | apply keeps_update
    | split
    | intro _
  all_goals first | rfl | exact ⟨rfl, rfl⟩

theorem keeps_waitWhileMinimized (width height : Int) (polls : List Poll) :
    Keeps recreateFrame (waitWhileMinimized width height polls) := by
  induction polls generalizing width height with
  | nil =>
    unfold waitWhileMinimized
    split
    · exact keeps_raise _ _
    · exact keeps_pure _ _
  | cons p rest ih =>
    unfold waitWhileMinimized
    unfold recreateFrame at *
    repeat' with_reducible first
      | apply ih
      | apply keeps_bind
      | apply keeps_pure
      | apply keeps_call
      | apply keeps_update
      | split
      | intro _
    all_goals first | rfl | exact ⟨rfl, rfl⟩

theorem recreateFrame_le_entry (s t : State) (h : recreateFrame.rel s t) :
    recreateEntryFrame.rel s t :=
  frameOf_mono _ _ _ _ (fun _ _ h => h) (fun _ _ h => h.1) s t h

theorem keeps_recreateBody (K : Constants) (w : World) :
    Keeps recreateFrame (recreateBody K w) := by
  unfold recreateBody
  have h1 := keeps_waitWhileMinimized w.framebufferWidth w.framebufferHeight w.polls
  have h2 := keeps_cleanupSwapchain
  have h3 := keeps_createSwapchain w
  have h4 := keeps_mono _ _ _ rebuildFrame_le_recreateFrame (keeps_createImageViews w)
  have h5 := keeps_mono _ _ _ rebuildFrame_le_recreateFrame (keeps_createRenderPass w)
  have h6 := keeps_mono _ _ _ rebuildFrame_le_recreateFrame (keeps_createDepthResources w)
  have h7 := keeps_mono _ _ _ rebuildFrame_le_recreateFrame (keeps_createFramebuffers w)
  have h8 := keeps_mono _ _ _ rebuildFrame_le_recreateFrame
    (keeps_createDescriptorPool w K.MAX_INSTANCES)
  have h9 := fun es => keeps_mono _ _ _ rebuildFrame_le_recreateFrame
    (keeps_recreateRenderables w es)
  have h10 := keeps_mono _ _ _ rebuildFrame_le_recreateFrame (keeps_createCommandBuffers K w)
  repeat' with_reducible first
    | exact h1
    | exact h2
    | exact h3
    | exact h4
    | exact h5
    | exact h6
    | exact h7
    | exact h8
    | apply h9
    | exact h10
    | apply keeps_bind
    | apply keeps_readState
    | apply keeps_raise
    | apply keeps_call
    | apply keeps_update
    | split
    | intro _
  all_goals first | rfl | exact ⟨rfl, rfl⟩

/-! ## What `render` does -/

theorem bind_ok_inv {α β : Type} {m : Proc α} {f : α → Proc β} {s s' : State} {b : β}
    (h : (m >>= f) s = .ok b s') : ∃ a s1, m s = .ok a s1 ∧ f a s1 = .ok b s' := by
  simp only [run_bind] at h
  cases hm : m s with
  | ok a s1 => rw [hm] at h; exact ⟨a, s1, rfl, h⟩
  | fault e s1 => rw [hm] at h; cases h

theorem index_ok_inv {α : Type} {xs : List α} {i : Nat} {s s' : State} {a : α}
    (h : index xs i s = .ok a s') : xs[i]? = some a ∧ s = s' := by
  unfold index at h
  cases hx : xs[i]? with
  | none => rw [hx] at h; cases h
  | some x => rw [hx] at h; cases h; exact ⟨rfl, rfl⟩

theorem ASH_ASSERT_ok_inv {cond : Bool} {s s' : State} {a : Unit}
    (h : ASH_ASSERT cond s = .ok a s') : cond = true ∧ s = s' := by
  cases cond
  · cases h
  · cases h; exact ⟨rfl, rfl⟩

theorem readState_ok_inv {s s' a : State} (h : readState s = .ok a s') : s = a ∧ s = s' := by
  cases h; exact ⟨rfl, rfl⟩

theorem call_ok_inv {c : Call} {s s' : State} {a : Unit} (h : call c s = .ok a s') :
    s' = { s with trace := s.trace ++ [c] } := by
  cases h; rfl

theorem update_ok_inv {f : State → State} {s s' : State} {a : Unit}
    (h : update f s = .ok a s') : s' = f s := by
  cases h; rfl

theorem render_ok_inv (K : Constants) (w : World) (s s' : State)
    (h : render K w s = .ok () s') (hood : w.acquireResult ≠ .VK_ERROR_OUT_OF_DATE_KHR) :
    ∃ s1 s2 s3 fence imageAvailable inFlight commandBuffer renderFinished,
      updateCommandBuffers K w s = .ok () s1 ∧
      s1.inFlightFences[s1.currentFrame]? = some fence ∧
      s1.imageAvailableSemaphores[s1.currentFrame]? = some imageAvailable ∧
      s1.imagesInFlight[w.imageIndex]? = some inFlight ∧
      s1.commandBuffers[w.imageIndex]? = some commandBuffer ∧
      s1.renderFinishedSemaphores[s1.currentFrame]? = some renderFinished ∧
      (w.acquireResult = .VK_SUCCESS ∨ w.acquireResult = .VK_SUBOPTIMAL_KHR) ∧
      w.submitResult = .VK_SUCCESS ∧
      updateUniformBuffers K w.imageIndex
        { s1 with
          trace := s1.trace ++ [.vkWaitForFences fence,
            .vkAcquireNextImageKHR s1.swapchain imageAvailable] ++
            (if inFlight ≠ VK_NULL_HANDLE then [.vkWaitForFences inFlight] else [])
          imagesInFlight := s1.imagesInFlight.set w.imageIndex fence } = .ok () s2 ∧
      ((w.presentResult = .VK_ERROR_OUT_OF_DATE_KHR ∨ w.presentResult = .VK_SUBOPTIMAL_KHR ∨
          s2.framebufferResized = true) ∧
        recreateSwapchain K w
          { s2 with
            trace := s2.trace ++ [.vkResetFences fence,
              .vkQueueSubmit commandBuffer (some imageAvailable) (some renderFinished) fence,
              .vkQueuePresentKHR renderFinished s1.swapchain w.imageIndex]
            framebufferResized := false } = .ok () s3 ∨
       ¬ (w.presentResult = .VK_ERROR_OUT_OF_DATE_KHR ∨ w.presentResult = .VK_SUBOPTIMAL_KHR ∨
          s2.framebufferResized = true) ∧ w.presentResult = .VK_SUCCESS ∧
        s3 = { s2 with
            trace := s2.trace ++ [.vkResetFences fence,
              .vkQueueSubmit commandBuffer (some imageAvailable) (some renderFinished) fence,
              .vkQueuePresentKHR renderFinished s1.swapchain w.imageIndex] }) ∧
      s' = { s3 with currentFrame := (s3.currentFrame + 1) % K.MAX_FRAMES_IN_FLIGHT } := by
  unfold render at h
  replace h := bind_ok_inv h
  obtain ⟨_, s1, h1, h⟩ := h
  replace h := bind_ok_inv h
  obtain ⟨_, _, hr, h⟩ := h
  replace hr := readState_ok_inv hr
  obtain ⟨rfl, rfl⟩ := hr
  replace h := bind_ok_inv h
  obtain ⟨fence, _, hF, h⟩ := h
  replace hF := index_ok_inv hF
  obtain ⟨hF, rfl⟩ := hF
  replace h := bind_ok_inv h
  obtain ⟨_, _, hc, h⟩ := h
  replace hc := call_ok_inv hc
  subst hc
  replace h := bind_ok_inv h
  obtain ⟨imageAvailable, _, hS, h⟩ := h
  replace hS := index_ok_inv hS
  obtain ⟨hS, rfl⟩ := hS
  replace h := bind_ok_inv h
  obtain ⟨_, _, hc, h⟩ := h
  replace hc := call_ok_inv hc
  subst hc
  dsimp only at h
  rw [if_neg hood] at h
  replace h := bind_ok_inv h
  obtain ⟨_, _, hA, h⟩ := h
  replace hA := ASH_ASSERT_ok_inv hA
  obtain ⟨hA, rfl⟩ := hA
  replace h := bind_ok_inv h
  obtain ⟨inFlight, _, hI, h⟩ := h
  replace hI := index_ok_inv hI
  obtain ⟨hI, rfl⟩ := hI
  replace h := bind_ok_inv h
  obtain ⟨_, sa, hW, h⟩ := h
  replace h := bind_ok_inv h
  obtain ⟨_, _, hu, h⟩ := h
  replace hu := update_ok_inv hu
  subst hu
  replace h := bind_ok_inv h
  obtain ⟨_, s2, hU, h⟩ := h
  replace h := bind_ok_inv h
  obtain ⟨commandBuffer, _, hC, h⟩ := h
  replace hC := index_ok_inv hC
  obtain ⟨hC, rfl⟩ := hC
  replace h := bind_ok_inv h
  obtain ⟨renderFinished, _, hR, h⟩ := h
  replace hR := index_ok_inv hR
  obtain ⟨hR, rfl⟩ := hR
  replace h := bind_ok_inv h
  obtain ⟨_, _, hc, h⟩ := h
  replace hc := call_ok_inv hc
  subst hc
  replace h := bind_ok_inv h
  obtain ⟨_, _, hc, h⟩ := h
  replace hc := call_ok_inv hc
  subst hc
  replace h := bind_ok_inv h
  obtain ⟨_, _, hB, h⟩ := h
  replace hB := ASH_ASSERT_ok_inv hB
  obtain ⟨hB, rfl⟩ := hB
  replace h := bind_ok_inv h
  obtain ⟨_, _, hc, h⟩ := h
  replace hc := call_ok_inv hc
  subst hc
  replace h := bind_ok_inv h
  obtain ⟨_, _, hr, h⟩ := h
  replace hr := readState_ok_inv hr
  obtain ⟨rfl, rfl⟩ := hr
  replace h := bind_ok_inv h
  obtain ⟨_, s3, hP, h⟩ := h
  replace h := update_ok_inv h
  subst h
  have hsa : sa = { s1 with trace := s1.trace ++ [.vkWaitForFences fence,
      .vkAcquireNextImageKHR s1.swapchain imageAvailable] ++
      (if inFlight ≠ VK_NULL_HANDLE then [.vkWaitForFences inFlight] else []) } := by
    by_cases hz : inFlight ≠ VK_NULL_HANDLE
    · rw [if_pos hz] at hW ⊢
      rw [call_ok_inv hW]
      simp
    · rw [if_neg hz] at hW ⊢
      cases hW
      simp
  subst hsa
  refine ⟨s1, s2, s3, fence, imageAvailable, inFlight, commandBuffer, renderFinished, h1, hF, hS,
    hI, hC, hR, ?_, ?_, ?_, ?_, rfl⟩
  · simpa using hA
  · simpa using hB
  · simpa using hU
  · by_cases hcond : w.presentResult = .VK_ERROR_OUT_OF_DATE_KHR ∨
        w.presentResult = .VK_SUBOPTIMAL_KHR ∨ s2.framebufferResized = true
    · left
      refine ⟨hcond, ?_⟩
      dsimp only at hP
      rw [if_pos hcond] at hP
      replace hP := bind_ok_inv hP
      obtain ⟨_, _, hu, hP⟩ := hP
      replace hu := update_ok_inv hu
      subst hu
      simpa using hP
    · right
      refine ⟨hcond, ?_⟩
      dsimp only at hP
      rw [if_neg hcond] at hP
      replace hP := ASH_ASSERT_ok_inv hP
      obtain ⟨hP, rfl⟩ := hP
      exact ⟨by simpa using hP, by simp⟩

theorem filter_nil_of_forall {α : Type} (p : α → Bool) (xs : List α)
    (h : ∀ x ∈ xs, p x = false) : xs.filter p = [] := by
  induction xs with
  | nil => rfl
  | cons x xs ih =>
    have hx := h x (by simp)
    simp [List.filter, hx, ih (fun y hy => h y (by simp [hy]))]

theorem countP_zero_of_forall {α : Type} (p : α → Bool) (xs : List α)
    (h : ∀ x ∈ xs, p x = false) : xs.countP p = 0 := by
  induction xs with
  | nil => rfl
  | cons x xs ih =>
    have hx := h x (by simp)
    simp [List.countP_cons, hx, ih (fun y hy => h y (by simp [hy]))]

theorem emitted_append {α : Type} (s : State) (o : Outcome α) (seg : List Call)
    (h : o.state.trace = s.trace ++ seg) : emitted s o = seg := by
  simp [emitted, h]

/-- What every run of `recreateSwapchain` does to the trace and the state. -/
theorem recreateSwapchain_rel (K : Constants) (w : World) (s : State) :
    recreateView (recreateSwapchain K w s).state = recreateView s ∧
    ∃ seg, (recreateSwapchain K w s).state.trace = s.trace ++ .recreateSwapchain :: seg ∧
      ∀ c ∈ seg, c.usesSync = false ∧ c.isRecreate = false := by
  have h := keeps_recreateBody K w { s with trace := s.trace ++ [.recreateSwapchain] }
  obtain ⟨hv, seg, ht, hp⟩ := h
  have e : recreateSwapchain K w s =
      recreateBody K w { s with trace := s.trace ++ [.recreateSwapchain] } := rfl
  rw [e]
  exact ⟨hv, seg, by simpa using ht, hp⟩

theorem background_not_sync (e : VkExtent2D) (c : Call) (h : c.isBackground e = true) :
    c.usesSync = false ∧ c.isRecreate = false := by
  simp only [Call.isBackground, Bool.and_eq_true, Bool.not_eq_true'] at h
  exact ⟨h.1.1.1, h.1.1.2⟩

theorem uniformWrite_not_sync (c : Call) (h : c.isUniformWrite = true) :
    c.usesSync = false ∧ c.isRecreate = false := by
  cases c <;> simp_all [Call.isUniformWrite, Call.usesSync, Call.isRecreate]

theorem keeps_ok {α : Type} {F : Frame} {m : Proc α} (hm : Keeps F m) {s s' : State} {a : α}
    (h : m s = .ok a s') : F.rel s s' := by
  have := hm s
  rw [h] at this
  exact this

/-- A `render()` that returns normally after an acquire that was not
out-of-date: what it did, in terms of the state on entry. -/
theorem render_ok_facts (K : Constants) (w : World) (s s' : State)
    (h : render K w s = .ok () s') (hood : w.acquireResult ≠ .VK_ERROR_OUT_OF_DATE_KHR) :
    ∃ fence inFlight,
      s.inFlightFences[s.currentFrame]? = some fence ∧
      s.imagesInFlight[w.imageIndex]? = some inFlight ∧
      w.imageIndex < s.commandBuffers.length ∧
      s.currentFrame < s.imageAvailableSemaphores.length ∧
      s.currentFrame < s.renderFinishedSemaphores.length ∧
      (w.acquireResult = .VK_SUCCESS ∨ w.acquireResult = .VK_SUBOPTIMAL_KHR) ∧
      w.submitResult = .VK_SUCCESS ∧
      s'.imagesInFlight = s.imagesInFlight.set w.imageIndex fence ∧
      s'.inFlightFences = s.inFlightFences ∧
      s'.currentFrame = (s.currentFrame + 1) % K.MAX_FRAMES_IN_FLIGHT ∧
      syncCalls (emitted s (render K w s)) = frameProtocol s w ∧
      recreations (emitted s (render K w s)) =
        (if w.presentResult = .VK_ERROR_OUT_OF_DATE_KHR ∨
            w.presentResult = .VK_SUBOPTIMAL_KHR ∨ s.framebufferResized = true then 1 else 0) ∧
      (¬ (w.presentResult = .VK_ERROR_OUT_OF_DATE_KHR ∨
            w.presentResult = .VK_SUBOPTIMAL_KHR ∨ s.framebufferResized = true) →
        w.presentResult = .VK_SUCCESS ∧ s'.framebufferResized = false) := by
  obtain ⟨s1, s2, s3, fence, imageAvailable, inFlight, commandBuffer, renderFinished, h1, hF, hS,
    hI, hC, hR, hA, hB, hU, hP, rfl⟩ := render_ok_inv K w s s' h hood
  obtain ⟨v1, seg1, t1, p1⟩ := keeps_ok (keeps_updateCommandBuffers K w) h1
  obtain ⟨v2, seg2, t2, p2⟩ := keeps_ok (keeps_updateUniformBuffers K w.imageIndex) hU
  have e_cf : s1.currentFrame = s.currentFrame := (congrArg State.currentFrame v1 :)
  have e_ff : s1.inFlightFences = s.inFlightFences := (congrArg State.inFlightFences v1 :)
  have e_if : s1.imagesInFlight = s.imagesInFlight := (congrArg State.imagesInFlight v1 :)
  have e_cb : s1.commandBuffers = s.commandBuffers := (congrArg State.commandBuffers v1 :)
  have e_ia : s1.imageAvailableSemaphores = s.imageAvailableSemaphores :=
    (congrArg State.imageAvailableSemaphores v1 :)
  have e_rf : s1.renderFinishedSemaphores = s.renderFinishedSemaphores :=
    (congrArg State.renderFinishedSemaphores v1 :)
  have e_sc : s1.swapchain = s.swapchain := (congrArg State.swapchain v1 :)
  have e_fr : s1.framebufferResized = s.framebufferResized :=
    (congrArg State.framebufferResized v1 :)
  have f_cf : s2.currentFrame = s1.currentFrame := (congrArg State.currentFrame v2 :)
  have f_ff : s2.inFlightFences = s1.inFlightFences := (congrArg State.inFlightFences v2 :)
  have f_if : s2.imagesInFlight = s1.imagesInFlight.set w.imageIndex fence :=
    (congrArg State.imagesInFlight v2 :)
  have f_fr : s2.framebufferResized = s1.framebufferResized :=
    (congrArg State.framebufferResized v2 :)
  rw [e_cf] at hF hS hR
  rw [e_ff] at hF
  rw [e_if] at hI
  rw [e_cb] at hC
  rw [e_ia] at hS
  rw [e_rf] at hR
  have q1 : seg1.filter Call.usesSync = [] :=
    filter_nil_of_forall _ _ (fun c hc => (background_not_sync _ c (p1 c hc).1).1)
  have q2 : seg2.filter Call.usesSync = [] :=
    filter_nil_of_forall _ _ (fun c hc => (uniformWrite_not_sync c (p2 c hc)).1)
  have r1 : seg1.countP Call.isRecreate = 0 :=
    countP_zero_of_forall _ _ (fun c hc => (background_not_sync _ c (p1 c hc).1).2)
  have r2 : seg2.countP Call.isRecreate = 0 :=
    countP_zero_of_forall _ _ (fun c hc => (uniformWrite_not_sync c (p2 c hc)).2)
  have hproto : frameProtocol s w =
      [.vkWaitForFences fence, .vkAcquireNextImageKHR s.swapchain imageAvailable] ++
      (if inFlight ≠ VK_NULL_HANDLE then [.vkWaitForFences inFlight] else []) ++
      [.vkResetFences fence,
        .vkQueueSubmit commandBuffer (some imageAvailable) (some renderFinished) fence,
        .vkQueuePresentKHR renderFinished s.swapchain w.imageIndex] := by
    simp [frameProtocol, List.getD_eq_getElem?_getD, hF, hS, hI, hC, hR]
  have hlen : ∀ {α : Type} (xs : List α) (i : Nat) (a : α), xs[i]? = some a → i < xs.length := by
    intro α xs i a hx
    by_contra hn
    rw [List.getElem?_eq_none (by omega)] at hx
    cases hx
  refine ⟨fence, inFlight, hF, hI, hlen _ _ _ hC, hlen _ _ _ hS, hlen _ _ _ hR, hA, hB, ?_⟩
  rcases hP with ⟨hcond, hrec⟩ | ⟨hcond, hpres, rfl⟩
  · obtain ⟨v3, seg3, t3, p3⟩ := recreateSwapchain_rel K w
      { s2 with
        trace := s2.trace ++ [.vkResetFences fence,
          .vkQueueSubmit commandBuffer (some imageAvailable) (some renderFinished) fence,
          .vkQueuePresentKHR renderFinished s1.swapchain w.imageIndex]
        framebufferResized := false }
    rw [hrec] at v3 t3
    simp only [state_ok] at v3 t3
    have g_cf : s3.currentFrame = s2.currentFrame := (congrArg State.currentFrame v3 :)
    have g_ff : s3.inFlightFences = s2.inFlightFences := (congrArg State.inFlightFences v3 :)
    have g_if : s3.imagesInFlight = s2.imagesInFlight := (congrArg State.imagesInFlight v3 :)
    have q3 : seg3.filter Call.usesSync = [] :=
      filter_nil_of_forall _ _ (fun c hc => (p3 c hc).1)
    have r3 : seg3.countP Call.isRecreate = 0 :=
      countP_zero_of_forall _ _ (fun c hc => (p3 c hc).2)
    rw [f_fr, e_fr] at hcond
    have ht : (render K w s).state.trace = s.trace ++ (seg1 ++
        ([.vkWaitForFences fence, .vkAcquireNextImageKHR s.swapchain imageAvailable] ++
        (if inFlight ≠ VK_NULL_HANDLE then [.vkWaitForFences inFlight] else []) ++ seg2 ++
        [.vkResetFences fence,
          .vkQueueSubmit commandBuffer (some imageAvailable) (some renderFinished) fence,
          .vkQueuePresentKHR renderFinished s.swapchain w.imageIndex] ++
        .recreateSwapchain :: seg3)) := by
      rw [h]
      simp [t3, t2, t1, e_sc]
    rw [emitted_append s _ _ ht]
    refine ⟨?_, ?_, ?_, ?_, ?_, ?_⟩
    · simp [g_if, f_if, e_if]
    · simp [g_ff, f_ff, e_ff]
    · simp [g_cf, f_cf, e_cf]
    · rw [hproto]
      by_cases hz : inFlight ≠ VK_NULL_HANDLE <;>
        simp [syncCalls, List.filter_append, q1, q2, q3, hz, Call.usesSync, List.filter]
    · by_cases hz : inFlight ≠ VK_NULL_HANDLE <;>
        simp [recreations, List.countP_append, r1, r2, r3, hz, Call.isRecreate, hcond,
          List.countP_cons]
    · intro hn
      exact absurd hcond hn
  · rw [f_fr, e_fr] at hcond
    have ht : (render K w s).state.trace = s.trace ++ (seg1 ++
        ([.vkWaitForFences fence, .vkAcquireNextImageKHR s.swapchain imageAvailable] ++
        (if inFlight ≠ VK_NULL_HANDLE then [.vkWaitForFences inFlight] else []) ++ seg2 ++
        [.vkResetFences fence,
          .vkQueueSubmit commandBuffer (some imageAvailable) (some renderFinished) fence,
          .vkQueuePresentKHR renderFinished s.swapchain w.imageIndex])) := by
      rw [h]
      simp [t2, t1, e_sc]
    rw [emitted_append s _ _ ht]
    refine ⟨?_, ?_, ?_, ?_, ?_, ?_⟩
    · simp [f_if, e_if]
    · simp [f_ff, e_ff]
    · simp [f_cf, e_cf]
    · rw [hproto]
      by_cases hz : inFlight ≠ VK_NULL_HANDLE <;>
        simp [syncCalls, List.filter_append, q1, q2, hz, Call.usesSync, List.filter]
    · by_cases hz : inFlight ≠ VK_NULL_HANDLE <;>
        simp [recreations, List.countP_append, r1, r2, hz, Call.isRecreate, hcond,
          List.countP_cons]
    · intro _
      have hfr : s2.framebufferResized = false := by
        rw [f_fr, e_fr]
        cases hb : s.framebufferResized
        · rfl
        · exact absurd (Or.inr (Or.inr hb)) hcond
      exact ⟨hpres, by simpa using hfr⟩

theorem keeps_at {α : Type} {F : Frame} {m : Proc α} (hm : Keeps F m) {s : State}
    {o : Outcome α} (h : m s = o) : F.rel s o.state := by
  rw [← h]
  exact hm s

theorem render_sync_take (K : Constants) (w : World) (s : State) :
    ∃ k, syncCalls (emitted s (render K w s)) = (frameProtocol s w).take k := by
  have k1 := keeps_updateCommandBuffers K w s
  unfold render
  simp only [run_bind]
  cases h1 : updateCommandBuffers K w s with
  | fault e s1 =>
    rw [h1] at k1
    obtain ⟨v1, seg1, t1, p1⟩ := k1
    have q1 : seg1.filter Call.usesSync = [] :=
      filter_nil_of_forall _ _ (fun c hc => (background_not_sync _ c (p1 c hc).1).1)
    refine ⟨0, ?_⟩
    simp only [state_fault] at t1
    simp [syncCalls, emitted, t1, q1]
  | ok u s1 =>
    rw [h1] at k1
    obtain ⟨v1, seg1, t1, p1⟩ := k1
    simp only [state_ok] at v1 t1
    have q1 : seg1.filter Call.usesSync = [] :=
      filter_nil_of_forall _ _ (fun c hc => (background_not_sync _ c (p1 c hc).1).1)
    have e_cf : s1.currentFrame = s.currentFrame := (congrArg State.currentFrame v1 :)
    have e_ff : s1.inFlightFences = s.inFlightFences := (congrArg State.inFlightFences v1 :)
    have e_if : s1.imagesInFlight = s.imagesInFlight := (congrArg State.imagesInFlight v1 :)
    have e_cb : s1.commandBuffers = s.commandBuffers := (congrArg State.commandBuffers v1 :)
    have e_ia : s1.imageAvailableSemaphores = s.imageAvailableSemaphores :=
      (congrArg State.imageAvailableSemaphores v1 :)
    have e_rf : s1.renderFinishedSemaphores = s.renderFinishedSemaphores :=
      (congrArg State.renderFinishedSemaphores v1 :)
    have e_sc : s1.swapchain = s.swapchain := (congrArg State.swapchain v1 :)
    simp only [run_readState, e_cf, e_ff, e_if, e_cb, e_ia, e_rf, e_sc, index]
    cases hF : s.inFlightFences[s.currentFrame]? with
    | none =>
      refine ⟨0, ?_⟩
      simp [syncCalls, emitted, t1, q1]
    | some fence =>
      simp only [run_pure, run_call]
      cases hS : s.imageAvailableSemaphores[s.currentFrame]? with
      | none =>
        refine ⟨1, ?_⟩
        simp [syncCalls, emitted, t1, q1, frameProtocol, List.getD_eq_getElem?_getD, hF,
          List.filter, Call.usesSync]
      | some imageAvailable =>
        simp only [run_pure, run_call]
        by_cases hood : w.acquireResult = .VK_ERROR_OUT_OF_DATE_KHR
        · rw [if_pos hood]
          obtain ⟨-, seg3, t3, p3⟩ := recreateSwapchain_rel K w
            { s1 with trace := s1.trace ++ [.vkWaitForFences fence] ++
              [.vkAcquireNextImageKHR s.swapchain imageAvailable] }
          have q3 : seg3.filter Call.usesSync = [] :=
            filter_nil_of_forall _ _ (fun c hc => (p3 c hc).1)
          refine ⟨2, ?_⟩
          simp only [syncCalls, emitted, t3]
          simp [t1, q1, q3, frameProtocol, List.getD_eq_getElem?_getD,
            hF, hS, List.filter, Call.usesSync]
        · rw [if_neg hood]
          simp only [run_bind, run_ASH_ASSERT]
          by_cases hA : (w.acquireResult == .VK_SUCCESS ||
              w.acquireResult == .VK_SUBOPTIMAL_KHR) = true
          swap
          · rw [if_neg hA]
            refine ⟨2, ?_⟩
            simp [syncCalls, emitted, t1, q1, frameProtocol, List.getD_eq_getElem?_getD,
              hF, hS, List.filter, Call.usesSync]
          rw [if_pos hA]
          dsimp only
          cases hI : s.imagesInFlight[w.imageIndex]? with
          | none =>
            refine ⟨2, ?_⟩
            simp [syncCalls, emitted, t1, q1, frameProtocol, List.getD_eq_getElem?_getD,
              hF, hS, hI, List.filter, Call.usesSync]
          | some inFlight =>
            simp only [run_pure]
            have hW : ∀ st : State,
                (if inFlight ≠ VK_NULL_HANDLE then call (.vkWaitForFences inFlight) else pure ()) st =
                .ok () { st with trace := st.trace ++
                  (if inFlight ≠ VK_NULL_HANDLE then [.vkWaitForFences inFlight] else []) } := by
              intro st
              by_cases hz : inFlight ≠ VK_NULL_HANDLE
              · simp [if_pos hz]
              · simp [if_neg hz]
            rw [hW]
            simp only [run_update]
            have k2 := keeps_updateUniformBuffers K w.imageIndex
            split
            swap
            · rename_i e s2 hU
              obtain ⟨-, seg2, t2, p2⟩ := keeps_at k2 hU
              have q2 : seg2.filter Call.usesSync = [] :=
                filter_nil_of_forall _ _ (fun c hc => (uniformWrite_not_sync c (p2 c hc)).1)
              simp only [state_fault] at t2
              refine ⟨if inFlight ≠ VK_NULL_HANDLE then 3 else 2, ?_⟩
              simp only [syncCalls, emitted, state_fault, t2]
              by_cases hz : inFlight ≠ VK_NULL_HANDLE <;>
                simp [t1, q1, q2, frameProtocol, List.getD_eq_getElem?_getD,
                  hF, hS, hI, hz, List.filter, Call.usesSync]
            · rename_i u2 s2 hU
              obtain ⟨-, seg2, t2, p2⟩ := keeps_at k2 hU
              have q2 : seg2.filter Call.usesSync = [] :=
                filter_nil_of_forall _ _ (fun c hc => (uniformWrite_not_sync c (p2 c hc)).1)
              simp only [state_ok] at t2
              cases hC : s.commandBuffers[w.imageIndex]? with
              | none =>
                refine ⟨if inFlight ≠ VK_NULL_HANDLE then 3 else 2, ?_⟩
                simp only [syncCalls, emitted, state_fault, run_raise, t2]
                by_cases hz : inFlight ≠ VK_NULL_HANDLE <;>
                  simp [t1, q1, q2, frameProtocol, List.getD_eq_getElem?_getD,
                    hF, hS, hI, hz, List.filter, Call.usesSync]
              | some commandBuffer =>
                simp only [run_pure]
                cases hR : s.renderFinishedSemaphores[s.currentFrame]? with
                | none =>
                  refine ⟨if inFlight ≠ VK_NULL_HANDLE then 3 else 2, ?_⟩
                  simp only [syncCalls, emitted, state_fault, run_raise, t2]
                  by_cases hz : inFlight ≠ VK_NULL_HANDLE <;>
                    simp [t1, q1, q2, frameProtocol, List.getD_eq_getElem?_getD,
                      hF, hS, hI, hz, List.filter, Call.usesSync]
                | some renderFinished =>
                  simp only [run_pure, run_call]
                  by_cases hB : (w.submitResult == .VK_SUCCESS) = true
                  swap
                  · rw [if_neg hB]
                    refine ⟨if inFlight ≠ VK_NULL_HANDLE then 5 else 4, ?_⟩
                    simp only [syncCalls, emitted, state_fault, t2]
                    by_cases hz : inFlight ≠ VK_NULL_HANDLE <;>
                      simp [t1, q1, q2, frameProtocol, List.getD_eq_getElem?_getD,
                        hF, hS, hI, hC, hR, hz, List.filter, Call.usesSync]
                  rw [if_pos hB]
                  simp only [run_readState]
                  by_cases hcond : w.presentResult = .VK_ERROR_OUT_OF_DATE_KHR ∨
                      w.presentResult = .VK_SUBOPTIMAL_KHR ∨ s2.framebufferResized = true
                  · rw [if_pos hcond]
                    simp only [run_bind, run_update]
                    obtain ⟨-, seg3, t3, p3⟩ := recreateSwapchain_rel K w
                      { s2 with
                        trace := s2.trace ++ [.vkResetFences fence] ++
                          [.vkQueueSubmit commandBuffer (some imageAvailable) (some renderFinished)
                            fence] ++
                          [.vkQueuePresentKHR renderFinished s.swapchain w.imageIndex]
                        framebufferResized := false }
                    have q3 : seg3.filter Call.usesSync = [] :=
                      filter_nil_of_forall _ _ (fun c hc => (p3 c hc).1)
                    refine ⟨if inFlight ≠ VK_NULL_HANDLE then 6 else 5, ?_⟩
                    split
                    swap
                    · rename_i e3 s3 hrec
                      rw [hrec] at t3
                      simp only [state_fault] at t3
                      simp only [syncCalls, emitted, state_fault, t3, t2]
                      by_cases hz : inFlight ≠ VK_NULL_HANDLE <;>
                        simp [t1, q1, q2, q3, frameProtocol, List.getD_eq_getElem?_getD,
                          hF, hS, hI, hC, hR, hz, List.filter, Call.usesSync]
                    · rename_i u3 s3 hrec
                      rw [hrec] at t3
                      simp only [state_ok] at t3
                      simp only [syncCalls, emitted, state_ok, t3, t2]
                      by_cases hz : inFlight ≠ VK_NULL_HANDLE <;>
                        simp [t1, q1, q2, q3, frameProtocol, List.getD_eq_getElem?_getD,
                          hF, hS, hI, hC, hR, hz, List.filter, Call.usesSync]
                  · rw [if_neg hcond]
                    simp only [run_ASH_ASSERT]
                    refine ⟨if inFlight ≠ VK_NULL_HANDLE then 6 else 5, ?_⟩
                    by_cases hP : (w.presentResult == .VK_SUCCESS) = true
                    · rw [if_pos hP]
                      simp only [syncCalls, emitted, state_ok, run_update, t2]
                      by_cases hz : inFlight ≠ VK_NULL_HANDLE <;>
                        simp [t1, q1, q2, frameProtocol, List.getD_eq_getElem?_getD,
                          hF, hS, hI, hC, hR, hz, List.filter, Call.usesSync]
                    · rw [if_neg hP]
                      simp only [syncCalls, emitted, state_fault, t2]
                      by_cases hz : inFlight ≠ VK_NULL_HANDLE <;>
                        simp [t1, q1, q2, frameProtocol, List.getD_eq_getElem?_getD,
                          hF, hS, hI, hC, hR, hz, List.filter, Call.usesSync]

theorem keeps_call_any (F : Frame) (c : Call)
    (h : ∀ s, F.rel s { s with trace := s.trace ++ [c] }) : Keeps F (call c) := h

theorem keeps_update_any (F : Frame) (f : State → State)
    (h : ∀ s, F.rel s (f s)) : Keeps F (update f) := h

theorem keeps_recreateSwapchain (K : Constants) (w : World) :
    Keeps recreateEntryFrame (recreateSwapchain K w) := by
  intro s
  obtain ⟨hv, seg, ht, hp⟩ := recreateSwapchain_rel K w s
  refine ⟨hv, .recreateSwapchain :: seg, ht, ?_⟩
  intro c hc
  rcases List.mem_cons.mp hc with rfl | h
  · rfl
  · exact (hp c h).1

theorem keeps_slot_of_view {α : Type} (K : Constants) (m : Proc α) (V : State → State)
    (P : State → Call → Prop) (hV : ∀ s, (V s).currentFrame = s.currentFrame)
    (hm : Keeps (frameOf V P) m) : Keeps (slotFrame K) m := by
  intro s h
  obtain ⟨hv, -⟩ := hm s
  have := congrArg State.currentFrame hv
  rw [hV, hV] at this
  rw [this]
  exact h

theorem keeps_slot_render (K : Constants) (hK : 0 < K.MAX_FRAMES_IN_FLIGHT) (w : World) :
    Keeps (slotFrame K) (render K w) := by
  have h1 := keeps_slot_of_view K _ recordView _ (fun _ => rfl) (keeps_updateCommandBuffers K w)
  have h2 := fun i => keeps_slot_of_view K _ uniformView _ (fun _ => rfl)
    (keeps_updateUniformBuffers K i)
  have h3 := keeps_slot_of_view K _ recreateView _ (fun _ => rfl) (keeps_recreateSwapchain K w)
  unfold render
  repeat' with_reducible first
    | exact h1
    | apply h2
    | exact h3
    | apply keeps_bind
    | apply keeps_readState
    | apply keeps_index
    | apply keeps_pure
    | apply keeps_ASH_ASSERT
    | apply keeps_call_any
    | apply keeps_update_any
    | split
    | intro _
  all_goals first
    | exact id
    | exact fun _ => Nat.mod_lt _ hK

theorem isOk_iff {α : Type} (o : Outcome α) : o.isOk = true ↔ ∃ a s, o = .ok a s := by
  cases o with
  | ok a s => simp [Outcome.isOk]
  | fault e s => simp [Outcome.isOk]

theorem renders_cons (K : Constants) (w : World) (ws : List World) (s : State) :
    renders K (w :: ws) s = match render K w s with
      | .ok _ s1 => renders K ws s1
      | .fault e s1 => .fault e s1 := by
  rw [renders, run_bind]
  cases render K w s <;> rfl

theorem renders_slot (K : Constants) (ws : List World) (s : State)
    (hws : ∀ w ∈ ws, w.acquireResult ≠ .VK_ERROR_OUT_OF_DATE_KHR)
    (hok : (renders K ws s).isOk = true) :
    (renders K ws s).state.currentFrame =
      (s.currentFrame + ws.length) % K.MAX_FRAMES_IN_FLIGHT ∨
    (ws = [] ∧ (renders K ws s).state.currentFrame = s.currentFrame) := by
  induction ws generalizing s with
  | nil => right; exact ⟨rfl, rfl⟩
  | cons w ws ih =>
    left
    rw [renders_cons] at hok ⊢
    cases h : render K w s with
    | fault e s1 => rw [h] at hok; cases hok
    | ok u s1 =>
      rw [h] at hok
      simp only at hok ⊢
      obtain ⟨_, _, _, _, _, _, _, _, _, _, _, hcf, _⟩ :=
        render_ok_facts K w s s1 h (hws w (by simp))
      rcases ih s1 (fun x hx => hws x (by simp [hx])) hok with h2 | ⟨rfl, h2⟩
      · rw [h2, hcf]
        simp only [List.length_cons]
        rw [Nat.mod_add_mod]
        congr 1
        omega
      · rw [h2, hcf]
        simp

theorem renders_take_ok (K : Constants) (ws : List World) (s : State)
    (hok : (renders K ws s).isOk = true) (j : Nat) :
    (renders K (ws.take j) s).isOk = true := by
  induction ws generalizing s j with
  | nil => simpa using hok
  | cons w ws ih =>
    cases j with
    | zero => rfl
    | succ j =>
      rw [List.take_succ_cons, renders_cons]
      rw [renders_cons] at hok
      cases h : render K w s with
      | fault e s1 => rw [h] at hok; cases hok
      | ok u s1 =>
        rw [h] at hok
        exact ih s1 hok j

/-! ## Claims about the frame -/

/-- C1. Frame-slot counter: with `MAX_FRAMES_IN_FLIGHT > 0` and `currentFrame = 0` at the
start, in a run of consecutive `render()` calls none of which sees an out-of-date acquire
the state on entry to call `j` (and after the last call, `j = n`) has
`currentFrame = j mod MAX_FRAMES_IN_FLIGHT`; and every `render()` and every
`recreateSwapchain()`, however it ends, keeps `currentFrame` below
`MAX_FRAMES_IN_FLIGHT`. -/
theorem frame_slot_counter (K : Constants) (hK : 0 < K.MAX_FRAMES_IN_FLIGHT) :
    (∀ (ws : List World) (s : State), s.currentFrame = 0 →
      (∀ w ∈ ws, w.acquireResult ≠ .VK_ERROR_OUT_OF_DATE_KHR) →
      (renders K ws s).isOk = true →
      ∀ j, j ≤ ws.length →
        (renders K (ws.take j) s).isOk = true ∧
        (renders K (ws.take j) s).state.currentFrame = j % K.MAX_FRAMES_IN_FLIGHT) ∧
    (∀ (w : World) (s : State), s.currentFrame < K.MAX_FRAMES_IN_FLIGHT →
      (render K w s).state.currentFrame < K.MAX_FRAMES_IN_FLIGHT ∧
      (recreateSwapchain K w s).state.currentFrame < K.MAX_FRAMES_IN_FLIGHT) := by
  refine ⟨?_, ?_⟩
  · intro ws s h0 hws hok j hj
    have hokj := renders_take_ok K ws s hok j
    refine ⟨hokj, ?_⟩
    have hmem : ∀ w ∈ ws.take j, w.acquireResult ≠ .VK_ERROR_OUT_OF_DATE_KHR :=
      fun w hw => hws w (List.mem_of_mem_take hw)
    rcases renders_slot K (ws.take j) s hmem hokj with h | ⟨hnil, h⟩
    · rw [h, h0, List.length_take, Nat.min_eq_left hj, Nat.zero_add]
    · have hlen : (ws.take j).length = 0 := by rw [hnil]; rfl
      rw [List.length_take, Nat.min_eq_left hj] at hlen
      rw [h, h0, hlen, Nat.zero_mod]
  · intro w s hs
    refine ⟨keeps_slot_render K hK w s hs, ?_⟩
    exact keeps_slot_of_view K _ recreateView _ (fun _ => rfl) (keeps_recreateSwapchain K w) s hs

theorem demo_three_renders_ok :
    (renders demoConstants [demoWorld, { demoWorld with imageIndex := 1 }, demoWorld]
      demoState).isOk = true := by
  decide!

/-- C1, at two frames in flight: three renders use the slots `0, 1, 0`. -/
theorem frame_slot_counter_witness :
    0 < demoConstants.MAX_FRAMES_IN_FLIGHT ∧
    (renders demoConstants
      ([demoWorld, { demoWorld with imageIndex := 1 }, demoWorld].take 0)
      demoState).state.currentFrame = 0 ∧
    (renders demoConstants
      ([demoWorld, { demoWorld with imageIndex := 1 }, demoWorld].take 1)
      demoState).state.currentFrame = 1 ∧
    (renders demoConstants
      ([demoWorld, { demoWorld with imageIndex := 1 }, demoWorld].take 2)
      demoState).state.currentFrame = 0 :=
  have h := (frame_slot_counter demoConstants (by decide)).1
    [demoWorld, { demoWorld with imageIndex := 1 }, demoWorld] demoState rfl
    (by simp [demoWorld]) demo_three_renders_ok
  ⟨by decide, (h 0 (by decide)).2, (h 1 (by decide)).2, (h 2 (by decide)).2⟩

theorem filter_split {α : Type} (p : α → Bool) (xs A C : List α) (b : α)
    (h : xs.filter p = A ++ b :: C) :
    ∃ pre post, xs = pre ++ b :: post ∧ pre.filter p = A ∧ post.filter p = C := by
  induction xs generalizing A with
  | nil => simp at h
  | cons x xs ih =>
    by_cases hp : p x = true
    · rw [List.filter_cons_of_pos hp] at h
      cases A with
      | nil =>
        simp only [List.nil_append, List.cons.injEq] at h
        exact ⟨[], xs, by simp [h.1], rfl, h.2⟩
      | cons a A =>
        simp only [List.cons_append, List.cons.injEq] at h
        obtain ⟨pre, post, e, h1, h2⟩ := ih A h.2
        exact ⟨x :: pre, post, by simp [e], by rw [List.filter_cons_of_pos hp, h1, h.1], h2⟩
    · rw [List.filter_cons_of_neg hp] at h
      obtain ⟨pre, post, e, h1, h2⟩ := ih A h
      exact ⟨x :: pre, post, by simp [e], by simp [List.filter_cons_of_neg hp, h1], h2⟩

theorem getD_of_getElem? {α : Type} (xs : List α) (i : Nat) (a d : α) (h : xs[i]? = some a) :
    xs.getD i d = a := by
  simp [List.getD_eq_getElem?_getD, h]

/-- C2. Image-in-flight tracking: in a `render()` that returns after an acquire
that was not out-of-date, with image index `k` and slot `f`: the queue submit of command
buffer `k` is made once, and when `imagesInFlight[k]` was set on entry the wait on that
fence comes before it; afterwards `imagesInFlight[k]` is `inFlightFences[f]` and every
other entry of `imagesInFlight` is what it was. -/
theorem image_in_flight_tracking (K : Constants) (w : World) (s s' : State)
    (h : render K w s = .ok () s') (hood : w.acquireResult ≠ .VK_ERROR_OUT_OF_DATE_KHR) :
    ∃ fence inFlight commandBuffer imageAvailable renderFinished pre post,
      s.inFlightFences[s.currentFrame]? = some fence ∧
      s.imagesInFlight[w.imageIndex]? = some inFlight ∧
      s.commandBuffers[w.imageIndex]? = some commandBuffer ∧
      emitted s (render K w s) =
        pre ++ .vkQueueSubmit commandBuffer (some imageAvailable) (some renderFinished) fence ::
          post ∧
      (inFlight ≠ VK_NULL_HANDLE → .vkWaitForFences inFlight ∈ pre) ∧
      (∀ c ∈ pre ++ post, c.usesSync = true → c.isQueueSubmit = false) ∧
      s'.inFlightFences = s.inFlightFences ∧
      s'.imagesInFlight.length = s.imagesInFlight.length ∧
      s'.imagesInFlight[w.imageIndex]? = some fence ∧
      (∀ j, j ≠ w.imageIndex → s'.imagesInFlight[j]? = s.imagesInFlight[j]?) := by
  obtain ⟨fence, inFlight, hF, hI, hC, hS, hR, _, _, hif, hff, _, hsync, _, _⟩ :=
    render_ok_facts K w s s' h hood
  have hk : w.imageIndex < s.imagesInFlight.length := by
    by_contra hn
    rw [List.getElem?_eq_none (by omega)] at hI
    cases hI
  have eF := getD_of_getElem? _ _ _ VK_NULL_HANDLE hF
  have eI := getD_of_getElem? _ _ _ VK_NULL_HANDLE hI
  have hsplit : syncCalls (emitted s (render K w s)) =
      ([.vkWaitForFences fence, .vkAcquireNextImageKHR s.swapchain
          (s.imageAvailableSemaphores.getD s.currentFrame VK_NULL_HANDLE)] ++
        (if inFlight ≠ VK_NULL_HANDLE then [.vkWaitForFences inFlight] else []) ++
        [.vkResetFences fence]) ++
      .vkQueueSubmit (s.commandBuffers.getD w.imageIndex VK_NULL_HANDLE)
        (some (s.imageAvailableSemaphores.getD s.currentFrame VK_NULL_HANDLE))
        (some (s.renderFinishedSemaphores.getD s.currentFrame VK_NULL_HANDLE)) fence ::
      [.vkQueuePresentKHR (s.renderFinishedSemaphores.getD s.currentFrame VK_NULL_HANDLE)
        s.swapchain w.imageIndex] := by
    rw [hsync]
    simp only [frameProtocol, eF, eI, List.append_assoc, List.cons_append, List.nil_append]
  obtain ⟨pre, post, he, hpre, hpost⟩ := filter_split _ _ _ _ _ hsplit
  have eC : s.commandBuffers[w.imageIndex]? =
      some (s.commandBuffers.getD w.imageIndex VK_NULL_HANDLE) := by
    rw [List.getD_eq_getElem?_getD, List.getElem?_eq_getElem hC]
    rfl
  refine ⟨fence, inFlight, _, _, _, pre, post, hF, hI, eC, he, ?_, ?_, hff, ?_, ?_, ?_⟩
  · intro hz
    have : Call.vkWaitForFences inFlight ∈ pre.filter Call.usesSync := by
      rw [hpre]
      simp [hz]
    exact (List.mem_filter.mp this).1
  · intro c hc hs
    rcases List.mem_append.mp hc with hc | hc
    · have : c ∈ pre.filter Call.usesSync := List.mem_filter.mpr ⟨hc, hs⟩
      rw [hpre] at this
      by_cases hz : inFlight ≠ VK_NULL_HANDLE
      · simp [hz] at this
        rcases this with rfl | rfl | rfl | rfl <;> rfl
      · simp [hz] at this
        rcases this with rfl | rfl | rfl <;> rfl
    · have : c ∈ post.filter Call.usesSync := List.mem_filter.mpr ⟨hc, hs⟩
      rw [hpost] at this
      simp at this
      subst this
      rfl
  · rw [hif, List.length_set]
  · rw [hif, List.getElem?_set_self hk]
  · intro j hj
    rw [hif, List.getElem?_set_ne (Ne.symm hj)]

theorem ok_of_isOk (o : Outcome Unit) (h : o.isOk = true) : o = .ok () o.state := by
  cases o with
  | ok a s => rfl
  | fault e s => simp [Outcome.isOk] at h

/-- Every run of `render()` whose acquire reports out-of-date. -/
theorem render_stale_facts (K : Constants) (w : World) (s : State)
    (hood : w.acquireResult = .VK_ERROR_OUT_OF_DATE_KHR) :
    (render K w s).state.imagesInFlight = s.imagesInFlight ∧
    (render K w s).state.currentFrame = s.currentFrame ∧
    (∃ k, k ≤ 2 ∧ syncCalls (emitted s (render K w s)) = (frameProtocol s w).take k) ∧
    recreations (emitted s (render K w s)) ≤ 1 ∧
    ((render K w s).isOk = true →
      syncCalls (emitted s (render K w s)) = (frameProtocol s w).take 2 ∧
      recreations (emitted s (render K w s)) = 1) ∧
    (∀ s1 fence imageAvailable, updateCommandBuffers K w s = .ok () s1 →
      s1.inFlightFences[s1.currentFrame]? = some fence →
      s1.imageAvailableSemaphores[s1.currentFrame]? = some imageAvailable →
      render K w s = recreateSwapchain K w
        { s1 with trace := s1.trace ++ [.vkWaitForFences fence,
            .vkAcquireNextImageKHR s1.swapchain imageAvailable] }) := by
  have k1 := keeps_updateCommandBuffers K w s
  unfold render
  simp only [run_bind]
  cases h1 : updateCommandBuffers K w s with
  | fault e s1 =>
    rw [h1] at k1
    obtain ⟨v1, seg1, t1, p1⟩ := k1
    have q1 : seg1.filter Call.usesSync = [] :=
      filter_nil_of_forall _ _ (fun c hc => (background_not_sync _ c (p1 c hc).1).1)
    have r1 : seg1.countP Call.isRecreate = 0 :=
      countP_zero_of_forall _ _ (fun c hc => (background_not_sync _ c (p1 c hc).1).2)
    simp only [state_fault] at t1 v1
    refine ⟨(congrArg State.imagesInFlight v1 :), (congrArg State.currentFrame v1 :),
      ⟨0, by omega, ?_⟩, ?_, ?_, ?_⟩
    · simp [syncCalls, emitted, t1, q1]
    · simp [recreations, emitted, t1, r1]
    · intro h
      simp [Outcome.isOk] at h
    · intro s1 fence imageAvailable h
      cases h
  | ok u s1 =>
    rw [h1] at k1
    obtain ⟨v1, seg1, t1, p1⟩ := k1
    simp only [state_ok] at v1 t1
    have q1 : seg1.filter Call.usesSync = [] :=
      filter_nil_of_forall _ _ (fun c hc => (background_not_sync _ c (p1 c hc).1).1)
    have r1 : seg1.countP Call.isRecreate = 0 :=
      countP_zero_of_forall _ _ (fun c hc => (background_not_sync _ c (p1 c hc).1).2)
    have e_cf : s1.currentFrame = s.currentFrame := (congrArg State.currentFrame v1 :)
    have e_ff : s1.inFlightFences = s.inFlightFences := (congrArg State.inFlightFences v1 :)
    have e_if : s1.imagesInFlight = s.imagesInFlight := (congrArg State.imagesInFlight v1 :)
    have e_ia : s1.imageAvailableSemaphores = s.imageAvailableSemaphores :=
      (congrArg State.imageAvailableSemaphores v1 :)
    have e_sc : s1.swapchain = s.swapchain := (congrArg State.swapchain v1 :)
    simp only [run_readState, index]
    cases hF : s1.inFlightFences[s1.currentFrame]? with
    | none =>
      refine ⟨e_if, e_cf, ⟨0, by omega, ?_⟩, ?_, ?_, ?_⟩
      · simp [syncCalls, emitted, t1, q1]
      · simp [recreations, emitted, t1, r1]
      · intro h
        simp [Outcome.isOk] at h
      · intro s1' fence imageAvailable h hF'
        cases h
        rw [hF] at hF'
        cases hF'
    | some fence =>
      simp only [run_pure, run_call]
      cases hS : s1.imageAvailableSemaphores[s1.currentFrame]? with
      | none =>
        refine ⟨e_if, e_cf, ⟨1, by omega, ?_⟩, ?_, ?_, ?_⟩
        · rw [e_ff, e_cf] at hF
          simp [syncCalls, emitted, t1, q1, frameProtocol, List.getD_eq_getElem?_getD, hF,
            List.filter, Call.usesSync]
        · simp [recreations, emitted, t1, r1, List.countP_cons, Call.isRecreate]
        · intro h
          simp [Outcome.isOk] at h
        · intro s1' fence' imageAvailable h _ hS'
          cases h
          rw [hS] at hS'
          cases hS'
      | some imageAvailable =>
        simp only [run_pure, run_call]
        rw [if_pos hood]
        obtain ⟨v3, seg3, t3, p3⟩ := recreateSwapchain_rel K w
          { s1 with trace := s1.trace ++ [.vkWaitForFences fence] ++
            [.vkAcquireNextImageKHR s1.swapchain imageAvailable] }
        have q3 : seg3.filter Call.usesSync = [] :=
          filter_nil_of_forall _ _ (fun c hc => (p3 c hc).1)
        have r3 : seg3.countP Call.isRecreate = 0 :=
          countP_zero_of_forall _ _ (fun c hc => (p3 c hc).2)
        rw [e_ff, e_cf] at hF
        rw [e_ia, e_cf] at hS
        have hsync : syncCalls (emitted s (recreateSwapchain K w
            { s1 with trace := s1.trace ++ [.vkWaitForFences fence] ++
              [.vkAcquireNextImageKHR s1.swapchain imageAvailable] })) =
            (frameProtocol s w).take 2 := by
          simp only [syncCalls, emitted, t3]
          simp [t1, q1, q3, e_sc, frameProtocol, List.getD_eq_getElem?_getD,
            hF, hS, List.filter, Call.usesSync]
        have hrec : recreations (emitted s (recreateSwapchain K w
            { s1 with trace := s1.trace ++ [.vkWaitForFences fence] ++
              [.vkAcquireNextImageKHR s1.swapchain imageAvailable] })) = 1 := by
          simp only [recreations, emitted, t3]
          simp [t1, r1, r3, List.countP_cons, Call.isRecreate]
        refine ⟨?_, ?_, ⟨2, by omega, hsync⟩, by omega, fun _ => ⟨hsync, hrec⟩, ?_⟩
        · exact ((congrArg State.imagesInFlight v3 :)).trans e_if
        · exact ((congrArg State.currentFrame v3 :)).trans e_cf
        · intro s1' fence' imageAvailable' h hF' hS'
          cases h
          rw [e_ff, e_cf, hF] at hF'
          rw [e_ia, e_cf, hS] at hS'
          cases hF'
          cases hS'
          simp

theorem land_depth_bit : Nat.land 512 512 = 512 := by decide

theorem demo_render_ok : (render demoConstants demoWorld demoState).isOk = true := by
  decide!

theorem demo_suboptimal_eval :
    (render demoConstants suboptimalWorld demoState).isOk = true ∧
    recreations (emitted demoState (render demoConstants suboptimalWorld demoState)) = 0 := by
  decide!

/-- C2 on the running engine: after the first render, `imagesInFlight[0]` is
the fence of slot `0`. -/
theorem image_in_flight_tracking_witness :
    render demoConstants demoWorld demoState =
      .ok () (render demoConstants demoWorld demoState).state ∧
    demoWorld.acquireResult ≠ .VK_ERROR_OUT_OF_DATE_KHR ∧
    (render demoConstants demoWorld demoState).state.imagesInFlight[demoWorld.imageIndex]? =
      demoState.inFlightFences[demoState.currentFrame]? := by
  have hok := ok_of_isOk _ demo_render_ok
  have hood : demoWorld.acquireResult ≠ .VK_ERROR_OUT_OF_DATE_KHR := by simp [demoWorld]
  obtain ⟨fence, _, _, _, _, _, _, hF, _, _, _, _, _, _, _, hk, _⟩ :=
    image_in_flight_tracking demoConstants demoWorld demoState _ hok hood
  exact ⟨hok, hood, hk.trans hF.symm⟩

/-- C3. Fence-before-reuse: the fence and semaphore calls of every `render()`,
whatever its outcome, are an initial segment of the list: wait on
`inFlightFences[f]`, acquire signalling `imageAvailableSemaphores[f]`, wait on
`imagesInFlight[k]` if set, reset `inFlightFences[f]`, submit signalling
`renderFinishedSemaphores[f]` and `inFlightFences[f]`, present. So the wait on the
slot's fence precedes the acquire, the reset and the submit, and the reset precedes the
submit. A `render()` that returns after an acquire that was not out-of-date has made
the whole list. -/
theorem fence_before_reuse (K : Constants) (w : World) (s : State) :
    syncCalls (emitted s (render K w s)) <+: frameProtocol s w ∧
    ((render K w s).isOk = true → w.acquireResult ≠ .VK_ERROR_OUT_OF_DATE_KHR →
      syncCalls (emitted s (render K w s)) = frameProtocol s w) := by
  refine ⟨?_, ?_⟩
  · obtain ⟨k, hk⟩ := render_sync_take K w s
    rw [hk]
    exact List.take_prefix k _
  · intro hok hood
    obtain ⟨_, _, _, _, _, _, _, _, _, _, _, _, hsync, _⟩ :=
      render_ok_facts K w s _ (ok_of_isOk _ hok) hood
    exact hsync

/-- C3 on the running engine: the five calls of the first frame, in order. -/
theorem fence_before_reuse_witness :
    (render demoConstants demoWorld demoState).isOk = true ∧
    demoWorld.acquireResult ≠ .VK_ERROR_OUT_OF_DATE_KHR ∧
    syncCalls (emitted demoState (render demoConstants demoWorld demoState)) =
      [.vkWaitForFences 28, .vkAcquireNextImageKHR 2 24, .vkResetFences 28,
        .vkQueueSubmit 22 (some 24) (some 26) 28, .vkQueuePresentKHR 26 2 0] :=
  ⟨demo_render_ok, by simp [demoWorld],
    ((fence_before_reuse demoConstants demoWorld demoState).2 demo_render_ok
      (by simp [demoWorld])).trans
      (by simp [frameProtocol, demoState, demoWorld, VK_NULL_HANDLE])⟩

/-- C5 as written fails: on the running engine a `render()` whose acquire is
suboptimal, with a successful present and no resize, returns without entering the
recreation. -/
theorem recreation_triggers_counterexample :
    suboptimalWorld.acquireResult = .VK_SUBOPTIMAL_KHR ∧
    (render demoConstants suboptimalWorld demoState).isOk = true ∧
    recreations (emitted demoState (render demoConstants suboptimalWorld demoState)) = 0 :=
  ⟨rfl, demo_suboptimal_eval.1, demo_suboptimal_eval.2⟩

/-- C5, amended. A `render()` that returns has entered the swapchain recreation
exactly once if the acquire reported out-of-date, or the present reported out-of-date or
suboptimal, or `framebufferResized` was set, and not at all otherwise; its acquire
reported success, suboptimal or out-of-date. A suboptimal acquire is no trigger. -/
theorem recreation_triggers (K : Constants) (w : World) (s : State)
    (hok : (render K w s).isOk = true) :
    recreations (emitted s (render K w s)) =
      (if w.acquireResult = .VK_ERROR_OUT_OF_DATE_KHR ∨
          w.presentResult = .VK_ERROR_OUT_OF_DATE_KHR ∨
          w.presentResult = .VK_SUBOPTIMAL_KHR ∨ s.framebufferResized = true then 1 else 0) ∧
    (w.acquireResult = .VK_SUCCESS ∨ w.acquireResult = .VK_SUBOPTIMAL_KHR ∨
      w.acquireResult = .VK_ERROR_OUT_OF_DATE_KHR) := by
  by_cases hood : w.acquireResult = .VK_ERROR_OUT_OF_DATE_KHR
  · obtain ⟨_, _, _, _, h, _⟩ := render_stale_facts K w s hood
    refine ⟨?_, Or.inr (Or.inr hood)⟩
    rw [(h hok).2, if_pos (Or.inl hood)]
  · obtain ⟨_, _, _, _, _, _, _, hA, _, _, _, _, _, hrec, _⟩ :=
      render_ok_facts K w s _ (ok_of_isOk _ hok) hood
    refine ⟨?_, ?_⟩
    · rw [hrec]
      simp only [hood, false_or]
    · rcases hA with h | h
      · exact Or.inl h
      · exact Or.inr (Or.inl h)

/-- C5, amended, on the running engine: a plain frame enters no recreation. -/
theorem recreation_triggers_witness :
    (render demoConstants demoWorld demoState).isOk = true ∧
    recreations (emitted demoState (render demoConstants demoWorld demoState)) = 0 :=
  ⟨demo_render_ok,
    (recreation_triggers demoConstants demoWorld demoState demo_render_ok).1.trans
      (by simp [demoWorld, demoState])⟩

/-! ## Returning runs of the swapchain procedures -/

theorem bind_ok_iff {α β : Type} (m : Proc α) (f : α → Proc β) (s s' : State) (b : β) :
    (m >>= f) s = .ok b s' ↔ ∃ a s1, m s = .ok a s1 ∧ f a s1 = .ok b s' := by
  constructor
  · exact bind_ok_inv
  · rintro ⟨a, s1, h1, h2⟩
    simp only [run_bind, h1, h2]

theorem pure_ok_iff {α : Type} (a b : α) (s s' : State) :
    (pure a : Proc α) s = .ok b s' ↔ b = a ∧ s' = s := by
  simp only [run_pure, Outcome.ok.injEq]
  constructor <;> rintro ⟨rfl, rfl⟩ <;> exact ⟨rfl, rfl⟩

theorem readState_ok_iff (s s' a : State) : readState s = .ok a s' ↔ a = s ∧ s' = s := by
  simp only [run_readState, Outcome.ok.injEq]
  constructor <;> rintro ⟨rfl, rfl⟩ <;> exact ⟨rfl, rfl⟩

theorem update_ok_iff (f : State → State) (s s' : State) (a : Unit) :
    update f s = .ok a s' ↔ s' = f s := by
  simp only [run_update, Outcome.ok.injEq, true_and]
  exact eq_comm

theorem call_ok_iff (c : Call) (s s' : State) (a : Unit) :
    call c s = .ok a s' ↔ s' = { s with trace := s.trace ++ [c] } := by
  simp only [run_call, Outcome.ok.injEq, true_and]
  exact eq_comm

theorem callS_ok_iff (c : State → Call) (s s' : State) (a : Unit) :
    callS c s = .ok a s' ↔ s' = { s with trace := s.trace ++ [c s] } := by
  simp only [run_callS, Outcome.ok.injEq, true_and]
  exact eq_comm

theorem fresh_ok_iff (s s' : State) (a : Handle) :
    fresh s = .ok a s' ↔ a = s.nextHandle ∧ s' = { s with nextHandle := s.nextHandle + 1 } := by
  simp only [run_fresh, Outcome.ok.injEq]
  constructor <;> rintro ⟨rfl, rfl⟩ <;> exact ⟨rfl, rfl⟩

theorem freshN_ok_iff (n : Nat) (s s' : State) (a : List Handle) :
    freshN n s = .ok a s' ↔
      a = List.range' s.nextHandle n ∧ s' = { s with nextHandle := s.nextHandle + n } := by
  simp only [run_freshN, Outcome.ok.injEq]
  constructor <;> rintro ⟨rfl, rfl⟩ <;> exact ⟨rfl, rfl⟩

theorem ASH_ASSERT_ok_iff (cond : Bool) (s s' : State) (a : Unit) :
    ASH_ASSERT cond s = .ok a s' ↔ cond = true ∧ s' = s := by
  cases cond <;> simp [ASH_ASSERT, eq_comm]

theorem index_ok_iff {α : Type} (xs : List α) (i : Nat) (s s' : State) (a : α) :
    index xs i s = .ok a s' ↔ xs[i]? = some a ∧ s' = s := by
  unfold index
  cases hx : xs[i]? with
  | none => simp
  | some x =>
    simp only [run_pure, Outcome.ok.injEq, Option.some.injEq]
    constructor <;> rintro ⟨rfl, rfl⟩ <;> exact ⟨rfl, rfl⟩

theorem raise_ok_iff {α : Type} (f : Fault) (s s' : State) (a : α) :
    (raise f : Proc α) s = .ok a s' ↔ False := by
  simp

theorem findDepthFormat_ok_iff (s s' : State) (d : VkFormat) :
    findDepthFormat s = .ok d s' ↔
      findSupportedFormat s.physicalDevice
        [.VK_FORMAT_D32_SFLOAT, .VK_FORMAT_D32_SFLOAT_S8_UINT, .VK_FORMAT_D24_UNORM_S8_UINT]
        VK_FORMAT_FEATURE_DEPTH_STENCIL_ATTACHMENT_BIT = some d ∧ s' = s := by
  unfold findDepthFormat
  simp only [run_bind, run_readState]
  cases findSupportedFormat s.physicalDevice
      [.VK_FORMAT_D32_SFLOAT, .VK_FORMAT_D32_SFLOAT_S8_UINT, .VK_FORMAT_D24_UNORM_S8_UINT]
      VK_FORMAT_FEATURE_DEPTH_STENCIL_ATTACHMENT_BIT with
  | none => simp
  | some x =>
    simp only [run_pure, Outcome.ok.injEq, Option.some.injEq]
    constructor <;> rintro ⟨rfl, rfl⟩ <;> exact ⟨rfl, rfl⟩

theorem steps_append (a b : List Call) : steps (a ++ b) = steps a ++ steps b :=
  List.filterMap_append _ _ _

theorem steps_nil_of_forall (t : List Call) (h : ∀ c ∈ t, c.step = none) : steps t = [] := by
  induction t with
  | nil => rfl
  | cons c t ih =>
    have hc := h c (by simp)
    simp only [steps, List.filterMap_cons, hc]
    exact ih (fun d hd => h d (by simp [hd]))

/-- Every run of the minimised-window loop: it only polls the window, and it
returns exactly when a nonzero size is reported. -/
theorem waitWhileMinimized_run (width height : Int) (polls : List Poll) (s : State) :
    ∃ seg, (∀ c ∈ seg, c = .glfwGetFramebufferSize ∨ c = .glfwWaitEvents) ∧
      waitWhileMinimized width height polls s =
        (match settledSize width height polls with
          | some _ => .ok ()
              { s with
                trace := s.trace ++ seg
                framebufferResized :=
                  s.framebufferResized || resizedWhileWaiting width height polls }
          | none => .fault .blocked
              { s with
                trace := s.trace ++ seg
                framebufferResized :=
                  s.framebufferResized || resizedWhileWaiting width height polls }) := by
  induction polls generalizing width height s with
  | nil =>
    refine ⟨[], by simp, ?_⟩
    unfold waitWhileMinimized settledSize resizedWhileWaiting
    by_cases hz : width = 0 ∨ height = 0
    · simp [hz]
    · simp [hz]
  | cons p rest ih =>
    unfold waitWhileMinimized settledSize resizedWhileWaiting
    by_cases hz : width = 0 ∨ height = 0
    · obtain ⟨seg, hseg, hrun⟩ := ih p.width p.height
        { s with
          trace := s.trace ++ [.glfwGetFramebufferSize] ++ [.glfwWaitEvents]
          framebufferResized := s.framebufferResized || p.resized }
      refine ⟨.glfwGetFramebufferSize :: .glfwWaitEvents :: seg, ?_, ?_⟩
      · intro c hc
        simp only [List.mem_cons] at hc
        rcases hc with rfl | rfl | hc
        · exact Or.inl rfl
        · exact Or.inr rfl
        · exact hseg c hc
      · simp only [if_pos hz, run_bind, run_call, run_update, hrun]
        cases settledSize p.width p.height rest <;> simp [Bool.or_assoc]
    · refine ⟨[], by simp, ?_⟩
      simp [hz]

theorem forEach_call {α : Type} (xs : List α) (f : α → Call) (s : State) :
    forEach xs (fun x => call (f x)) s = .ok () { s with trace := s.trace ++ xs.map f } := by
  induction xs generalizing s with
  | nil => simp [forEach]
  | cons x xs ih => simp [forEach, ih]

/-- The function `cleanupSwapchain` always returns, having made exactly the
calls of `teardownCalls`. -/
theorem cleanupSwapchain_run (s : State) :
    cleanupSwapchain s = .ok () { s with trace := s.trace ++ teardownCalls s } := by
  simp [cleanupSwapchain, forEach_call, teardownCalls]

theorem createRenderPass_ok (w : World) (s s' : State) (h : createRenderPass w s = .ok () s') :
    ∃ d, s' = { s with
      renderPass := s.nextHandle
      nextHandle := s.nextHandle + 1
      trace := s.trace ++ [.vkCreateRenderPass s.swapchainImageFormat d s.nextHandle] } := by
  simp only [createRenderPass, bind_ok_iff, readState_ok_iff, update_ok_iff, call_ok_iff,
    fresh_ok_iff, ASH_ASSERT_ok_iff, findDepthFormat_ok_iff, pure_ok_iff,
    exists_eq_left, exists_and_left, exists_eq_right, and_assoc, exists_const, true_and,
    and_true, exists_eq_left', exists_and_right] at h
  obtain ⟨d, -, -, h⟩ := h
  exact ⟨d, h⟩

theorem createDescriptorPool_ok (w : World) (maxSets : Nat) (s s' : State)
    (h : createDescriptorPool w maxSets s = .ok () s') :
    ∃ c, c.step = some .createDescriptorPool ∧ s' = { s with
      descriptorPool := s.nextHandle
      nextHandle := s.nextHandle + 1
      trace := s.trace ++ [c] } ∧
      ∃ x y z, c = .vkCreateDescriptorPool x y z s.nextHandle := by
  simp only [createDescriptorPool, bind_ok_iff, readState_ok_iff, update_ok_iff, call_ok_iff,
    fresh_ok_iff, ASH_ASSERT_ok_iff, pure_ok_iff,
    exists_eq_left, exists_and_left, exists_eq_right, and_assoc, exists_const, true_and,
    and_true, exists_eq_left', exists_and_right] at h
  exact ⟨.vkCreateDescriptorPool _ _ _ s.nextHandle, rfl, h.2, _, _, _, rfl⟩

theorem transitionImageLayout_depth (image : Handle) (format : VkFormat) (s : State) :
    transitionImageLayout image format .VK_IMAGE_LAYOUT_UNDEFINED
        .VK_IMAGE_LAYOUT_DEPTH_STENCIL_ATTACHMENT_OPTIMAL s =
      .ok () { s with
        nextHandle := s.nextHandle + 1
        trace := s.trace ++ [.vkAllocateCommandBuffers s.commandPool [s.nextHandle],
          .vkBeginCommandBuffer s.nextHandle,
          .vkCmdPipelineBarrier s.nextHandle .VK_PIPELINE_STAGE_TOP_OF_PIPE_BIT
            .VK_PIPELINE_STAGE_EARLY_FRAGMENT_TESTS_BIT
            ⟨image, .VK_IMAGE_LAYOUT_UNDEFINED, .VK_IMAGE_LAYOUT_DEPTH_STENCIL_ATTACHMENT_OPTIMAL,
              if hasStencilComponent format then
                [.VK_IMAGE_ASPECT_DEPTH_BIT, .VK_IMAGE_ASPECT_STENCIL_BIT]
              else [.VK_IMAGE_ASPECT_DEPTH_BIT], [],
              [.VK_ACCESS_DEPTH_STENCIL_ATTACHMENT_READ_BIT,
                .VK_ACCESS_DEPTH_STENCIL_ATTACHMENT_WRITE_BIT]⟩,
          .vkEndCommandBuffer s.nextHandle,
          .vkQueueSubmit s.nextHandle none none VK_NULL_HANDLE,
          .vkQueueWaitIdle,
          .vkFreeCommandBuffers s.commandPool [s.nextHandle]] } := by
  simp [transitionImageLayout, beginSingleTimeCommands, endSingleTimeCommands]

theorem createDepthResources_ok (w : World) (s s' : State)
    (h : createDepthResources w s = .ok () s') :
    ∃ seg, s' = { s with
      depthImage := s.nextHandle
      depthImageView := s.nextHandle + 1
      nextHandle := s.nextHandle + 3
      trace := s.trace ++ seg } ∧
      steps seg = [.createImage, .createImageView .VK_IMAGE_ASPECT_DEPTH_BIT,
        .allocateCommandBuffers 1,
        .destroy (.vkFreeCommandBuffers s.commandPool [s.nextHandle + 2])] := by
  simp only [createDepthResources, createImage, createImageView, transitionImageLayout_depth,
    bind_ok_iff, readState_ok_iff, update_ok_iff, call_ok_iff,
    fresh_ok_iff, ASH_ASSERT_ok_iff, findDepthFormat_ok_iff, pure_ok_iff,
    exists_eq_left, exists_and_left, exists_eq_right, and_assoc, exists_const, true_and,
    and_true, exists_eq_left', exists_and_right, Outcome.ok.injEq, List.append_assoc] at h
  obtain ⟨d, -, -, -, h⟩ := h
  subst h
  exact ⟨_, rfl, rfl⟩

theorem defined_ok_iff {α : Type} (o : Option α) (s s' : State) (a : α) :
    defined o s = .ok a s' ↔ o = some a ∧ s' = s := by
  cases o with
  | none => simp [defined]
  | some x =>
    simp only [defined, run_pure, Outcome.ok.injEq, Option.some.injEq]
    constructor <;> rintro ⟨rfl, rfl⟩ <;> exact ⟨rfl, rfl⟩

theorem value_ok_iff {α : Type} (o : Option α) (s s' : State) (a : α) :
    value o s = .ok a s' ↔ o = some a ∧ s' = s := by
  cases o with
  | none => simp [value]
  | some x =>
    simp only [value, run_pure, Outcome.ok.injEq, Option.some.injEq]
    constructor <;> rintro ⟨rfl, rfl⟩ <;> exact ⟨rfl, rfl⟩

theorem chooseSwapExtent_ok (w : World) (caps : VkSurfaceCapabilitiesKHR) (s s' : State)
    (e : VkExtent2D) (h : chooseSwapExtent w caps s = .ok e s') :
    ∃ seg, (∀ c ∈ seg, c = .glfwGetFramebufferSize) ∧ s' = { s with trace := s.trace ++ seg } := by
  unfold chooseSwapExtent at h
  split at h
  · cases h
    exact ⟨[], by simp, by simp⟩
  · simp only [run_bind, run_call, run_pure, Outcome.ok.injEq] at h
    exact ⟨[.glfwGetFramebufferSize], by simp, h.2.symm⟩

theorem createSwapchain_ok (w : World) (s s' : State) (h : createSwapchain w s = .ok () s') :
    ∃ format extent seg created,
      s' = { s with
        swapchain := s.nextHandle
        swapchainImages := List.range' (s.nextHandle + 1) w.swapchainImageCount
        swapchainImageFormat := format
        swapchainExtent := extent
        nextHandle := s.nextHandle + 1 + w.swapchainImageCount
        trace := s.trace ++ seg ++ [created,
          .vkGetSwapchainImagesKHR s.nextHandle
            (List.range' (s.nextHandle + 1) w.swapchainImageCount)] } ∧
      (∀ c ∈ seg, c = .glfwGetFramebufferSize) ∧
      created.step = some .createSwapchain := by
  simp only [createSwapchain, bind_ok_iff, readState_ok_iff, update_ok_iff, call_ok_iff,
    fresh_ok_iff, freshN_ok_iff, ASH_ASSERT_ok_iff, pure_ok_iff, defined_ok_iff, value_ok_iff,
    exists_eq_left, exists_and_left, exists_eq_right, and_assoc, exists_const, true_and,
    and_true, exists_eq_left', exists_and_right] at h
  obtain ⟨surfaceFormat, -, extent, s1, hext, g, -, p, -, -, h⟩ := h
  obtain ⟨seg, hseg, rfl⟩ := chooseSwapExtent_ok _ _ _ _ _ hext
  subst h
  refine ⟨surfaceFormat.format, extent, seg,
    .vkCreateSwapchainKHR (requestedImageCount w.support.capabilities) surfaceFormat extent
      (chooseSwapPresentMode w.support.presentModes) (g != p) s.nextHandle, ?_, hseg, rfl⟩
  simp

/-- Counting the iterations of a returning `forRange` loop. -/
theorem forRange_ok (f : Nat → Proc Unit) (Q : Nat → State → State → Prop)
    (h0 : ∀ s, Q 0 s s)
    (hstep : ∀ lo k s s1 s2, f lo s = .ok () s1 → Q k s1 s2 → Q (k + 1) s s2)
    (lo n : Nat) (s s' : State) (h : forRange lo n f s = .ok () s') : Q n s s' := by
  induction n generalizing lo s with
  | zero =>
    simp only [forRange, run_pure, Outcome.ok.injEq, true_and] at h
    subst h
    exact h0 s
  | succ n ih =>
    simp only [forRange, bind_ok_iff] at h
    obtain ⟨_, s1, h1, h2⟩ := h
    exact hstep lo n s s1 s' h1 (ih (lo + 1) s1 h2)

/-- Counting the iterations of a returning `forEachIdx` loop. -/
theorem forEachIdx_ok {α : Type} (f : Nat → α → Proc Unit) (Q : Nat → State → State → Prop)
    (h0 : ∀ s, Q 0 s s)
    (hstep : ∀ lo x k s s1 s2, f lo x s = .ok () s1 → Q k s1 s2 → Q (k + 1) s s2)
    (lo : Nat) (xs : List α) (s s' : State) (h : forEachIdx lo xs f s = .ok () s') :
    Q xs.length s s' := by
  induction xs generalizing lo s with
  | nil =>
    simp only [forEachIdx, run_pure, Outcome.ok.injEq, true_and] at h
    subst h
    exact h0 s
  | cons x xs ih =>
    simp only [forEachIdx, bind_ok_iff] at h
    obtain ⟨_, s1, h1, h2⟩ := h
    exact hstep lo x xs.length s s1 s' h1 (ih (lo + 1) s1 h2)

theorem createImageViews_ok (w : World) (s s' : State) (h : createImageViews w s = .ok () s') :
    imageViewsView s' = imageViewsView s ∧
    s'.swapchainImageViews.length = s.swapchainImages.length ∧
    ∃ seg, s'.trace = s.trace ++ seg ∧
      steps seg =
        List.replicate s.swapchainImages.length (.createImageView .VK_IMAGE_ASPECT_COLOR_BIT) := by
  simp only [createImageViews, bind_ok_iff, readState_ok_iff, update_ok_iff,
    exists_eq_left, exists_and_left, exists_eq_right, and_assoc, exists_const, true_and,
    and_true, exists_eq_left', exists_and_right] at h
  have key := forRange_ok _
    (fun k a b => imageViewsView b = imageViewsView a ∧
      b.swapchainImageViews.length = a.swapchainImageViews.length ∧
      ∃ seg, b.trace = a.trace ++ seg ∧
        steps seg = List.replicate k (.createImageView .VK_IMAGE_ASPECT_COLOR_BIT))
    (fun a => ⟨rfl, rfl, [], by simp, rfl⟩) ?_ _ _ _ _ h
  · obtain ⟨hv, hl, seg, ht, hs⟩ := key
    refine ⟨hv, ?_, seg, ht, hs⟩
    rw [hl]
    simp [resize]
    omega
  · intro lo k a a1 a2 hbody hQ
    simp only [createImageView, bind_ok_iff, readState_ok_iff, update_ok_iff, call_ok_iff,
      fresh_ok_iff, ASH_ASSERT_ok_iff, pure_ok_iff, index_ok_iff,
      exists_eq_left, exists_and_left, exists_eq_right, and_assoc, exists_const, true_and,
      and_true, exists_eq_left', exists_and_right] at hbody
    obtain ⟨image, -, -, rfl⟩ := hbody
    obtain ⟨hv, hl, seg, ht, hs⟩ := hQ
    refine ⟨hv.trans rfl, hl.trans (by simp),
      .vkCreateImageView image a.swapchainImageFormat .VK_IMAGE_ASPECT_COLOR_BIT a.nextHandle ::
        seg, ?_, ?_⟩
    · rw [ht]
      simp
    · simp only [steps, List.filterMap_cons, Call.step, List.replicate_succ]
      exact congrArg _ hs

theorem createFramebuffers_ok (w : World) (s s' : State)
    (h : createFramebuffers w s = .ok () s') :
    framebuffersView s' = framebuffersView s ∧
    s'.swapchainFramebuffers.length = s.swapchainImageViews.length ∧
    ∃ seg, s'.trace = s.trace ++ seg ∧
      steps seg = List.replicate s.swapchainImageViews.length .createFramebuffer := by
  simp only [createFramebuffers, bind_ok_iff, readState_ok_iff, update_ok_iff,
    exists_eq_left, exists_and_left, exists_eq_right, and_assoc, exists_const, true_and,
    and_true, exists_eq_left', exists_and_right] at h
  have key := forRange_ok _
    (fun k a b => framebuffersView b = framebuffersView a ∧
      b.swapchainFramebuffers.length = a.swapchainFramebuffers.length ∧
      ∃ seg, b.trace = a.trace ++ seg ∧
        steps seg = List.replicate k .createFramebuffer)
    (fun a => ⟨rfl, rfl, [], by simp, rfl⟩) ?_ _ _ _ _ h
  · obtain ⟨hv, hl, seg, ht, hs⟩ := key
    refine ⟨hv, ?_, seg, ht, hs⟩
    rw [hl]
    simp [resize]
    omega
  · intro lo k a a1 a2 hbody hQ
    simp only [bind_ok_iff, readState_ok_iff, update_ok_iff, call_ok_iff,
      fresh_ok_iff, ASH_ASSERT_ok_iff, pure_ok_iff, index_ok_iff,
      exists_eq_left, exists_and_left, exists_eq_right, and_assoc, exists_const, true_and,
      and_true, exists_eq_left', exists_and_right] at hbody
    obtain ⟨view, -, -, rfl⟩ := hbody
    obtain ⟨hv, hl, seg, ht, hs⟩ := hQ
    refine ⟨hv.trans rfl, hl.trans (by simp),
      .vkCreateFramebuffer a.renderPass view a.depthImageView a.swapchainExtent a.nextHandle ::
        seg, ?_, ?_⟩
    · rw [ht]
      simp
    · simp only [steps, List.filterMap_cons, Call.step, List.replicate_succ]
      exact congrArg _ hs

theorem createDescriptorSets_ok (w : World) (texture : Texture) (s s' : State)
    (sets : List VkDescriptorSet) (h : createDescriptorSets w texture s = .ok sets s') :
    handlesView s' = handlesView s ∧
    sets.length = s.swapchainImages.length ∧
    (∀ x ∈ sets, x.pool = s.descriptorPool) ∧
    ∃ seg, s'.trace = s.trace ++ seg ∧
      steps seg = [.allocateDescriptorSets s.descriptorPool s.swapchainImages.length] := by
  simp only [createDescriptorSets, forEach_call, bind_ok_iff, readState_ok_iff, update_ok_iff,
    call_ok_iff, freshN_ok_iff, ASH_ASSERT_ok_iff, pure_ok_iff,
    exists_eq_left, exists_and_left, exists_eq_right, and_assoc, exists_const, true_and,
    and_true, exists_eq_left', exists_and_right, Outcome.ok.injEq] at h
  obtain ⟨-, rfl, rfl⟩ := h
  refine ⟨rfl, by simp, ?_, _, by simp only [List.append_assoc]; rfl, ?_⟩
  · intro x hx
    simp only [List.mem_map] at hx
    obtain ⟨_, _, rfl⟩ := hx
    rfl
  · simp only [steps, List.filterMap_append, List.filterMap_cons, List.filterMap_nil, Call.step,
      List.filterMap_map, List.length_map, List.length_range']
    simp [Function.comp_def, Call.step]

theorem recreateDescriptorSets_ok (w : World) (model : Model) (n : Nat) :
    ∀ (i : Nat) (r r' : Renderable) (s s' : State),
      recreateDescriptorSets w model i n r s = .ok r' s' →
      handlesView s' = handlesView s ∧ r'.model = r.model ∧
      r'.descriptorSets.length = r.descriptorSets.length ∧
      (∀ j, j < i → r'.descriptorSets[j]? = r.descriptorSets[j]?) ∧
      (∀ j, i ≤ j → j < i + n → ∃ sets, r'.descriptorSets[j]? = some sets ∧
        sets.length = s.swapchainImages.length ∧ ∀ x ∈ sets, x.pool = s.descriptorPool) ∧
      ∃ seg, s'.trace = s.trace ++ seg ∧
        steps seg =
          List.replicate n (.allocateDescriptorSets s.descriptorPool s.swapchainImages.length) := by
  induction n with
  | zero =>
    intro i r r' s s' h
    simp only [recreateDescriptorSets, run_pure, Outcome.ok.injEq] at h
    obtain ⟨rfl, rfl⟩ := h
    exact ⟨rfl, rfl, rfl, fun _ _ => rfl, fun j h1 h2 => by omega, [], by simp, rfl⟩
  | succ n ih =>
    intro i r r' s s' h
    simp only [recreateDescriptorSets, bind_ok_iff, readState_ok_iff, index_ok_iff,
      exists_eq_left, exists_and_left, exists_eq_right, and_assoc, exists_const, true_and,
      and_true, exists_eq_left', exists_and_right] at h
    obtain ⟨⟨old, hold⟩, textureRef, -, sets, s1, hcreate, hrest⟩ := h
    obtain ⟨hv1, hlen1, hpool1, seg1, ht1, hs1⟩ := createDescriptorSets_ok _ _ _ _ _ hcreate
    obtain ⟨hv2, hm2, hlen2, hlow2, hnew2, seg2, ht2, hs2⟩ := ih _ _ _ _ _ hrest
    have e_img : s1.swapchainImages = s.swapchainImages :=
      (congrArg State.swapchainImages hv1 :)
    have e_pool : s1.descriptorPool = s.descriptorPool :=
      (congrArg State.descriptorPool hv1 :)
    have hi : i < r.descriptorSets.length := by
      by_contra hn
      rw [List.getElem?_eq_none (by omega)] at hold
      cases hold
    refine ⟨hv2.trans hv1, hm2, ?_, ?_, ?_, seg1 ++ seg2, ?_, ?_⟩
    · rw [hlen2, List.length_set]
    · intro j hj
      rw [hlow2 j (by omega), List.getElem?_set_ne (by omega)]
    · intro j h1 h2
      by_cases hji : j = i
      · subst hji
        refine ⟨sets, ?_, hlen1, hpool1⟩
        rw [hlow2 j (by omega), List.getElem?_set_self hi]
      · obtain ⟨x, hx1, hx2, hx3⟩ := hnew2 j (by omega) (by omega)
        exact ⟨x, hx1, by rw [hx2, e_img], fun y hy => by rw [hx3 y hy, e_pool]⟩
    · rw [ht2, ht1, List.append_assoc]
    · rw [steps_append, hs1, hs2, e_img, e_pool]
      rfl

theorem meshCount_cons (renderer : Renderer) (e : Entity) (es : List Entity) :
    meshCount renderer (e :: es) =
      (match e.renderable with
        | some r => (renderer.getModel r.model).meshes.length
        | none => 0) + meshCount renderer es := by
  cases hr : e.renderable <;> simp [meshCount, List.filterMap_cons, hr]

theorem recreateRenderables_ok (w : World) (es : List Entity) :
    ∀ (es' : List Entity) (s s' : State), recreateRenderables w es s = .ok es' s' →
      handlesView s' = handlesView s ∧
      (∀ r ∈ es'.filterMap (fun e => e.renderable),
        ∀ m, m < (s.renderer.getModel r.model).meshes.length →
          ∃ sets, r.descriptorSets[m]? = some sets ∧
            sets.length = s.swapchainImages.length ∧ ∀ x ∈ sets, x.pool = s.descriptorPool) ∧
      ∃ seg, s'.trace = s.trace ++ seg ∧
        steps seg = List.replicate (meshCount s.renderer es)
          (.allocateDescriptorSets s.descriptorPool s.swapchainImages.length) := by
  induction es with
  | nil =>
    intro es' s s' h
    simp only [recreateRenderables, run_pure, Outcome.ok.injEq] at h
    obtain ⟨rfl, rfl⟩ := h
    exact ⟨rfl, by simp, [], by simp, by simp [meshCount, steps]⟩
  | cons e es ih =>
    intro es' s s' h
    unfold recreateRenderables at h
    cases hr : e.renderable with
    | none =>
      simp only [hr, bind_ok_iff, pure_ok_iff,
        exists_eq_left, exists_and_left, exists_eq_right, and_assoc, exists_const, true_and,
        and_true, exists_eq_left', exists_and_right] at h
      obtain ⟨rest1, s2, h2, rfl, rfl⟩ := h
      obtain ⟨hv2, hsets2, seg2, ht2, hs2⟩ := ih _ _ _ h2
      refine ⟨hv2, ?_, seg2, ht2, ?_⟩
      · intro r hmem
        simp only [List.filterMap_cons, hr] at hmem
        exact hsets2 r hmem
      · rw [hs2, meshCount_cons, hr]
        simp
    | some renderable =>
      simp only [hr, bind_ok_iff, readState_ok_iff, pure_ok_iff,
        exists_eq_left, exists_and_left, exists_eq_right, and_assoc, exists_const, true_and,
        and_true, exists_eq_left', exists_and_right] at h
      obtain ⟨r1, s1, h1, rest1, s2, h2, rfl, rfl⟩ := h
      obtain ⟨hv2, hsets2, seg2, ht2, hs2⟩ := ih _ _ _ h2
      obtain ⟨hv1, hm1, -, -, hnew1, seg1, ht1, hs1⟩ :=
        recreateDescriptorSets_ok _ _ _ _ _ _ _ _ h1
      have e_img : s1.swapchainImages = s.swapchainImages :=
        (congrArg State.swapchainImages hv1 :)
      have e_pool : s1.descriptorPool = s.descriptorPool :=
        (congrArg State.descriptorPool hv1 :)
      have e_ren : s1.renderer = s.renderer := (congrArg State.renderer hv1 :)
      refine ⟨hv2.trans hv1, ?_, seg1 ++ seg2, ?_, ?_⟩
      · intro r hmem
        simp only [List.filterMap_cons] at hmem
        rcases List.mem_cons.mp hmem with rfl | hmem
        · intro m hm
          rw [hm1] at hm
          exact hnew1 m (Nat.zero_le _) (by omega)
        · intro m hm
          obtain ⟨x, hx1, hx2, hx3⟩ := hsets2 r hmem m (by rw [e_ren]; exact hm)
          exact ⟨x, hx1, by rw [hx2, e_img], fun y hy => by rw [hx3 y hy, e_pool]⟩
      · rw [ht2, ht1, List.append_assoc]
      · rw [steps_append, hs1, hs2, e_img, e_pool, e_ren, meshCount_cons, hr]
        exact (List.replicate_add _ _ _).symm

theorem isRecording_step (c : Call) (h : c.isRecording = true) : c.step = none := by
  cases c <;> simp_all [Call.isRecording, Call.step]

theorem createCommandBuffers_ok (K : Constants) (w : World) (s s' : State)
    (h : createCommandBuffers K w s = .ok () s') :
    commandBuffersView s' = commandBuffersView s ∧
    s'.commandBuffers.length = s.swapchainFramebuffers.length ∧
    ∃ seg, s'.trace = s.trace ++ seg ∧
      steps seg = [.allocateCommandBuffers s.swapchainFramebuffers.length] := by
  simp only [createCommandBuffers, bind_ok_iff, readState_ok_iff, update_ok_iff,
    call_ok_iff, freshN_ok_iff, ASH_ASSERT_ok_iff, pure_ok_iff,
    exists_eq_left, exists_and_left, exists_eq_right, and_assoc, exists_const, true_and,
    and_true, exists_eq_left', exists_and_right] at h
  obtain ⟨-, h⟩ := h
  obtain ⟨hv, seg, ht, hp⟩ := keeps_ok (keeps_recordCommandBuffers K w) h
  refine ⟨?_, ?_,
    .vkAllocateCommandBuffers s.commandPool
      (List.range' s.nextHandle s.swapchainFramebuffers.length) :: seg, by rw [ht]; simp, ?_⟩
  · exact (congrArg commandBuffersView hv :
      commandBuffersView (recordView s') = commandBuffersView (recordView _))
  · have : s'.commandBuffers = List.range' s.nextHandle s.swapchainFramebuffers.length :=
      (congrArg State.commandBuffers hv :)
    rw [this, List.length_range']
  · simp only [steps, List.filterMap_cons, Call.step, List.length_range']
    exact congrArg _ (steps_nil_of_forall seg (fun c hc => isRecording_step c (hp c hc).1))

/-! ## What a returning `recreateSwapchain` did -/

theorem waitWhileMinimized_ok (width height : Int) (polls : List Poll) (s s' : State)
    (h : waitWhileMinimized width height polls s = .ok () s') :
    ∃ seg size, (∀ c ∈ seg, c = .glfwGetFramebufferSize ∨ c = .glfwWaitEvents) ∧
      settledSize width height polls = some size ∧
      s' = { s with
        trace := s.trace ++ seg
        framebufferResized := s.framebufferResized || resizedWhileWaiting width height polls } := by
  obtain ⟨seg, hseg, hrun⟩ := waitWhileMinimized_run width height polls s
  rw [hrun] at h
  cases hsz : settledSize width height polls with
  | none =>
    rw [hsz] at h
    cases h
  | some size =>
    rw [hsz] at h
    simp only [Outcome.ok.injEq, true_and] at h
    exact ⟨seg, size, hseg, rfl, h.symm⟩

theorem rebuildFrame_scene (s : State) (scene : Option Scene) :
    rebuildFrame.rel s { s with scene := scene } :=
  ⟨rfl, [], by simp, by simp⟩

/-- The rebuild steps of a returning `recreateSwapchain`, from the state `sc`
right after `createSwapchain`. -/
theorem rebuild_ok_facts (K : Constants) (w : World) (sc sd se sf sg sh sr s' : State)
    (scene : Scene) (registry : List Entity)
    (hviews : createImageViews w sc = .ok () sd)
    (hpass : createRenderPass w sd = .ok () se)
    (hdepth : createDepthResources w se = .ok () sf)
    (hfb : createFramebuffers w sf = .ok () sg)
    (hpool : createDescriptorPool w K.MAX_INSTANCES sg = .ok () sh)
    (hren : recreateRenderables w scene.registry sh = .ok registry sr)
    (hcb : createCommandBuffers K w { sr with scene := some { registry := registry } } =
      .ok () s') :
    rebuildView s' = rebuildView sc ∧
    s'.scene = some { registry := registry } ∧
    s'.swapchainImageViews.length = sc.swapchainImages.length ∧
    s'.swapchainFramebuffers.length = sc.swapchainImages.length ∧
    s'.commandBuffers.length = sc.swapchainImages.length ∧
    (∀ r ∈ registry.filterMap (fun e => e.renderable),
      ∀ m, m < (sc.renderer.getModel r.model).meshes.length →
        ∃ sets, r.descriptorSets[m]? = some sets ∧
          sets.length = sc.swapchainImages.length ∧ ∀ x ∈ sets, x.pool = s'.descriptorPool) ∧
    ∃ transient seg, s'.trace = sc.trace ++ seg ∧
      steps seg = (rebuildSteps sc.swapchainImages.length (meshCount sc.renderer scene.registry)
        s'.descriptorPool sc.commandPool transient).tail ∧
      (∀ c ∈ seg, c.respectsExtent s'.swapchainExtent = true) ∧
      ∃ x y z, .vkCreateDescriptorPool x y z s'.descriptorPool ∈ seg := by
  have k1 := keeps_ok (keeps_createImageViews w) hviews
  have k2 := keeps_ok (keeps_createRenderPass w) hpass
  have k3 := keeps_ok (keeps_createDepthResources w) hdepth
  have k4 := keeps_ok (keeps_createFramebuffers w) hfb
  have k5 := keeps_ok (keeps_createDescriptorPool w K.MAX_INSTANCES) hpool
  have k6 := keeps_ok (keeps_recreateRenderables w scene.registry) hren
  have k7 := rebuildFrame_scene sr (some { registry := registry })
  have k8 := keeps_ok (keeps_createCommandBuffers K w) hcb
  have kall : rebuildFrame.rel sc s' :=
    rebuildFrame.trans _ _ _ k1 (rebuildFrame.trans _ _ _ k2 (rebuildFrame.trans _ _ _ k3
      (rebuildFrame.trans _ _ _ k4 (rebuildFrame.trans _ _ _ k5 (rebuildFrame.trans _ _ _ k6
        (rebuildFrame.trans _ _ _ k7 k8))))))
  obtain ⟨hvall, segall, htall, hpall⟩ := kall
  obtain ⟨hv1, hl1, seg1, ht1, hs1⟩ := createImageViews_ok _ _ _ hviews
  obtain ⟨d, hse⟩ := createRenderPass_ok _ _ _ hpass
  obtain ⟨seg3, hsf, hs3⟩ := createDepthResources_ok _ _ _ hdepth
  obtain ⟨hv4, hl4, seg4, ht4, hs4⟩ := createFramebuffers_ok _ _ _ hfb
  obtain ⟨c5, hc5, hsh, x, y, z, hc5'⟩ := createDescriptorPool_ok _ _ _ _ hpool
  obtain ⟨hv6, hsets6, seg6, ht6, hs6⟩ := recreateRenderables_ok _ _ _ _ _ hren
  obtain ⟨hv8, hl8, seg8, ht8, hs8⟩ := createCommandBuffers_ok _ _ _ _ hcb
  have e1_img : sd.swapchainImages = sc.swapchainImages := (congrArg State.swapchainImages hv1 :)
  have e1_ren : sd.renderer = sc.renderer := (congrArg State.renderer hv1 :)
  have e1_cp : sd.commandPool = sc.commandPool := (congrArg State.commandPool hv1 :)
  have e2_img : se.swapchainImages = sd.swapchainImages := by rw [hse]
  have e2_iv : se.swapchainImageViews = sd.swapchainImageViews := by rw [hse]
  have e2_ren : se.renderer = sd.renderer := by rw [hse]
  have e2_cp : se.commandPool = sd.commandPool := by rw [hse]
  have e2_tr : se.trace = sd.trace ++ [.vkCreateRenderPass sd.swapchainImageFormat d sd.nextHandle] := by
    rw [hse]
  have e3_img : sf.swapchainImages = se.swapchainImages := by rw [hsf]
  have e3_iv : sf.swapchainImageViews = se.swapchainImageViews := by rw [hsf]
  have e3_ren : sf.renderer = se.renderer := by rw [hsf]
  have e3_tr : sf.trace = se.trace ++ seg3 := by rw [hsf]
  have e4_img : sg.swapchainImages = sf.swapchainImages := (congrArg State.swapchainImages hv4 :)
  have e4_iv : sg.swapchainImageViews = sf.swapchainImageViews :=
    (congrArg State.swapchainImageViews hv4 :)
  have e4_ren : sg.renderer = sf.renderer := (congrArg State.renderer hv4 :)
  have e5_img : sh.swapchainImages = sg.swapchainImages := by rw [hsh]
  have e5_iv : sh.swapchainImageViews = sg.swapchainImageViews := by rw [hsh]
  have e5_fb : sh.swapchainFramebuffers = sg.swapchainFramebuffers := by rw [hsh]
  have e5_ren : sh.renderer = sg.renderer := by rw [hsh]
  have e5_pool : sh.descriptorPool = sg.nextHandle := by rw [hsh]
  have e5_tr : sh.trace = sg.trace ++ [c5] := by rw [hsh]
  have e6_img : sr.swapchainImages = sh.swapchainImages := (congrArg State.swapchainImages hv6 :)
  have e6_iv : sr.swapchainImageViews = sh.swapchainImageViews :=
    (congrArg State.swapchainImageViews hv6 :)
  have e6_fb : sr.swapchainFramebuffers = sh.swapchainFramebuffers :=
    (congrArg State.swapchainFramebuffers hv6 :)
  have e6_pool : sr.descriptorPool = sh.descriptorPool := (congrArg State.descriptorPool hv6 :)
  have e8_iv : s'.swapchainImageViews = sr.swapchainImageViews :=
    (congrArg State.swapchainImageViews hv8 :)
  have e8_fb : s'.swapchainFramebuffers = sr.swapchainFramebuffers :=
    (congrArg State.swapchainFramebuffers hv8 :)
  have e8_pool : s'.descriptorPool = sr.descriptorPool := (congrArg State.descriptorPool hv8 :)
  have e8_scene : s'.scene = some { registry := registry } := (congrArg State.scene hv8 :)
  have e_ext : s'.swapchainExtent = sc.swapchainExtent := (congrArg State.swapchainExtent hvall :)
  have e_pool : s'.descriptorPool = sh.descriptorPool := by rw [e8_pool, e6_pool]
  have e_img_h : sh.swapchainImages = sc.swapchainImages := by
    rw [e5_img, e4_img, e3_img, e2_img, e1_img]
  have e_ren_h : sh.renderer = sc.renderer := by
    rw [e5_ren, e4_ren, e3_ren, e2_ren, e1_ren]
  have n_iv : sf.swapchainImageViews.length = sc.swapchainImages.length := by
    rw [e3_iv, e2_iv, hl1]
  have n_fb : sr.swapchainFramebuffers.length = sc.swapchainImages.length := by
    rw [e6_fb, e5_fb, hl4, n_iv]
  have htrace : s'.trace = sc.trace ++
      (seg1 ++ ([.vkCreateRenderPass sd.swapchainImageFormat d sd.nextHandle] ++
        (seg3 ++ (seg4 ++ ([c5] ++ (seg6 ++ seg8)))))) := by
    rw [ht8]
    show sr.trace ++ seg8 = _
    rw [ht6, e5_tr, ht4, e3_tr, e2_tr, ht1]
    simp only [List.append_assoc]
  have hseg : segall = seg1 ++ ([.vkCreateRenderPass sd.swapchainImageFormat d sd.nextHandle] ++
        (seg3 ++ (seg4 ++ ([c5] ++ (seg6 ++ seg8))))) :=
    List.append_cancel_left (htall.symm.trans htrace)
  refine ⟨hvall, e8_scene, ?_, ?_, ?_, ?_, se.nextHandle + 2, segall, htall, ?_, ?_, ?_⟩
  · rw [e8_iv, e6_iv, e5_iv, e4_iv, n_iv]
  · rw [e8_fb, n_fb]
  · rw [hl8]
    exact n_fb
  · intro r hr m hm
    obtain ⟨sets, h1, h2, h3⟩ := hsets6 r hr m (by rw [e_ren_h]; exact hm)
    exact ⟨sets, h1, by rw [h2, e_img_h], fun x hx => by rw [h3 x hx, e_pool]⟩
  · rw [hseg]
    simp only [steps_append, hs1, hs3, hs4, hs6, hs8]
    have hc5s : steps [c5] = [.createDescriptorPool] := by
      simp [steps, hc5]
    rw [hc5s, n_iv, e_img_h, e_ren_h, e_pool, e2_cp, e1_cp]
    show _ = (rebuildSteps _ _ _ _ _).tail
    simp [rebuildSteps, steps, Call.step, n_fb]
  · intro c hc
    have := hpall c hc
    simp only [Call.isBackground, Bool.and_eq_true] at this
    rw [e_ext]
    exact this.2
  · refine ⟨x, y, z, ?_⟩
    rw [hseg, e_pool, e5_pool, ← hc5']
    simp

/-- A returning `recreateSwapchain`: what it did, in terms of the state on
entry. -/
theorem recreateSwapchain_ok_facts (K : Constants) (w : World) (s s' : State)
    (h : recreateSwapchain K w s = .ok () s') :
    ∃ size scene registry transient A B created C,
      settledSize w.framebufferWidth w.framebufferHeight w.polls = some size ∧
      s.scene = some scene ∧ s'.scene = some { registry := registry } ∧
      s'.framebufferResized = (s.framebufferResized ||
        resizedWhileWaiting w.framebufferWidth w.framebufferHeight w.polls) ∧
      s'.swapchainImages.length = w.swapchainImageCount ∧
      s'.swapchainImageViews.length = w.swapchainImageCount ∧
      s'.swapchainFramebuffers.length = w.swapchainImageCount ∧
      s'.commandBuffers.length = w.swapchainImageCount ∧
      (∀ r ∈ registry.filterMap (fun e => e.renderable),
        ∀ m, m < (s.renderer.getModel r.model).meshes.length →
          ∃ sets, r.descriptorSets[m]? = some sets ∧
            sets.length = w.swapchainImageCount ∧ ∀ x ∈ sets, x.pool = s'.descriptorPool) ∧
      s'.trace = s.trace ++
        (A ++ .vkDeviceWaitIdle :: (teardownCalls s ++ (B ++ created :: C))) ∧
      (∀ c ∈ A, c.step = none) ∧ (∀ c ∈ B, c.step = none) ∧
      created.step = some .createSwapchain ∧
      steps C = (rebuildSteps w.swapchainImageCount (meshCount s.renderer scene.registry)
        s'.descriptorPool s.commandPool transient).tail ∧
      (∀ c ∈ C, c.respectsExtent s'.swapchainExtent = true) ∧
      ∃ x y z, .vkCreateDescriptorPool x y z s'.descriptorPool ∈ C := by
  simp only [recreateSwapchain, recreateBody, cleanupSwapchain_run, bind_ok_iff, call_ok_iff,
    readState_ok_iff,
    exists_eq_left, exists_and_left, exists_eq_right, and_assoc, exists_const, true_and,
    and_true, exists_eq_left', exists_and_right, Outcome.ok.injEq] at h
  obtain ⟨_, sa, hwait, _, sc, hswap, _, sd, hviews, _, se, hpass, _, sf, hdepth, _, sg, hfb,
    _, sh, hpool, _, si, hscene, hcb⟩ := h
  obtain ⟨segw, size, hsegw, hsize, rfl⟩ := waitWhileMinimized_ok _ _ _ _ _ hwait
  obtain ⟨format, extent, sege, created, rfl, hsege, hcreated⟩ := createSwapchain_ok _ _ _ hswap
  have k5 := createDescriptorPool_ok _ _ _ _ hpool
  have k4 := createFramebuffers_ok _ _ _ hfb
  have k3 := createDepthResources_ok _ _ _ hdepth
  have k2 := createRenderPass_ok _ _ _ hpass
  have k1 := createImageViews_ok _ _ _ hviews
  have e_scene : sh.scene = s.scene := by
    obtain ⟨_, _, hsh, _⟩ := k5
    obtain ⟨hv4, -⟩ := k4
    obtain ⟨_, hsf, -⟩ := k3
    obtain ⟨_, hse⟩ := k2
    obtain ⟨hv1, -⟩ := k1
    have a5 : sh.scene = sg.scene := by rw [hsh]
    have a4 : sg.scene = sf.scene := (congrArg State.scene hv4 :)
    have a3 : sf.scene = se.scene := by rw [hsf]
    have a2 : se.scene = sd.scene := by rw [hse]
    have a1 : sd.scene = s.scene := (congrArg State.scene hv1 :)
    rw [a5, a4, a3, a2, a1]
  cases hsc : sh.scene with
  | none =>
    rw [hsc] at hscene
    cases hscene
  | some scene =>
    rw [hsc] at hscene
    simp only [bind_ok_iff, update_ok_iff] at hscene
    obtain ⟨registry, sr, hren, rfl⟩ := hscene
    obtain ⟨hv, hsc', hiv, hfbl, hcbl, hsets, transient, seg, htr, hsteps, hext, hpoolc⟩ :=
      rebuild_ok_facts K w _ sd se sf sg sh sr s' scene registry hviews hpass hdepth hfb hpool
        hren hcb
    have e_img : s'.swapchainImages = List.range' (s.nextHandle + 1) w.swapchainImageCount :=
      (congrArg State.swapchainImages hv :)
    have e_flag : s'.framebufferResized = (s.framebufferResized ||
        resizedWhileWaiting w.framebufferWidth w.framebufferHeight w.polls) :=
      (congrArg State.framebufferResized hv :)
    simp only [List.length_range'] at hiv hfbl hcbl hsets hsteps
    refine ⟨size, scene, registry, transient,
      [.recreateSwapchain, .glfwGetFramebufferSize] ++ segw, sege, created,
      .vkGetSwapchainImagesKHR s.nextHandle
        (List.range' (s.nextHandle + 1) w.swapchainImageCount) :: seg,
      hsize, by rw [← e_scene, hsc], hsc', e_flag, by rw [e_img, List.length_range'],
      hiv, hfbl, hcbl, hsets, ?_, ?_, ?_, hcreated, ?_, ?_, ?_⟩
    · rw [htr]
      simp [teardownCalls]
    · intro c hc
      simp only [List.mem_append, List.mem_cons, List.mem_singleton, List.not_mem_nil,
        or_false] at hc
      rcases hc with (rfl | rfl) | hc
      · rfl
      · rfl
      · rcases hsegw c hc with rfl | rfl <;> rfl
    · intro c hc
      rw [hsege c hc]
      rfl
    · simp only [steps, List.filterMap_cons, Call.step]
      exact hsteps
    · intro c hc
      rcases List.mem_cons.mp hc with rfl | hc
      · rfl
      · exact hext c hc
    · obtain ⟨x, y, z, hm⟩ := hpoolc
      exact ⟨x, y, z, List.mem_cons_of_mem _ hm⟩

/-- C8. Post-recreation counts: after a `recreateSwapchain` that returns with
the `n` presentable images the surface hands out, `swapchainImageViews`,
`swapchainFramebuffers` and `commandBuffers` have length `n`, and for every renderable of
the scene and every mesh index `m` of its model, `descriptorSets[m]` has length `n` and
each of its sets belongs to the descriptor pool created by this recreation. -/
theorem post_recreation_counts (K : Constants) (w : World) (s s' : State)
    (h : recreateSwapchain K w s = .ok () s') :
    s'.swapchainImages.length = w.swapchainImageCount ∧
    s'.swapchainImageViews.length = s'.swapchainImages.length ∧
    s'.swapchainFramebuffers.length = s'.swapchainImages.length ∧
    s'.commandBuffers.length = s'.swapchainImages.length ∧
    (∃ scene, s'.scene = some scene ∧
      ∀ r ∈ scene.renderables, ∀ m, m < (s'.renderer.getModel r.model).meshes.length →
        ∃ sets, r.descriptorSets[m]? = some sets ∧
          sets.length = s'.swapchainImages.length ∧ ∀ x ∈ sets, x.pool = s'.descriptorPool) ∧
    (∃ x y z,
      .vkCreateDescriptorPool x y z s'.descriptorPool ∈ emitted s (recreateSwapchain K w s)) := by
  obtain ⟨size, scene, registry, transient, A, B, created, C, -, -, hscene, -, himg, hiv, hfb,
    hcb, hsets, htr, -, -, -, -, -, x, y, z, hpool⟩ := recreateSwapchain_ok_facts K w s s' h
  obtain ⟨hv, -⟩ := recreateSwapchain_rel K w s
  rw [h] at hv
  have e_ren : s'.renderer = s.renderer := (congrArg State.renderer hv :)
  refine ⟨himg, by rw [hiv, himg], by rw [hfb, himg], by rw [hcb, himg],
    ⟨{ registry := registry }, hscene, ?_⟩, x, y, z, ?_⟩
  · intro r hr m hm
    rw [e_ren] at hm
    rw [himg]
    exact hsets r hr m hm
  · rw [h]
    simp only [emitted, state_ok, htr, List.drop_left]
    simp [hpool]

set_option maxRecDepth 100000 in
theorem demo_recreate_ok :
    (recreateSwapchain demoConstants demoWorld demoState).isOk = true := by
  decide!

/-- C8 on the running engine: two images, so two of everything. -/
theorem post_recreation_counts_witness :
    recreateSwapchain demoConstants demoWorld demoState =
      .ok () (recreateSwapchain demoConstants demoWorld demoState).state ∧
    (recreateSwapchain demoConstants demoWorld demoState).state.swapchainImages.length = 2 ∧
    (recreateSwapchain demoConstants demoWorld demoState).state.swapchainImageViews.length = 2 ∧
    (recreateSwapchain demoConstants demoWorld demoState).state.swapchainFramebuffers.length = 2 ∧
    (recreateSwapchain demoConstants demoWorld demoState).state.commandBuffers.length = 2 :=
  have h := ok_of_isOk _ demo_recreate_ok
  have k := post_recreation_counts demoConstants demoWorld demoState _ h
  ⟨h, k.1, k.2.1.trans k.1, k.2.2.1.trans k.1, k.2.2.2.1.trans k.1⟩

/-! ## The length invariant -/

/-- A returning `createSyncObjects` sizes `imagesInFlight` to the image
count. -/
theorem createSyncObjects_ok (K : Constants) (w : World) (s s' : State)
    (h : createSyncObjects K w s = .ok () s') :
    syncView s' = syncView s ∧ s'.imagesInFlight.length = s.swapchainImages.length := by
  simp only [createSyncObjects, bind_ok_iff, update_ok_iff, call_ok_iff, fresh_ok_iff,
    ASH_ASSERT_ok_iff,
    exists_eq_left, exists_and_left, exists_eq_right, and_assoc, exists_const, true_and,
    and_true, exists_eq_left', exists_and_right] at h
  obtain ⟨_, sl, hloop, -, rfl⟩ := h
  have key := forRange_ok _
    (fun (_ : Nat) a b => syncView b = syncView a ∧ b.imagesInFlight = a.imagesInFlight)
    (fun a => ⟨rfl, rfl⟩) ?_ _ _ _ _ hloop
  · obtain ⟨hv, hl⟩ := key
    refine ⟨hv.trans rfl, ?_⟩
    show sl.imagesInFlight.length = _
    rw [hl]
    simp [resize]
    omega
  · intro lo k a a1 a2 hbody hQ
    simp only [bind_ok_iff, update_ok_iff, call_ok_iff, fresh_ok_iff, ASH_ASSERT_ok_iff,
      exists_eq_left, exists_and_left, exists_eq_right, and_assoc, exists_const, true_and,
      and_true, exists_eq_left', exists_and_right] at hbody
    obtain ⟨-, -, -, rfl⟩ := hbody
    exact ⟨hQ.1.trans rfl, hQ.2.trans rfl⟩

/-- C9. The length invariant is established by `createSyncObjects`, the last
step of `init`, and broken by the first `recreateSwapchain` for which the surface hands
out a different number of images: `recreateSwapchain` rebuilds the images, views and
framebuffers but never resizes `imagesInFlight`. -/
theorem recreation_breaks_length_invariant (K : Constants) (w0 w : World) (s0 s s' : State)
    (hinit : createSyncObjects K w0 s0 = .ok () s)
    (h : recreateSwapchain K w s = .ok () s')
    (hn : w.swapchainImageCount ≠ s0.swapchainImages.length) :
    s.imagesInFlight.length = s.swapchainImages.length ∧
    s'.swapchainImages.length = w.swapchainImageCount ∧
    s'.swapchainImageViews.length = w.swapchainImageCount ∧
    s'.swapchainFramebuffers.length = w.swapchainImageCount ∧
    s'.imagesInFlight = s.imagesInFlight ∧
    s'.imagesInFlight.length ≠ s'.swapchainImages.length := by
  obtain ⟨hv0, hl0⟩ := createSyncObjects_ok K w0 s0 s hinit
  have e0 : s.swapchainImages = s0.swapchainImages := (congrArg State.swapchainImages hv0 :)
  obtain ⟨size, scene, registry, transient, A, B, created, C, -, -, -, -, himg, hiv, hfb,
    -, -, -, -, -, -, -, -, -⟩ := recreateSwapchain_ok_facts K w s s' h
  obtain ⟨hv, -⟩ := recreateSwapchain_rel K w s
  rw [h] at hv
  have e_if : s'.imagesInFlight = s.imagesInFlight := (congrArg State.imagesInFlight hv :)
  refine ⟨by rw [hl0, e0], himg, hiv, hfb, e_if, ?_⟩
  rw [e_if, hl0, himg]
  exact fun e => hn e.symm

theorem demo_sync_ok :
    (createSyncObjects demoConstants demoWorld preSyncState).isOk = true := by
  decide!

set_option maxRecDepth 100000 in
set_option maxHeartbeats 4000000 in
theorem demo_three_images_eval :
    (recreateSwapchain demoConstants threeImageWorld
      (createSyncObjects demoConstants demoWorld preSyncState).state).isOk = true ∧
    (render demoConstants threeImageWorld
      (recreateSwapchain demoConstants threeImageWorld
        (createSyncObjects demoConstants demoWorld preSyncState).state).state).raised =
      some .undefinedBehaviour := by
  decide!

/-- C9 on the running engine: `init` ends with two images and two entries of
`imagesInFlight`; a recreation for which the surface hands out three images returns with
three images, views and framebuffers and still two entries of `imagesInFlight`; the next
`render()` acquires image `2` and reads `imagesInFlight[2]` out of range. -/
theorem recreation_breaks_length_invariant_witness :
    createSyncObjects demoConstants demoWorld preSyncState =
      .ok () (createSyncObjects demoConstants demoWorld preSyncState).state ∧
    recreateSwapchain demoConstants threeImageWorld
        (createSyncObjects demoConstants demoWorld preSyncState).state =
      .ok () (recreateSwapchain demoConstants threeImageWorld
        (createSyncObjects demoConstants demoWorld preSyncState).state).state ∧
    threeImageWorld.swapchainImageCount ≠ preSyncState.swapchainImages.length ∧
    (createSyncObjects demoConstants demoWorld preSyncState).state.imagesInFlight.length = 2 ∧
    (recreateSwapchain demoConstants threeImageWorld
      (createSyncObjects demoConstants demoWorld preSyncState).state).state.swapchainImages.length
        = 3 ∧
    (recreateSwapchain demoConstants threeImageWorld
      (createSyncObjects demoConstants demoWorld preSyncState).state).state.imagesInFlight.length
        = 2 ∧
    (render demoConstants threeImageWorld
      (recreateSwapchain demoConstants threeImageWorld
        (createSyncObjects demoConstants demoWorld preSyncState).state).state).raised =
      some .undefinedBehaviour :=
  have h0 := ok_of_isOk _ demo_sync_ok
  have h1 := ok_of_isOk _ demo_three_images_eval.1
  have hn : threeImageWorld.swapchainImageCount ≠ preSyncState.swapchainImages.length := by
    decide
  have k := recreation_breaks_length_invariant demoConstants demoWorld threeImageWorld
    preSyncState _ _ h0 h1 hn
  have e : (createSyncObjects demoConstants demoWorld preSyncState).state.swapchainImages.length
      = 2 := by
    simp [createSyncObjects, forRange, resize, preSyncState, demoState, demoWorld, demoConstants,
      VK_NULL_HANDLE]
  ⟨h0, h1, hn, k.1.trans e, k.2.1, (congrArg List.length k.2.2.2.2.1).trans (k.1.trans e),
    demo_three_images_eval.2⟩

/-! ## Draws recorded by `recordCommandBuffers` -/

theorem drawEvents_append (a b : List Call) :
    drawEvents (a ++ b) = drawEvents a ++ drawEvents b :=
  List.filterMap_append _ _ _

theorem pipelineAt_ok (name : String) (s s' : State) (p : Handle)
    (h : pipelineAt name s = .ok p s') : ∃ g, s' = { s with graphicsPipelines := g } := by
  unfold pipelineAt at h
  cases hl : s.graphicsPipelines.lookup name with
  | none =>
    rw [hl] at h
    simp only [Outcome.ok.injEq] at h
    exact ⟨_, h.2.symm⟩
  | some q =>
    rw [hl] at h
    simp only [Outcome.ok.injEq] at h
    exact ⟨s.graphicsPipelines, h.2.symm⟩

theorem recordMesh_ok (K : Constants) (i : Nat) (cb : Handle) (r : Renderable) (h j m : Nat)
    (s s' : State) (hok : recordMesh K i cb r h j m s = .ok () s') :
    recordView s' = recordView s ∧
    drawEvents s'.trace = drawEvents s.trace ++
      drawsAt cb ((h * (alignedStride K s % 2 ^ 32)) % 2 ^ 32) 1 := by
  simp only [recordMesh, bind_ok_iff, readState_ok_iff, call_ok_iff, index_ok_iff,
    exists_eq_left, exists_and_left, exists_eq_right, and_assoc, exists_const, true_and,
    and_true, exists_eq_left', exists_and_right] at hok
  obtain ⟨p, s1, hp, ubo, -, sets, -, set, -, rfl⟩ := hok
  obtain ⟨g, rfl⟩ := pipelineAt_ok _ _ _ _ hp
  refine ⟨rfl, ?_⟩
  simp [drawEvents, List.filterMap_append, Call.drawEvent, drawsAt]

theorem drawsAt_succ (cb : Handle) (offset M : Nat) :
    drawsAt cb offset (M + 1) = drawsAt cb offset 1 ++ drawsAt cb offset M := by
  simp [drawsAt, List.replicate_succ]

theorem drawsFrom_succ (cb : Handle) (stride M lo R : Nat) :
    drawsFrom cb stride M lo (R + 1) =
      drawsAt cb ((lo * stride) % 2 ^ 32) M ++ drawsFrom cb stride M (lo + 1) R := by
  simp [drawsFrom, List.range'_succ]

theorem recordMeshes_ok (K : Constants) (i : Nat) (cb : Handle) (r : Renderable) (h : Nat)
    (meshes : List Nat) (lo : Nat) (s s' : State)
    (hok : forEachIdx lo meshes (recordMesh K i cb r h) s = .ok () s') :
    recordView s' = recordView s ∧
    drawEvents s'.trace = drawEvents s.trace ++
      drawsAt cb ((h * (alignedStride K s % 2 ^ 32)) % 2 ^ 32) meshes.length := by
  refine forEachIdx_ok _
    (fun k a b => recordView b = recordView a ∧
      drawEvents b.trace = drawEvents a.trace ++
        drawsAt cb ((h * (alignedStride K a % 2 ^ 32)) % 2 ^ 32) k)
    (fun a => ⟨rfl, by simp [drawsAt]⟩) ?_ lo meshes s s' hok
  intro lo x k a a1 a2 hbody hQ
  obtain ⟨hv1, he1⟩ := recordMesh_ok _ _ _ _ _ _ _ _ _ hbody
  obtain ⟨hv2, he2⟩ := hQ
  have e : alignedStride K a1 = alignedStride K a :=
    (congrArg (alignedStride K) hv1 :)
  refine ⟨hv2.trans hv1, ?_⟩
  rw [he2, he1, e, List.append_assoc]
  exact congrArg _ (drawsAt_succ _ _ _).symm

theorem recordRenderables_ok (K : Constants) (img : Nat) (cb : Handle) (M : Nat) (V : State)
    (rs : List Renderable) (hM : ∀ r ∈ rs, (V.renderer.getModel r.model).meshes.length = M) :
    ∀ (i : Nat) (s s' : State), recordView s = V →
      recordRenderables K img cb (i % 2 ^ 32) rs s = .ok () s' →
      recordView s' = V ∧
      drawEvents s'.trace = drawEvents s.trace ++
        drawsFrom cb (alignedStride K V) M i rs.length := by
  induction rs with
  | nil =>
    intro i s s' hV hok
    simp only [recordRenderables, run_pure, Outcome.ok.injEq, true_and] at hok
    subst hok
    exact ⟨hV, by simp [drawsFrom]⟩
  | cons r rs ih =>
    intro i s s' hV hok
    simp only [recordRenderables, bind_ok_iff, readState_ok_iff,
      exists_eq_left, exists_and_left, exists_eq_right, and_assoc, exists_const, true_and,
      and_true, exists_eq_left', exists_and_right] at hok
    obtain ⟨_, s1, hmesh, hrest⟩ := hok
    obtain ⟨hv1, he1⟩ := recordMeshes_ok _ _ _ _ _ _ _ _ _ hmesh
    have hnext : (i % 2 ^ 32 + 1) % 2 ^ 32 = (i + 1) % 2 ^ 32 := by omega
    rw [hnext] at hrest
    obtain ⟨hv2, he2⟩ := ih (fun x hx => hM x (List.mem_cons_of_mem _ hx)) (i + 1) s1 s'
      (hv1.trans hV) hrest
    have e_ren : s.renderer = V.renderer := (congrArg State.renderer hV :)
    have e_str : alignedStride K s = alignedStride K V := (congrArg (alignedStride K) hV :)
    have hlen : (s.renderer.getModel r.model).meshes.length = M := by
      rw [e_ren]
      exact hM r (List.mem_cons_self _ _)
    refine ⟨hv2, ?_⟩
    rw [he2, he1, hlen, e_str, List.length_cons, drawsFrom_succ, List.append_assoc,
      ← Nat.mul_mod]

theorem recordCommandBuffer_ok (K : Constants) (w : World) (img : Nat) (M : Nat) (V : State)
    (scene : Scene) (hscene : V.scene = some scene)
    (hM : ∀ r ∈ scene.renderables, (V.renderer.getModel r.model).meshes.length = M)
    (s s' : State) (hV : recordView s = V) (hok : recordCommandBuffer K w img s = .ok () s') :
    recordView s' = V ∧
    ∃ cb, V.commandBuffers[img]? = some cb ∧
      drawEvents s'.trace = drawEvents s.trace ++
        .begin cb :: drawsFrom cb (alignedStride K V) M 0 scene.renderables.length := by
  have e_scene : s.scene = some scene := by
    rw [← hscene, ← hV]
    rfl
  have e_cb : s.commandBuffers = V.commandBuffers := (congrArg State.commandBuffers hV :)
  simp only [recordCommandBuffer, bind_ok_iff, readState_ok_iff, call_ok_iff, callS_ok_iff,
    index_ok_iff, ASH_ASSERT_ok_iff, e_scene,
    exists_eq_left, exists_and_left, exists_eq_right, and_assoc, exists_const, true_and,
    and_true, exists_eq_left', exists_and_right] at hok
  obtain ⟨cb, hcb, -, fb, -, _, s1, hren, -, rfl⟩ := hok
  obtain ⟨hv1, he1⟩ := recordRenderables_ok K img cb M V scene.renderables hM 0 _ s1
    (by rw [← hV, ← e_scene]; rfl) hren
  refine ⟨by rw [← hv1]; rfl, cb, by rw [← e_cb]; exact hcb, ?_⟩
  simp only [drawEvents_append, he1]
  simp [drawEvents, Call.drawEvent]

theorem recordCommandBuffers_loop_ok (K : Constants) (w : World) (M : Nat) (V : State)
    (scene : Scene) (hscene : V.scene = some scene)
    (hM : ∀ r ∈ scene.renderables, (V.renderer.getModel r.model).meshes.length = M) (n : Nat) :
    ∀ (lo : Nat) (s s' : State), recordView s = V →
      forRange lo n (recordCommandBuffer K w) s = .ok () s' →
      recordView s' = V ∧
      drawEvents s'.trace = drawEvents s.trace ++
        (((V.commandBuffers.drop lo).take n).map (fun cb =>
          DrawEvent.begin cb ::
            drawsFrom cb (alignedStride K V) M 0 scene.renderables.length)).flatten := by
  induction n with
  | zero =>
    intro lo s s' hV hok
    simp only [forRange, run_pure, Outcome.ok.injEq, true_and] at hok
    subst hok
    exact ⟨hV, by simp⟩
  | succ n ih =>
    intro lo s s' hV hok
    simp only [forRange, bind_ok_iff] at hok
    obtain ⟨_, s1, h1, h2⟩ := hok
    obtain ⟨hv1, cb, hcb, he1⟩ := recordCommandBuffer_ok K w lo M V scene hscene hM s s1 hV h1
    obtain ⟨hv2, he2⟩ := ih (lo + 1) s1 s' hv1 h2
    refine ⟨hv2, ?_⟩
    have hlo : lo < V.commandBuffers.length := by
      by_contra hn
      rw [List.getElem?_eq_none (by omega)] at hcb
      cases hcb
    have hget : V.commandBuffers[lo] = cb := by
      rw [List.getElem?_eq_getElem hlo] at hcb
      exact Option.some.inj hcb
    have hdrop : V.commandBuffers.drop lo = cb :: V.commandBuffers.drop (lo + 1) := by
      rw [← hget]
      exact List.drop_eq_getElem_cons hlo
    rw [he2, he1, hdrop, List.take_succ_cons, List.map_cons, List.flatten_cons,
      List.append_assoc]

theorem count_drawsAt (cb : Handle) (offset M : Nat) :
    (drawsAt cb offset M).count (.draw cb) = M := by
  induction M with
  | zero => simp [drawsAt]
  | succ M ih =>
    rw [drawsAt_succ, List.count_append, ih]
    simp [drawsAt, List.count_cons]
    omega

theorem count_drawsFrom (cb : Handle) (stride M lo R : Nat) :
    (drawsFrom cb stride M lo R).count (.draw cb) = R * M := by
  induction R generalizing lo with
  | zero => simp [drawsFrom]
  | succ R ih =>
    rw [drawsFrom_succ, List.count_append, ih, count_drawsAt]
    rw [Nat.succ_mul]
    omega

theorem wide_stride : alignedStride demoConstants wideState = 2147483648 := by
  decide

theorem land_wide : Nat.land 2147483839 18446744071562067968 = 2147483648 := by
  decide

set_option maxRecDepth 100000 in
theorem demo_wide_eval :
    (recordCommandBuffers demoConstants demoWorld wideState).isOk = true ∧
    drawEvents (emitted wideState (recordCommandBuffers demoConstants demoWorld wideState)) =
      [.begin 22, .offsets 22 [0], .draw 22, .offsets 22 [2147483648], .draw 22,
        .offsets 22 [0], .draw 22,
       .begin 23, .offsets 23 [0], .draw 23, .offsets 23 [2147483648], .draw 23,
        .offsets 23 [0], .draw 23] := by
  decide!

/-- C10 as written fails: on a device whose uniform alignment is `2^31` the
stride is `2^31`, and the draw of the third renderable (index 2) is issued with the
dynamic offset `0`, not `2 * 2^31`: the offset is computed in 32 bits. -/
theorem draw_offsets_counterexample :
    (recordCommandBuffers demoConstants demoWorld wideState).isOk = true ∧
    alignedStride demoConstants wideState = 2147483648 ∧
    drawEvents (emitted wideState (recordCommandBuffers demoConstants demoWorld wideState)) =
      [.begin 22, .offsets 22 [0], .draw 22, .offsets 22 [2147483648], .draw 22,
        .offsets 22 [0], .draw 22,
       .begin 23, .offsets 23 [0], .draw 23, .offsets 23 [2147483648], .draw 23,
        .offsets 23 [0], .draw 23] ∧
    2 * alignedStride demoConstants wideState ≠ 0 :=
  ⟨demo_wide_eval.1, wide_stride, demo_wide_eval.2, by rw [wide_stride]; decide⟩

/-- C10, amended. For a scene whose renderables own `M` meshes each, a
`recordCommandBuffers` that returns has recorded into every command buffer, after its
begin, the draws of the renderables in iteration order: `M` indexed draws for the `i`-th
renderable, each right after a bind with the single dynamic offset
`(i * alignedStride) mod 2^32`; that is `R * M` draws per command buffer for `R`
renderables, all draws of one renderable share one offset, and the offset is
`i * alignedStride` whenever that product is below `2^32`. -/
theorem draw_count_and_offsets (K : Constants) (w : World) (s s' : State) (scene : Scene)
    (M : Nat) (h : recordCommandBuffers K w s = .ok () s') (hscene : s.scene = some scene)
    (hM : ∀ r ∈ scene.renderables, (s.renderer.getModel r.model).meshes.length = M) :
    drawEvents (emitted s (recordCommandBuffers K w s)) =
      (s.commandBuffers.map (fun cb =>
        DrawEvent.begin cb ::
          drawsFrom cb (alignedStride K s) M 0 scene.renderables.length)).flatten ∧
    (∀ cb, (drawsFrom cb (alignedStride K s) M 0 scene.renderables.length).count (.draw cb) =
      scene.renderables.length * M) ∧
    (∀ i, i * alignedStride K s < 2 ^ 32 →
      (i * alignedStride K s) % 2 ^ 32 = i * alignedStride K s) := by
  refine ⟨?_, fun cb => count_drawsFrom cb _ _ _ _, fun i hi => Nat.mod_eq_of_lt hi⟩
  have hloop : forRange 0 s.commandBuffers.length (recordCommandBuffer K w) s = .ok () s' := by
    simpa only [recordCommandBuffers, bind_ok_iff, readState_ok_iff,
      exists_eq_left, exists_and_left, exists_eq_right, and_assoc, exists_const, true_and,
      and_true, exists_eq_left', exists_and_right] using h
  obtain ⟨-, he⟩ := recordCommandBuffers_loop_ok K w M (recordView s) scene hscene hM
    s.commandBuffers.length 0 s s' rfl hloop
  obtain ⟨-, seg, ht, -⟩ := keeps_ok (keeps_recordCommandBuffers K w) h
  rw [ht, drawEvents_append] at he
  have hseg := List.append_cancel_left he
  rw [h]
  simp only [emitted, state_ok, ht, List.drop_left]
  rw [hseg]
  have e1 : (recordView s).commandBuffers = s.commandBuffers := rfl
  have e2 : alignedStride K (recordView s) = alignedStride K s := rfl
  rw [e1, e2, List.drop_zero, List.take_length]

/-- C10, amended, on three renderables of one mesh each and two command
buffers. -/
theorem draw_count_and_offsets_witness :
    recordCommandBuffers demoConstants demoWorld wideState =
      .ok () (recordCommandBuffers demoConstants demoWorld wideState).state ∧
    drawEvents (emitted wideState (recordCommandBuffers demoConstants demoWorld wideState)) =
      ([22, 23].map (fun cb =>
        DrawEvent.begin cb :: drawsFrom cb (alignedStride demoConstants wideState) 1 0 3)).flatten ∧
    (drawsFrom 22 (alignedStride demoConstants wideState) 1 0 3).count (.draw 22) = 3 * 1 :=
  have h := ok_of_isOk _ demo_wide_eval.1
  have k := draw_count_and_offsets demoConstants demoWorld wideState _
    ⟨[⟨some ⟨0, "main", [[⟨12, 31⟩, ⟨12, 32⟩]]⟩, some 7⟩,
      ⟨some ⟨0, "main", [[⟨12, 33⟩, ⟨12, 34⟩]]⟩, some 8⟩,
      ⟨some ⟨0, "main", [[⟨12, 35⟩, ⟨12, 36⟩]]⟩, some 9⟩]⟩ 1 h rfl (fun _ _ => rfl)
  ⟨h, k.1, k.2.1 22⟩

/-! ## Claims about the aligned stride -/

theorem land_eq_and (a b : Nat) : Nat.land a b = a &&& b := rfl

/-- Bits of the 64-bit complement `~c`. -/
theorem testBit_mask (c : Nat) (hc : c < 2 ^ 64) (i : Nat) :
    (2 ^ 64 - 1 - c).testBit i = (decide (i < 64) && !c.testBit i) := by
  have e : 2 ^ 64 - 1 - c = 2 ^ 64 - (c + 1) := by omega
  rw [e, Nat.testBit_two_pow_sub_succ hc]

/-- Bits at and above position 64 of a 64-bit value are clear. -/
theorem testBit_high (x : Nat) (hx : x < 2 ^ 64) (i : Nat) (hi : 64 ≤ i) :
    x.testBit i = false :=
  Nat.testBit_lt_two_pow (lt_of_lt_of_le hx (Nat.pow_le_pow_right (by decide) hi))

/-- Masking with `~(2^k - 1)` clears the low `k` bits. -/
theorem land_mask_pow (x k : Nat) (hx : x < 2 ^ 64) (hk : k < 64) :
    Nat.land x (2 ^ 64 - 1 - (2 ^ k - 1)) = 2 ^ k * (x / 2 ^ k) := by
  have hlt : 2 ^ k - 1 < 2 ^ 64 :=
    lt_of_lt_of_le (Nat.sub_lt (Nat.two_pow_pos k) (by decide))
      (Nat.pow_le_pow_right (by decide) (le_of_lt hk))
  rw [land_eq_and]
  apply Nat.eq_of_testBit_eq
  intro i
  rw [Nat.testBit_and, testBit_mask _ hlt, Nat.testBit_two_pow_sub_one, Nat.testBit_mul_pow_two]
  have hsplit : x.testBit i =
      if i < k then (x % 2 ^ k).testBit i else (x / 2 ^ k).testBit (i - k) := by
    have := Nat.testBit_mul_pow_two_add (x / 2 ^ k) (Nat.mod_lt x (Nat.two_pow_pos k)) i
    rwa [Nat.div_add_mod] at this
  by_cases h1 : i < k
  · simp [h1, Nat.not_le_of_lt h1]
  · by_cases h2 : i < 64
    · have h3 : k ≤ i := Nat.le_of_not_lt h1
      rw [hsplit]
      simp [h1, h2, h3]
    · have hx0 := testBit_high x hx i (Nat.le_of_not_lt h2)
      have h3 : k ≤ i := Nat.le_of_not_lt h1
      rw [hsplit, if_neg h1] at hx0
      simp [h2, hx0, hsplit, h1]

/-- Adding a value whose set bits are all clear in `r` sets those bits. -/
theorem add_mod_eq_or (r c : Nat) (hr : r < 2 ^ 64) (hc : c < 2 ^ 64) (h : r &&& c = 0) :
    (r + c) % 2 ^ 64 = r ||| c := by
  have hr1 : r % 18446744073709551616 = r := Nat.mod_eq_of_lt hr
  have hc1 : c % 18446744073709551616 = c := Nat.mod_eq_of_lt hc
  have hbv : BitVec.ofNat 64 r &&& BitVec.ofNat 64 c = 0#64 := by
    apply BitVec.eq_of_toNat_eq
    simp [BitVec.toNat_and, BitVec.toNat_ofNat, hr1, hc1, h]
  have := congrArg BitVec.toNat (BitVec.add_eq_or_of_and_eq_zero _ _ hbv)
  simpa [BitVec.toNat_add, BitVec.toNat_or, BitVec.toNat_ofNat, hr1, hc1] using this

/-- Masking an already masked value again, after adding the cleared bits,
gives the value back. -/
theorem land_mask_idem (x c : Nat) (hc : c < 2 ^ 64) :
    Nat.land ((Nat.land (x % 2 ^ 64) (2 ^ 64 - 1 - c) + c) % 2 ^ 64) (2 ^ 64 - 1 - c) =
      Nat.land (x % 2 ^ 64) (2 ^ 64 - 1 - c) := by
  have hx : x % 2 ^ 64 < 2 ^ 64 := Nat.mod_lt _ (Nat.two_pow_pos 64)
  generalize x % 2 ^ 64 = y at hx
  rw [land_eq_and, land_eq_and]
  have hr : y &&& (2 ^ 64 - 1 - c) < 2 ^ 64 := lt_of_le_of_lt Nat.and_le_left hx
  have hdis : (y &&& (2 ^ 64 - 1 - c)) &&& c = 0 := by
    apply Nat.eq_of_testBit_eq
    intro i
    rw [Nat.testBit_and, Nat.testBit_and, testBit_mask _ hc, Nat.zero_testBit]
    cases c.testBit i <;> simp
  rw [add_mod_eq_or _ _ hr hc hdis]
  apply Nat.eq_of_testBit_eq
  intro i
  rw [Nat.testBit_and, Nat.testBit_or, Nat.testBit_and, testBit_mask _ hc]
  cases c.testBit i <;> cases y.testBit i <;> simp

/-- C11, counterexample. For `base = 5` and `align = 3` the result is `5`,
which is not a multiple of `3`. -/
theorem aligned_stride_counterexample :
    calculateDynamicAllignment 3 5 = 5 ∧ ¬ 3 ∣ calculateDynamicAllignment 3 5 := by
  have h : calculateDynamicAllignment 3 5 = 5 := by decide
  rw [h]
  exact ⟨rfl, by decide⟩

/-- C11, amended. For every `align` that is a power of two below `2^64` and
every `base` with `base + align - 1 < 2^64`, the result of
`calculateDynamicAllignment(align, base)` is a multiple of `align`, is at
least `base`, and is the smallest value with both properties. -/
theorem aligned_stride_least_multiple (k base : Nat) (hk : k < 64)
    (hfit : base + 2 ^ k - 1 < 2 ^ 64) :
    2 ^ k ∣ calculateDynamicAllignment (2 ^ k) base ∧
      base ≤ calculateDynamicAllignment (2 ^ k) base ∧
      ∀ m, 2 ^ k ∣ m → base ≤ m → calculateDynamicAllignment (2 ^ k) base ≤ m := by
  have hp : 0 < 2 ^ k := Nat.two_pow_pos k
  have hval : calculateDynamicAllignment (2 ^ k) base =
      2 ^ k * ((base + 2 ^ k - 1) / 2 ^ k) := by
    unfold calculateDynamicAllignment
    rw [if_pos hp, Nat.mod_eq_of_lt hfit, land_mask_pow _ _ hfit hk]
  rw [hval]
  generalize 2 ^ k = p at hp hfit
  have hdm := Nat.div_add_mod (base + p - 1) p
  have hmod := Nat.mod_lt (base + p - 1) hp
  refine ⟨Dvd.intro _ rfl, by omega, ?_⟩
  rintro m ⟨q, rfl⟩ hm
  apply Nat.mul_le_mul_left
  by_contra hlt
  have h1 : q + 1 ≤ (base + p - 1) / p := by omega
  have h2 := Nat.mul_le_mul_left p h1
  rw [Nat.mul_add, Nat.mul_one] at h2
  omega

theorem aligned_stride_least_multiple_witness :
    2 ^ 8 ∣ calculateDynamicAllignment (2 ^ 8) 192 ∧
      192 ≤ calculateDynamicAllignment (2 ^ 8) 192 ∧
      ∀ m, 2 ^ 8 ∣ m → 192 ≤ m → calculateDynamicAllignment (2 ^ 8) 192 ≤ m :=
  aligned_stride_least_multiple 8 192 (by decide) (by decide)

/-- C12. For every `base` and every `align`,
`calculateDynamicAllignment(align, calculateDynamicAllignment(align, base))`
equals `calculateDynamicAllignment(align, base)`. -/
theorem aligned_stride_idempotent (align base : Nat) :
    calculateDynamicAllignment align (calculateDynamicAllignment align base) =
      calculateDynamicAllignment align base := by
  unfold calculateDynamicAllignment
  by_cases ha : align > 0
  · simp only [if_pos ha]
    by_cases hc : align - 1 < 2 ^ 64
    · have e : ∀ y, y + align - 1 = y + (align - 1) := fun y => by omega
      rw [e, e]
      exact land_mask_idem _ _ hc
    · have hz : 2 ^ 64 - 1 - (align - 1) = 0 := by omega
      rw [hz, land_eq_and, land_eq_and, Nat.and_zero, Nat.and_zero]
  · simp only [if_neg ha]

/-! ## Claims about the swapchain choosers -/

theorem find_eq_of_first {α : Type} (p : α → Bool) (pre post : List α) (f : α)
    (hf : p f = true) (hpre : ∀ g ∈ pre, p g = false) :
    (pre ++ f :: post).find? p = some f := by
  induction pre with
  | nil => simp [List.find?, hf]
  | cons a pre ih =>
    have ha : p a = false := hpre a (by simp)
    simp only [List.cons_append, List.find?, ha]
    exact ih (fun g hg => hpre g (by simp [hg]))

/-- C14. On a non-empty list, if some element has the preferred pair
(`VK_FORMAT_B8G8R8_SRGB`, `VK_COLOR_SPACE_SRGB_NONLINEAR_KHR`) then
`chooseSwapSurfaceFormat` returns the first such element (the element `f`
of any split `pre ++ f :: post` in which `f` is preferred and nothing in
`pre` is); if no element is preferred it returns the first element of the
list. -/
theorem surface_format_choice (first : VkSurfaceFormatKHR) (rest : List VkSurfaceFormatKHR) :
    (∀ pre f post, first :: rest = pre ++ f :: post →
      (f.format = .VK_FORMAT_B8G8R8_SRGB ∧
        f.colorSpace = .VK_COLOR_SPACE_SRGB_NONLINEAR_KHR) →
      (∀ g ∈ pre, ¬ (g.format = .VK_FORMAT_B8G8R8_SRGB ∧
        g.colorSpace = .VK_COLOR_SPACE_SRGB_NONLINEAR_KHR)) →
      chooseSwapSurfaceFormat (first :: rest) = some f) ∧
    ((∀ g ∈ first :: rest, ¬ (g.format = .VK_FORMAT_B8G8R8_SRGB ∧
        g.colorSpace = .VK_COLOR_SPACE_SRGB_NONLINEAR_KHR)) →
      chooseSwapSurfaceFormat (first :: rest) = some first) := by
  constructor
  · intro pre f post hsplit hf hpre
    unfold chooseSwapSurfaceFormat
    rw [hsplit, find_eq_of_first _ pre post f (by simp [hf.1, hf.2])
      (fun g hg => by simpa using hpre g hg)]
  · intro hnone
    unfold chooseSwapSurfaceFormat
    have : (first :: rest).find? (fun f => f.format == .VK_FORMAT_B8G8R8_SRGB &&
        f.colorSpace == .VK_COLOR_SPACE_SRGB_NONLINEAR_KHR) = none := by
      rw [List.find?_eq_none]
      intro g hg
      simpa using hnone g hg
    rw [this]
    simp

/-- C15, counterexample. On the empty list `chooseSwapSurfaceFormat` returns
no format: it evaluates `availableFormats[0]` of an empty vector.
`createSwapchain` passes the queried list on unchecked, so on a surface that
reports no format it ends in undefined behaviour. -/
theorem surface_format_empty_counterexample :
    (¬ ∃ f, chooseSwapSurfaceFormat [] = some f) ∧
      (createSwapchain { demoWorld with support := { demoWorld.support with formats := [] } }
        demoState).raised = some .undefinedBehaviour := by
  constructor
  · simp [chooseSwapSurfaceFormat]
  · simp [createSwapchain, chooseSwapSurfaceFormat, defined, Outcome.raised, demoWorld]

/-- C15, amended. For every non-empty list of supported formats
`chooseSwapSurfaceFormat` returns a format, and that format is a member of the
list. -/
theorem surface_format_member (availableFormats : List VkSurfaceFormatKHR)
    (hne : availableFormats ≠ []) :
    ∃ f, chooseSwapSurfaceFormat availableFormats = some f ∧ f ∈ availableFormats := by
  unfold chooseSwapSurfaceFormat
  split
  · next f hfind => exact ⟨f, rfl, List.mem_of_find?_eq_some hfind⟩
  · cases availableFormats with
    | nil => exact absurd rfl hne
    | cons a l => exact ⟨a, by simp, by simp⟩

theorem surface_format_member_witness :
    ∃ f, chooseSwapSurfaceFormat
        [⟨.VK_FORMAT_R8G8B8A8_SRGB, .VK_COLOR_SPACE_SRGB_NONLINEAR_KHR⟩] = some f ∧
      f ∈ [(⟨.VK_FORMAT_R8G8B8A8_SRGB, .VK_COLOR_SPACE_SRGB_NONLINEAR_KHR⟩ :
        VkSurfaceFormatKHR)] :=
  surface_format_member [⟨.VK_FORMAT_R8G8B8A8_SRGB, .VK_COLOR_SPACE_SRGB_NONLINEAR_KHR⟩]
    (by decide)

/-- C16. For every list of available present modes `chooseSwapPresentMode`
returns `VK_PRESENT_MODE_MAILBOX_KHR` if that mode occurs in the list and
`VK_PRESENT_MODE_FIFO_KHR` otherwise; so the result is always one of the two,
and it is FIFO for the empty list. -/
theorem present_mode_choice (availablePresentModes : List VkPresentModeKHR) :
    chooseSwapPresentMode availablePresentModes =
        (if VkPresentModeKHR.VK_PRESENT_MODE_MAILBOX_KHR ∈ availablePresentModes then
          .VK_PRESENT_MODE_MAILBOX_KHR else .VK_PRESENT_MODE_FIFO_KHR) ∧
      (chooseSwapPresentMode availablePresentModes = .VK_PRESENT_MODE_MAILBOX_KHR ∨
        chooseSwapPresentMode availablePresentModes = .VK_PRESENT_MODE_FIFO_KHR) ∧
      chooseSwapPresentMode [] = .VK_PRESENT_MODE_FIFO_KHR := by
  have key : chooseSwapPresentMode availablePresentModes =
      (if VkPresentModeKHR.VK_PRESENT_MODE_MAILBOX_KHR ∈ availablePresentModes then
        .VK_PRESENT_MODE_MAILBOX_KHR else .VK_PRESENT_MODE_FIFO_KHR) := by
    unfold chooseSwapPresentMode
    split
    · next m hfind =>
      have hm := List.find?_some hfind
      have hmem := List.mem_of_find?_eq_some hfind
      have : m = .VK_PRESENT_MODE_MAILBOX_KHR := by simpa using hm
      subst this
      rw [if_pos hmem]
    · next hfind =>
      rw [List.find?_eq_none] at hfind
      have : VkPresentModeKHR.VK_PRESENT_MODE_MAILBOX_KHR ∉ availablePresentModes := by
        intro hmem
        have := hfind _ hmem
        simp at this
      rw [if_neg this]
  refine ⟨key, ?_, rfl⟩
  rw [key]
  split
  · exact Or.inl rfl
  · exact Or.inr rfl

/-- A returning `createSwapchain` has asked the driver for
`requestedImageCount` images. -/
theorem createSwapchain_requests (w : World) (s s' : State)
    (h : createSwapchain w s = .ok () s') :
    ∃ format extent presentMode concurrent swapchain,
      Call.vkCreateSwapchainKHR (requestedImageCount w.support.capabilities) format extent
        presentMode concurrent swapchain ∈ emitted s (createSwapchain w s) := by
  rw [h]
  simp only [createSwapchain, bind_ok_iff, readState_ok_iff, update_ok_iff, call_ok_iff,
    fresh_ok_iff, freshN_ok_iff, ASH_ASSERT_ok_iff, pure_ok_iff, defined_ok_iff, value_ok_iff,
    exists_eq_left, exists_and_left, exists_eq_right, and_assoc, exists_const, true_and,
    and_true, exists_eq_left', exists_and_right] at h
  obtain ⟨surfaceFormat, -, extent, s1, hext, g, -, p, -, -, h⟩ := h
  obtain ⟨seg, hseg, rfl⟩ := chooseSwapExtent_ok _ _ _ _ _ hext
  subst h
  refine ⟨surfaceFormat, extent, chooseSwapPresentMode w.support.presentModes, g != p,
    s.nextHandle, ?_⟩
  simp [emitted, Outcome.state]

/-- C17. The image count `createSwapchain` requests is `minImageCount + 1`
in 32-bit unsigned arithmetic when `maxImageCount = 0` or that sum does not
exceed `maxImageCount`, and `maxImageCount` otherwise; whenever
`maxImageCount > 0` the requested count does not exceed `maxImageCount`; and
every `createSwapchain` that returns has passed this count to
`vkCreateSwapchainKHR`. -/
theorem requested_image_count (capabilities : VkSurfaceCapabilitiesKHR) :
    requestedImageCount capabilities =
        (if capabilities.maxImageCount = 0 ∨
            (capabilities.minImageCount + 1) % 2 ^ 32 ≤ capabilities.maxImageCount then
          (capabilities.minImageCount + 1) % 2 ^ 32
        else capabilities.maxImageCount) ∧
      (capabilities.maxImageCount > 0 →
        requestedImageCount capabilities ≤ capabilities.maxImageCount) ∧
      (∀ (w : World) (s s' : State), w.support.capabilities = capabilities →
        createSwapchain w s = .ok () s' →
        ∃ format extent presentMode concurrent swapchain,
          Call.vkCreateSwapchainKHR (requestedImageCount capabilities) format extent
            presentMode concurrent swapchain ∈ emitted s (createSwapchain w s)) := by
  refine ⟨?_, ?_, ?_⟩
  · unfold requestedImageCount
    by_cases h : capabilities.maxImageCount = 0 ∨
        (capabilities.minImageCount + 1) % 2 ^ 32 ≤ capabilities.maxImageCount
    · rw [if_pos h]
      simp only
      rw [if_neg]
      omega
    · rw [if_neg h]
      simp only
      rw [if_pos]
      omega
  · intro hpos
    unfold requestedImageCount
    simp only
    split <;> omega
  · intro w s s' hcap h
    rw [← hcap]
    exact createSwapchain_requests w s s' h

/-! ## Claims about layout transitions -/

set_option maxRecDepth 100000 in
set_option maxHeartbeats 4000000 in
/-- C18. `transitionImageLayout` supports exactly three transitions.  For
(UNDEFINED, TRANSFER_DST_OPTIMAL), (TRANSFER_DST_OPTIMAL,
SHADER_READ_ONLY_OPTIMAL) and (UNDEFINED, DEPTH_STENCIL_ATTACHMENT_OPTIMAL) it
returns after recording one pipeline barrier from the old to the new layout
on a one-off command buffer and submitting that command buffer once.  For
every other pair it raises the assertion fault having only allocated and begun
the command buffer.  So a barrier is recorded exactly for the three pairs, and
a queue submit is made exactly for the three pairs. -/
theorem transition_support (image : Handle) (format : VkFormat)
    (oldLayout newLayout : VkImageLayout) (s : State) :
    (((oldLayout = .VK_IMAGE_LAYOUT_UNDEFINED ∧
          newLayout = .VK_IMAGE_LAYOUT_TRANSFER_DST_OPTIMAL) ∨
        (oldLayout = .VK_IMAGE_LAYOUT_TRANSFER_DST_OPTIMAL ∧
          newLayout = .VK_IMAGE_LAYOUT_SHADER_READ_ONLY_OPTIMAL) ∨
        (oldLayout = .VK_IMAGE_LAYOUT_UNDEFINED ∧
          newLayout = .VK_IMAGE_LAYOUT_DEPTH_STENCIL_ATTACHMENT_OPTIMAL)) →
      (transitionImageLayout image format oldLayout newLayout s).isOk = true ∧
      ∃ src dst aspectMask srcAccessMask dstAccessMask,
        emitted s (transitionImageLayout image format oldLayout newLayout s) =
          [.vkAllocateCommandBuffers s.commandPool [s.nextHandle],
            .vkBeginCommandBuffer s.nextHandle,
            .vkCmdPipelineBarrier s.nextHandle src dst
              ⟨image, oldLayout, newLayout, aspectMask, srcAccessMask, dstAccessMask⟩,
            .vkEndCommandBuffer s.nextHandle,
            .vkQueueSubmit s.nextHandle none none VK_NULL_HANDLE,
            .vkQueueWaitIdle,
            .vkFreeCommandBuffers s.commandPool [s.nextHandle]]) ∧
    (¬ ((oldLayout = .VK_IMAGE_LAYOUT_UNDEFINED ∧
          newLayout = .VK_IMAGE_LAYOUT_TRANSFER_DST_OPTIMAL) ∨
        (oldLayout = .VK_IMAGE_LAYOUT_TRANSFER_DST_OPTIMAL ∧
          newLayout = .VK_IMAGE_LAYOUT_SHADER_READ_ONLY_OPTIMAL) ∨
        (oldLayout = .VK_IMAGE_LAYOUT_UNDEFINED ∧
          newLayout = .VK_IMAGE_LAYOUT_DEPTH_STENCIL_ATTACHMENT_OPTIMAL)) →
      (transitionImageLayout image format oldLayout newLayout s).raised = some .assertion ∧
      emitted s (transitionImageLayout image format oldLayout newLayout s) =
        [.vkAllocateCommandBuffers s.commandPool [s.nextHandle],
          .vkBeginCommandBuffer s.nextHandle]) ∧
    ((∃ c ∈ emitted s (transitionImageLayout image format oldLayout newLayout s),
        c.isPipelineBarrier = true) ↔
      ((oldLayout = .VK_IMAGE_LAYOUT_UNDEFINED ∧
          newLayout = .VK_IMAGE_LAYOUT_TRANSFER_DST_OPTIMAL) ∨
        (oldLayout = .VK_IMAGE_LAYOUT_TRANSFER_DST_OPTIMAL ∧
          newLayout = .VK_IMAGE_LAYOUT_SHADER_READ_ONLY_OPTIMAL) ∨
        (oldLayout = .VK_IMAGE_LAYOUT_UNDEFINED ∧
          newLayout = .VK_IMAGE_LAYOUT_DEPTH_STENCIL_ATTACHMENT_OPTIMAL))) ∧
    ((∃ c ∈ emitted s (transitionImageLayout image format oldLayout newLayout s),
        c.isQueueSubmit = true) ↔
      ((oldLayout = .VK_IMAGE_LAYOUT_UNDEFINED ∧
          newLayout = .VK_IMAGE_LAYOUT_TRANSFER_DST_OPTIMAL) ∨
        (oldLayout = .VK_IMAGE_LAYOUT_TRANSFER_DST_OPTIMAL ∧
          newLayout = .VK_IMAGE_LAYOUT_SHADER_READ_ONLY_OPTIMAL) ∨
        (oldLayout = .VK_IMAGE_LAYOUT_UNDEFINED ∧
          newLayout = .VK_IMAGE_LAYOUT_DEPTH_STENCIL_ATTACHMENT_OPTIMAL))) := by
  cases oldLayout <;> cases newLayout <;>
    simp [transitionImageLayout, beginSingleTimeCommands, endSingleTimeCommands, emitted,
      Outcome.isOk, Outcome.raised, Outcome.state, Call.isPipelineBarrier, Call.isQueueSubmit]

/-! ## Claims about texture creation -/

theorem findQueueFamiliesFrom_isComplete (l : List QueueFamily) (i : Nat)
    (indices : QueueFamilyIndices) :
    (findQueueFamiliesFrom i indices l).isComplete =
      ((indices.graphicsFamily.isSome || l.any (fun q => q.graphics)) &&
        (indices.presentsFamily.isSome || l.any (fun q => q.present))) := by
  induction l generalizing i indices with
  | nil => simp [findQueueFamiliesFrom, QueueFamilyIndices.isComplete]
  | cons q rest ih =>
    obtain ⟨g, p⟩ := indices
    obtain ⟨qg, qp⟩ := q
    unfold findQueueFamiliesFrom
    simp only [QueueFamilyIndices.isComplete] at ih
    cases qg <;> cases qp <;> cases g <;> cases p <;>
      simp [ih, QueueFamilyIndices.isComplete]

theorem findQueueFamilies_isComplete (device : PhysicalDevice) :
    (findQueueFamilies device).isComplete = true ↔
      (∃ q ∈ device.queueFamilies, q.graphics = true) ∧
        (∃ q ∈ device.queueFamilies, q.present = true) := by
  unfold findQueueFamilies
  rw [findQueueFamiliesFrom_isComplete]
  simp

theorem mem_erase_all (available : List String) (required : List String) (e : String) :
    e ∈ available.foldl (fun requiredExtensions extensionName =>
        requiredExtensions.filter (fun r => r != extensionName)) required ↔
      e ∈ required ∧ e ∉ available := by
  induction available generalizing required with
  | nil => simp
  | cons a rest ih =>
    rw [List.foldl_cons, ih]
    simp only [List.mem_filter, List.mem_cons, not_or, bne_iff_ne, ne_eq]
    tauto

theorem checkDeviceExtensionSupport_iff (device : DeviceReport) :
    checkDeviceExtensionSupport device = true ↔
      ∀ e ∈ deviceExtensions, e ∈ device.availableExtensions := by
  unfold checkDeviceExtensionSupport
  rw [List.isEmpty_iff, List.eq_nil_iff_forall_not_mem]
  constructor
  · intro h e he
    by_contra hn
    exact h e ((mem_erase_all _ _ _).2 ⟨he, hn⟩)
  · intro h e he
    obtain ⟨h1, h2⟩ := (mem_erase_all _ _ _).1 he
    exact h2 (h e h1)

theorem isDeviceSuitable_iff (device : DeviceReport) :
    isDeviceSuitable device = true ↔
      ((∃ q ∈ device.device.queueFamilies, q.graphics = true) ∧
        (∃ q ∈ device.device.queueFamilies, q.present = true)) ∧
      (∀ e ∈ deviceExtensions, e ∈ device.availableExtensions) ∧
      (device.swapChainSupport.formats ≠ [] ∧ device.swapChainSupport.presentModes ≠ []) ∧
      device.samplerAnisotropy = true := by
  unfold isDeviceSuitable
  rw [← findQueueFamilies_isComplete, ← checkDeviceExtensionSupport_iff]
  cases checkDeviceExtensionSupport device <;>
    simp [List.isEmpty_iff, and_assoc]

theorem pickFirstSuitable_first (pre post : List DeviceReport) (device : DeviceReport)
    (s : State) (hd : isDeviceSuitable device = true)
    (hpre : ∀ g ∈ pre, isDeviceSuitable g = false) :
    pickFirstSuitable (pre ++ device :: post) s =
      .ok () { s with physicalDevice := device.device } := by
  induction pre with
  | nil => simp [pickFirstSuitable, hd]
  | cons a pre ih =>
    have ha : isDeviceSuitable a = false := hpre a (by simp)
    simp only [List.cons_append, pickFirstSuitable, ha]
    exact ih (fun g hg => hpre g (by simp [hg]))

theorem pickFirstSuitable_none (devices : List DeviceReport) (s : State)
    (h : ∀ g ∈ devices, isDeviceSuitable g = false) :
    pickFirstSuitable devices s = .ok () s := by
  induction devices with
  | nil => rfl
  | cons a rest ih =>
    have ha : isDeviceSuitable a = false := h a (by simp)
    simp only [pickFirstSuitable, ha]
    exact ih (fun g hg => h g (by simp [hg]))

theorem first_suitable_split (devices : List DeviceReport)
    (h : ∃ r ∈ devices, isDeviceSuitable r = true) :
    ∃ pre r post, devices = pre ++ r :: post ∧ isDeviceSuitable r = true ∧
      ∀ g ∈ pre, isDeviceSuitable g = false := by
  induction devices with
  | nil => simp at h
  | cons a rest ih =>
    by_cases ha : isDeviceSuitable a = true
    · exact ⟨[], a, rest, rfl, ha, by simp⟩
    · have ha1 : isDeviceSuitable a = false := by simpa using ha
      obtain ⟨r, hr, hs⟩ := h
      have hr1 : r ∈ rest := by
        rcases List.mem_cons.1 hr with rfl | hr
        · exact absurd hs ha
        · exact hr
      obtain ⟨pre, r1, post, e, h1, h2⟩ := ih ⟨r, hr1, hs⟩
      refine ⟨a :: pre, r1, post, by rw [e]; rfl, h1, ?_⟩
      intro g hg
      rcases List.mem_cons.1 hg with rfl | hg
      · exact ha1
      · exact h2 g hg

theorem pickPhysicalDevice_first (w : World) (s : State) (pre post : List DeviceReport)
    (device : DeviceReport) (hsplit : w.devices = pre ++ device :: post)
    (hd : isDeviceSuitable device = true) (hpre : ∀ g ∈ pre, isDeviceSuitable g = false)
    (hnn : device.device.handle ≠ VK_NULL_HANDLE) :
    pickPhysicalDevice w s = .ok () { s with physicalDevice := device.device } := by
  have hlen : (w.devices.length != 0) = true := by simp [hsplit]
  have hh : (device.device.handle != VK_NULL_HANDLE) = true := by simpa using hnn
  simp only [pickPhysicalDevice, run_bind, run_update, run_ASH_ASSERT, run_readState, hlen,
    if_true]
  rw [hsplit, pickFirstSuitable_first _ _ _ _ hd hpre]
  simp only [hh, if_true]

theorem pickPhysicalDevice_none (w : World) (s : State)
    (h : ∀ g ∈ w.devices, isDeviceSuitable g = false) :
    (pickPhysicalDevice w s).raised = some .assertion := by
  by_cases hlen : (w.devices.length != 0) = true
  · simp only [pickPhysicalDevice, run_bind, run_update, run_ASH_ASSERT, run_readState, hlen,
      if_true]
    rw [pickFirstSuitable_none _ _ h]
    simp [nullPhysicalDevice, Outcome.raised]
  · simp only [pickPhysicalDevice, run_bind, run_update, run_ASH_ASSERT, run_readState, hlen]
    simp [Outcome.raised]

/-- C20. A device is suitable exactly when it has a graphics and a present
queue family, offers every required extension, has non-empty surface-format
and present-mode sets, and supports sampler anisotropy.  For every enumerated
device list (whose handles are not null) `pickPhysicalDevice` selects the
first suitable device in enumeration order, and it fails with the assertion
fault exactly when no enumerated device is suitable, which includes the empty
list; otherwise it returns. -/
theorem device_selection (w : World) (s : State)
    (hnn : ∀ r ∈ w.devices, r.device.handle ≠ VK_NULL_HANDLE) :
    (∀ r : DeviceReport, isDeviceSuitable r = true ↔
      ((∃ q ∈ r.device.queueFamilies, q.graphics = true) ∧
        (∃ q ∈ r.device.queueFamilies, q.present = true)) ∧
      (∀ e ∈ deviceExtensions, e ∈ r.availableExtensions) ∧
      (r.swapChainSupport.formats ≠ [] ∧ r.swapChainSupport.presentModes ≠ []) ∧
      r.samplerAnisotropy = true) ∧
    (∀ pre r post, w.devices = pre ++ r :: post → isDeviceSuitable r = true →
      (∀ g ∈ pre, isDeviceSuitable g = false) →
      pickPhysicalDevice w s = .ok () { s with physicalDevice := r.device }) ∧
    ((pickPhysicalDevice w s).raised = some .assertion ↔
      ∀ r ∈ w.devices, isDeviceSuitable r = false) ∧
    ((pickPhysicalDevice w s).isOk = true ↔ ∃ r ∈ w.devices, isDeviceSuitable r = true) ∧
    (w.devices = [] → (pickPhysicalDevice w s).raised = some .assertion) := by
  have hfirst : ∀ pre r post, w.devices = pre ++ r :: post → isDeviceSuitable r = true →
      (∀ g ∈ pre, isDeviceSuitable g = false) →
      pickPhysicalDevice w s = .ok () { s with physicalDevice := r.device } := by
    intro pre r post hsplit hr hpre
    exact pickPhysicalDevice_first w s pre post r hsplit hr hpre
      (hnn r (by rw [hsplit]; simp))
  have hcases : (∃ r ∈ w.devices, isDeviceSuitable r = true) ∨
      ∀ r ∈ w.devices, isDeviceSuitable r = false := by
    by_cases hex : ∃ r ∈ w.devices, isDeviceSuitable r = true
    · exact Or.inl hex
    · refine Or.inr (fun r hr => ?_)
      by_contra hn
      exact hex ⟨r, hr, by simpa using hn⟩
  refine ⟨isDeviceSuitable_iff, hfirst, ?_, ?_, ?_⟩
  · constructor
    · intro hraised
      rcases hcases with hex | hall
      · obtain ⟨pre, r, post, e, h1, h2⟩ := first_suitable_split _ hex
        rw [hfirst pre r post e h1 h2] at hraised
        simp [Outcome.raised] at hraised
      · exact hall
    · exact pickPhysicalDevice_none w s
  · constructor
    · intro hok
      rcases hcases with hex | hall
      · exact hex
      · have := pickPhysicalDevice_none w s hall
        cases hrun : pickPhysicalDevice w s with
        | ok a s1 => rw [hrun] at this; simp [Outcome.raised] at this
        | fault f s1 => rw [hrun] at hok; simp [Outcome.isOk] at hok
    · intro hex
      obtain ⟨pre, r, post, e, h1, h2⟩ := first_suitable_split _ hex
      rw [hfirst pre r post e h1 h2]
      rfl
  · intro hnil
    exact pickPhysicalDevice_none w s (by rw [hnil]; simp)

theorem device_selection_witness :
    (∀ r : DeviceReport, isDeviceSuitable r = true ↔
      ((∃ q ∈ r.device.queueFamilies, q.graphics = true) ∧
        (∃ q ∈ r.device.queueFamilies, q.present = true)) ∧
      (∀ e ∈ deviceExtensions, e ∈ r.availableExtensions) ∧
      (r.swapChainSupport.formats ≠ [] ∧ r.swapChainSupport.presentModes ≠ []) ∧
      r.samplerAnisotropy = true) ∧
    (∀ pre r post, demoWorld.devices = pre ++ r :: post → isDeviceSuitable r = true →
      (∀ g ∈ pre, isDeviceSuitable g = false) →
      pickPhysicalDevice demoWorld demoState =
        .ok () { demoState with physicalDevice := r.device }) ∧
    ((pickPhysicalDevice demoWorld demoState).raised = some .assertion ↔
      ∀ r ∈ demoWorld.devices, isDeviceSuitable r = false) ∧
    ((pickPhysicalDevice demoWorld demoState).isOk = true ↔
      ∃ r ∈ demoWorld.devices, isDeviceSuitable r = true) ∧
    (demoWorld.devices = [] →
      (pickPhysicalDevice demoWorld demoState).raised = some .assertion) :=
  device_selection demoWorld demoState
    (by simp [demoWorld, demoReport, demoDevice, VK_NULL_HANDLE])

/-! ## Claims about rounding up to a power of two -/

/-- C26. For every `align` that is a power of two and every `base` with
`base + align - 1 < 2^64`, `calculateDynamicAllignment(align, base)` is
`ceil(base / align) * align`, where the ceiling is the quotient
`(base + align - 1) / align`, the least `q` with `base ≤ q * align`; it
returns `base` unchanged when `base` is already a multiple of `align`; and for
`align = 0` it returns `base` unchanged. -/
theorem aligned_stride_round_up (k base : Nat) (hfit : base + 2 ^ k - 1 < 2 ^ 64) :
    calculateDynamicAllignment (2 ^ k) base = (base + 2 ^ k - 1) / 2 ^ k * 2 ^ k ∧
      (base ≤ (base + 2 ^ k - 1) / 2 ^ k * 2 ^ k ∧
        ∀ q, base ≤ q * 2 ^ k → (base + 2 ^ k - 1) / 2 ^ k ≤ q) ∧
      (2 ^ k ∣ base → calculateDynamicAllignment (2 ^ k) base = base) ∧
      calculateDynamicAllignment 0 base = base := by
  have hp : 0 < 2 ^ k := Nat.two_pow_pos k
  have hval : calculateDynamicAllignment (2 ^ k) base =
      (base + 2 ^ k - 1) / 2 ^ k * 2 ^ k := by
    unfold calculateDynamicAllignment
    rw [if_pos hp]
    by_cases hk : k < 64
    · rw [Nat.mod_eq_of_lt hfit, land_mask_pow _ _ hfit hk, Nat.mul_comm]
    · have hbig : 2 ^ 64 ≤ 2 ^ k := Nat.pow_le_pow_right (by decide) (Nat.le_of_not_lt hk)
      have hz : 2 ^ 64 - 1 - (2 ^ k - 1) = 0 := by omega
      rw [hz, land_eq_and, Nat.and_zero, Nat.div_eq_of_lt (by omega), Nat.zero_mul]
  refine ⟨hval, ⟨?_, ?_⟩, ?_, ?_⟩
  · generalize 2 ^ k = p at hp
    have hdm := Nat.div_add_mod (base + p - 1) p
    have hmod := Nat.mod_lt (base + p - 1) hp
    rw [Nat.mul_comm] at hdm
    omega
  · intro q hq
    generalize 2 ^ k = p at hp hq
    apply Nat.le_of_lt_succ
    rw [Nat.div_lt_iff_lt_mul hp, Nat.succ_mul]
    omega
  · rintro ⟨q, rfl⟩
    rw [hval]
    have e : 2 ^ k * q + 2 ^ k - 1 = 2 ^ k - 1 + 2 ^ k * q := by omega
    rw [e, Nat.add_mul_div_left _ _ hp, Nat.div_eq_of_lt (by omega), Nat.zero_add,
      Nat.mul_comm]
  · simp [calculateDynamicAllignment]

theorem aligned_stride_round_up_witness :
    calculateDynamicAllignment (2 ^ 8) 192 = (192 + 2 ^ 8 - 1) / 2 ^ 8 * 2 ^ 8 ∧
      (192 ≤ (192 + 2 ^ 8 - 1) / 2 ^ 8 * 2 ^ 8 ∧
        ∀ q, 192 ≤ q * 2 ^ 8 → (192 + 2 ^ 8 - 1) / 2 ^ 8 ≤ q) ∧
      (2 ^ 8 ∣ 192 → calculateDynamicAllignment (2 ^ 8) 192 = 192) ∧
      calculateDynamicAllignment 0 192 = 192 :=
  aligned_stride_round_up 8 192 (by decide)

/-! ## Claims about what recreation leaves behind -/

/-- C28. A `recreateSwapchain` that returns has destroyed the descriptor pool
it found and created a new one after that, but it has left `uboDescriptorSets`
and `uniformBuffers` as they were: the per-image uniform descriptor sets, which
were allocated from the pool it found, are not allocated again, so after the
recreation every one of them belongs to the destroyed pool; and both vectors
keep their old length while the swapchain has the new image count. -/
theorem recreation_keeps_stale_uniform_sets (K : Constants) (w : World) (s s' : State)
    (h : recreateSwapchain K w s = .ok () s')
    (hubo : ∀ x ∈ s.uboDescriptorSets, x.pool = s.descriptorPool) :
    s'.uboDescriptorSets = s.uboDescriptorSets ∧
    s'.uniformBuffers = s.uniformBuffers ∧
    (∀ x ∈ s'.uboDescriptorSets, x.pool = s.descriptorPool) ∧
    (∃ front back x y z,
      emitted s (recreateSwapchain K w s) =
        front ++ .vkDestroyDescriptorPool s.descriptorPool :: back ∧
      .vkCreateDescriptorPool x y z s'.descriptorPool ∈ back) ∧
    s'.swapchainImages.length = w.swapchainImageCount ∧
    s'.uniformBuffers.length = s.uniformBuffers.length ∧
    s'.uboDescriptorSets.length = s.uboDescriptorSets.length := by
  obtain ⟨hv, -⟩ := keeps_ok (keeps_recreateSwapchain K w) h
  have e1 : s'.uboDescriptorSets = s.uboDescriptorSets :=
    (congrArg State.uboDescriptorSets hv :)
  have e2 : s'.uniformBuffers = s.uniformBuffers := (congrArg State.uniformBuffers hv :)
  obtain ⟨size, scene, registry, transient, A, B, created, C, -, -, -, -, himg, -, -, -, -,
    htr, -, -, -, -, -, x, y, z, hpool⟩ := recreateSwapchain_ok_facts K w s s' h
  refine ⟨e1, e2, fun x hx => hubo x (e1 ▸ hx), ?_, himg, by rw [e2], by rw [e1]⟩
  refine ⟨A ++ .vkDeviceWaitIdle ::
      ([.vkDestroyImageView s.depthImageView, .vmaDestroyImage s.depthImage] ++
        s.swapchainFramebuffers.map Call.vkDestroyFramebuffer ++
        [.vkFreeCommandBuffers s.commandPool s.commandBuffers,
          .vkDestroyRenderPass s.renderPass] ++
        s.swapchainImageViews.map Call.vkDestroyImageView ++
        [.vkDestroySwapchainKHR s.swapchain]),
    B ++ created :: C, x, y, z, ?_, ?_⟩
  · rw [h]
    rw [emitted_append s _ _ (by simpa using htr)]
    simp [teardownCalls]
  · simp [hpool]

set_option maxRecDepth 100000 in
/-- C28 on the running engine: both uniform descriptor sets still name pool
`12`, which the recreation destroyed. -/
theorem recreation_keeps_stale_uniform_sets_witness :
    recreateSwapchain demoConstants demoWorld demoState =
      .ok () (recreateSwapchain demoConstants demoWorld demoState).state ∧
    (∀ x ∈ demoState.uboDescriptorSets, x.pool = demoState.descriptorPool) ∧
    (recreateSwapchain demoConstants demoWorld demoState).state.uboDescriptorSets =
      [⟨12, 14⟩, ⟨12, 15⟩] ∧
    ∃ front back, emitted demoState (recreateSwapchain demoConstants demoWorld demoState) =
      front ++ .vkDestroyDescriptorPool 12 :: back :=
  have h := ok_of_isOk _ demo_recreate_ok
  have hubo : ∀ x ∈ demoState.uboDescriptorSets, x.pool = demoState.descriptorPool := by
    simp [demoState]
  have k := recreation_keeps_stale_uniform_sets demoConstants demoWorld demoState _ h hubo
  ⟨h, hubo, k.1,
    match k.2.2.2.1 with
    | ⟨front, back, _, _, _, hsplit, _⟩ => ⟨front, back, hsplit⟩⟩

/-- C29. With no scene set, `recreateSwapchain` never returns normally:
`scene->registry` is read through the null pointer. -/
theorem recreation_without_scene_faults (K : Constants) (w : World) (s : State)
    (hnone : s.scene = none) : (recreateSwapchain K w s).isOk = false := by
  cases h : recreateSwapchain K w s with
  | fault f s1 => rfl
  | ok a s1 =>
    obtain ⟨size, scene, registry, transient, A, B, created, C, -, hscene, -⟩ :=
      recreateSwapchain_ok_facts K w s s1 h
    rw [hnone] at hscene
    cases hscene

set_option maxRecDepth 100000 in
theorem sceneless_recreate_eval :
    (recreateSwapchain demoConstants demoWorld sceneless).raised =
      some .undefinedBehaviour := by
  decide!

/-- C29 on the running engine without a scene: every driver call succeeds and
the recreation ends in undefined behaviour. -/
theorem recreation_without_scene_faults_witness :
    sceneless.scene = none ∧
    (recreateSwapchain demoConstants demoWorld sceneless).isOk = false ∧
    (recreateSwapchain demoConstants demoWorld sceneless).raised =
      some .undefinedBehaviour :=
  ⟨rfl, recreation_without_scene_faults demoConstants demoWorld sceneless rfl,
    sceneless_recreate_eval⟩

/-! ## Claims about command recording -/

theorem keeps_slotZero_recordMesh (K : Constants) (i : Nat) (cb : Handle) (r : Renderable)
    (h j m : Nat) : Keeps slotZeroFrame (recordMesh K i cb r h j m) := by
  unfold recordMesh slotZeroFrame
  repeat' with_reducible first
    | apply keeps_bind
    | apply keeps_readState
    | apply keeps_index
    | apply keeps_pure
    | apply keeps_pipelineAt
    | apply keeps_call
    | intro _
  all_goals first | rfl | exact Or.inl rfl | exact Or.inr rfl

theorem keeps_slotZero_recordRenderables (K : Constants) (i : Nat) (cb : Handle) (h : Nat)
    (rs : List Renderable) : Keeps slotZeroFrame (recordRenderables K i cb h rs) := by
  induction rs generalizing h with
  | nil => exact keeps_pure _ _
  | cons r rs ih =>
    unfold recordRenderables
    repeat' with_reducible first
      | apply keeps_bind
      | apply keeps_readState
      | apply keeps_forEachIdx
      | apply keeps_slotZero_recordMesh
      | apply ih
      | intro _

theorem keeps_slotZero_recordCommandBuffers (K : Constants) (w : World) :
    Keeps slotZeroFrame (recordCommandBuffers K w) := by
  have hren := keeps_slotZero_recordRenderables K
  unfold recordCommandBuffers recordCommandBuffer
  unfold slotZeroFrame at *
  repeat' with_reducible first
    | apply hren
    | apply keeps_bind
    | apply keeps_readState
    | apply keeps_index
    | apply keeps_pure
    | apply keeps_ASH_ASSERT
    | apply keeps_forRange
    | apply keeps_call
    | apply keeps_callS
    | split
    | intro _
  all_goals first | rfl | exact Or.inl rfl

/-- What one returning pass of the mesh loop records. -/
theorem recordMesh_calls (K : Constants) (i : Nat) (cb : Handle) (r : Renderable) (h j m : Nat)
    (s s' : State) (hok : recordMesh K i cb r h j m s = .ok () s') :
    ∃ pipeline ubo sets set,
      s.uboDescriptorSets[i]? = some ubo ∧ r.descriptorSets[j]? = some sets ∧
      sets[i]? = some set ∧
      s'.trace = s.trace ++
        [.vkCmdBindPipeline cb pipeline,
          .vkCmdBindVertexBuffers cb (s.renderer.getMesh m).ivb.buffer,
          .vkCmdBindIndexBuffer cb (s.renderer.getMesh m).ivb.buffer
            (s.renderer.getMesh m).ivb.vertSize,
          .vkCmdBindDescriptorSets cb s.pipelineLayout 0 ubo [],
          .vkCmdBindDescriptorSets cb s.pipelineLayout 0 set
            [(h * (alignedStride K s % 2 ^ 32)) % 2 ^ 32],
          .vkCmdDrawIndexed cb (s.renderer.getMesh m).ivb.numIndices] := by
  simp only [recordMesh, bind_ok_iff, readState_ok_iff, call_ok_iff, index_ok_iff,
    exists_eq_left, exists_and_left, exists_eq_right, and_assoc, exists_const, true_and,
    and_true, exists_eq_left', exists_and_right] at hok
  obtain ⟨p, s1, hp, ubo, hubo, sets, hsets, set, hset, rfl⟩ := hok
  obtain ⟨g, rfl⟩ := pipelineAt_ok _ _ _ _ hp
  exact ⟨p, ubo, sets, set, hubo, hsets, hset, by simp⟩

set_option maxRecDepth 100000 in
theorem demo_record_eval :
    (recordCommandBuffers demoConstants demoWorld demoState).isOk = true ∧
    emitted demoState (recordCommandBuffers demoConstants demoWorld demoState) =
      [.vkBeginCommandBuffer 22, .vkCmdBeginRenderPass 22 9 7 ⟨800, 600⟩,
        .vkCmdSetViewport 22 800 600, .vkCmdSetScissor 22 ⟨800, 600⟩,
        .vkCmdBindPipeline 22 20, .vkCmdBindVertexBuffers 22 50,
        .vkCmdBindIndexBuffer 22 50 64,
        .vkCmdBindDescriptorSets 22 19 0 ⟨12, 14⟩ [],
        .vkCmdBindDescriptorSets 22 19 0 ⟨12, 31⟩ [0],
        .vkCmdDrawIndexed 22 6, .vkCmdEndRenderPass 22, .vkEndCommandBuffer 22,
       .vkBeginCommandBuffer 23, .vkCmdBeginRenderPass 23 9 8 ⟨800, 600⟩,
        .vkCmdSetViewport 23 800 600, .vkCmdSetScissor 23 ⟨800, 600⟩,
        .vkCmdBindPipeline 23 20, .vkCmdBindVertexBuffers 23 50,
        .vkCmdBindIndexBuffer 23 50 64,
        .vkCmdBindDescriptorSets 23 19 0 ⟨12, 15⟩ [],
        .vkCmdBindDescriptorSets 23 19 0 ⟨12, 32⟩ [0],
        .vkCmdDrawIndexed 23 6, .vkCmdEndRenderPass 23, .vkEndCommandBuffer 23] := by
  decide!

/-- C22. Both descriptor-set binds of a draw are made at set index 0.  In
every run of `recordCommandBuffers`, returning or not, every
`vkCmdBindDescriptorSets` recorded has `firstSet = 0`, so no set is ever bound
at set index 1.  One returning pass of the mesh loop for command buffer `cb` of
image `i`, renderable number `h`, mesh number `j` records exactly: the
pipeline bind, the vertex and index buffer binds, `uboDescriptorSets[i]` bound
at set index 0 with no dynamic offset, then the renderable's own set
`descriptorSets[j][i]` bound at set index 0 as well with the single dynamic
offset arising from `h` and the aligned stride, then the indexed draw: the second bind
replaces the first at index 0. -/
theorem descriptor_binds_share_set_zero (K : Constants) (w : World) (s : State) :
    (∀ cb layout firstSet set offsets,
      Call.vkCmdBindDescriptorSets cb layout firstSet set offsets ∈
        emitted s (recordCommandBuffers K w s) → firstSet = 0) ∧
    (∀ i cb r h j m s1 s2, recordMesh K i cb r h j m s1 = .ok () s2 →
      ∃ pipeline ubo sets set,
        s1.uboDescriptorSets[i]? = some ubo ∧ r.descriptorSets[j]? = some sets ∧
        sets[i]? = some set ∧
        s2.trace = s1.trace ++
          [.vkCmdBindPipeline cb pipeline,
            .vkCmdBindVertexBuffers cb (s1.renderer.getMesh m).ivb.buffer,
            .vkCmdBindIndexBuffer cb (s1.renderer.getMesh m).ivb.buffer
              (s1.renderer.getMesh m).ivb.vertSize,
            .vkCmdBindDescriptorSets cb s1.pipelineLayout 0 ubo [],
            .vkCmdBindDescriptorSets cb s1.pipelineLayout 0 set
              [(h * (alignedStride K s1 % 2 ^ 32)) % 2 ^ 32],
            .vkCmdDrawIndexed cb (s1.renderer.getMesh m).ivb.numIndices]) := by
  refine ⟨?_, fun i cb r h j m s1 s2 hok => recordMesh_calls K i cb r h j m s1 s2 hok⟩
  intro cb layout firstSet set offsets hmem
  obtain ⟨-, seg, ht, hp⟩ := keeps_slotZero_recordCommandBuffers K w s
  rw [emitted, ht, List.drop_left] at hmem
  rcases hp _ hmem with h0 | h0
  · simp [Call.firstSet] at h0
  · simpa [Call.firstSet] using h0

/-- C22 on the running engine: the two command buffers are recorded with the
renderable's set at index 0 right after the uniform set at index 0. -/
theorem descriptor_binds_share_set_zero_witness :
    (recordCommandBuffers demoConstants demoWorld demoState).isOk = true ∧
    Call.vkCmdBindDescriptorSets 22 19 0 ⟨12, 31⟩ [0] ∈
      emitted demoState (recordCommandBuffers demoConstants demoWorld demoState) ∧
    (∀ cb layout firstSet set offsets,
      Call.vkCmdBindDescriptorSets cb layout firstSet set offsets ∈
        emitted demoState (recordCommandBuffers demoConstants demoWorld demoState) →
      firstSet = 0) :=
  ⟨demo_record_eval.1, by rw [demo_record_eval.2]; simp,
    (descriptor_binds_share_set_zero demoConstants demoWorld demoState).1⟩

/-! ## The pipeline registry during a frame -/

theorem registry_rel_of_eq {s t : State} (h : t.graphicsPipelines = s.graphicsPipelines) :
    registryFrame.rel s t :=
  ⟨fun _ _ hv => by rw [h]; exact hv, fun _ hn => Or.inl (by rw [h]; exact hn)⟩

theorem keeps_callS_any (F : Frame) (c : State → Call)
    (h : ∀ s, F.rel s { s with trace := s.trace ++ [c s] }) : Keeps F (callS c) := h

theorem keeps_fresh_any (F : Frame)
    (h : ∀ s, F.rel s { s with nextHandle := s.nextHandle + 1 }) : Keeps F fresh := h

theorem keeps_freshN_any (F : Frame) (n : Nat)
    (h : ∀ s, F.rel s { s with nextHandle := s.nextHandle + n }) : Keeps F (freshN n) := h

theorem keeps_registry_pipelineAt (name : String) : Keeps registryFrame (pipelineAt name) := by
  intro s
  unfold pipelineAt
  cases hl : s.graphicsPipelines.lookup name with
  | some p => exact registryFrame.refl s
  | none =>
    refine ⟨fun n v hv => ?_, fun n hn => ?_⟩
    · show List.lookup n (s.graphicsPipelines ++ [(name, VK_NULL_HANDLE)]) = some v
      rw [List.lookup_append, hv]
      rfl
    · show List.lookup n (s.graphicsPipelines ++ [(name, VK_NULL_HANDLE)]) = none ∨
        List.lookup n (s.graphicsPipelines ++ [(name, VK_NULL_HANDLE)]) = some VK_NULL_HANDLE
      rw [List.lookup_append, hn]
      by_cases e : n = name
      · right
        subst e
        simp [List.lookup]
      · left
        have : (n == name) = false := by simpa using e
        simp [List.lookup, this]

theorem keeps_registry_recordMesh (K : Constants) (i : Nat) (cb : Handle) (r : Renderable)
    (h j m : Nat) : Keeps registryFrame (recordMesh K i cb r h j m) := by
  unfold recordMesh
  repeat' with_reducible first
    | apply keeps_registry_pipelineAt
    | apply keeps_bind
    | apply keeps_readState
    | apply keeps_index
    | apply keeps_pure
    | apply keeps_call_any
    | intro _
  all_goals exact registry_rel_of_eq rfl

theorem keeps_registry_recordRenderables (K : Constants) (i : Nat) (cb : Handle) (h : Nat)
    (rs : List Renderable) : Keeps registryFrame (recordRenderables K i cb h rs) := by
  induction rs generalizing h with
  | nil => exact keeps_pure _ _
  | cons r rs ih =>
    unfold recordRenderables
    repeat' with_reducible first
      | apply keeps_bind
      | apply keeps_readState
      | apply keeps_forEachIdx
      | apply keeps_registry_recordMesh
      | apply ih
      | intro _

theorem keeps_registry_recordCommandBuffer (K : Constants) (w : World) (i : Nat) :
    Keeps registryFrame (recordCommandBuffer K w i) := by
  have hren := keeps_registry_recordRenderables K
  unfold recordCommandBuffer
  repeat' with_reducible first
    | apply hren
    | apply keeps_bind
    | apply keeps_readState
    | apply keeps_index
    | apply keeps_pure
    | apply keeps_ASH_ASSERT
    | apply keeps_call_any
    | apply keeps_callS_any
    | split
    | intro _
  all_goals exact registry_rel_of_eq rfl

theorem keeps_registry_recordCommandBuffers (K : Constants) (w : World) :
    Keeps registryFrame (recordCommandBuffers K w) := by
  unfold recordCommandBuffers
  repeat' with_reducible first
    | apply keeps_bind
    | apply keeps_readState
    | apply keeps_forRange
    | apply keeps_registry_recordCommandBuffer
    | intro _

theorem keeps_registry_waitWhileMinimized (width height : Int) (polls : List Poll) :
    Keeps registryFrame (waitWhileMinimized width height polls) := by
  induction polls generalizing width height with
  | nil =>
    unfold waitWhileMinimized
    split
    · exact keeps_raise _ _
    · exact keeps_pure _ _
  | cons p rest ih =>
    unfold waitWhileMinimized
    repeat' with_reducible first
      | apply ih
      | apply keeps_bind
      | apply keeps_pure
      | apply keeps_call_any
      | apply keeps_update_any
      | split
      | intro _
    all_goals exact registry_rel_of_eq rfl

theorem keeps_registry_recreateDescriptorSets (w : World) (model : Model) (i n : Nat)
    (r : Renderable) : Keeps registryFrame (recreateDescriptorSets w model i n r) := by
  induction n generalizing i r with
  | zero => exact keeps_pure _ _
  | succ n ih =>
    unfold recreateDescriptorSets createDescriptorSets
    repeat' with_reducible first
      | apply ih
      | apply keeps_bind
      | apply keeps_readState
      | apply keeps_index
      | apply keeps_pure
      | apply keeps_ASH_ASSERT
      | apply keeps_forEach
      | apply keeps_forRange
      | apply keeps_forEachIdx
      | apply keeps_call_any
      | apply keeps_callS_any
      | apply keeps_update_any
      | apply keeps_fresh_any
      | apply keeps_freshN_any
      | split
      | intro _
    all_goals exact registry_rel_of_eq rfl

theorem keeps_registry_recreateRenderables (w : World) (es : List Entity) :
    Keeps registryFrame (recreateRenderables w es) := by
  induction es with
  | nil => exact keeps_pure _ _
  | cons e es ih =>
    unfold recreateRenderables
    repeat' with_reducible first
      | exact ih
      | apply keeps_registry_recreateDescriptorSets
      | apply keeps_bind
      | apply keeps_readState
      | apply keeps_pure
      | split
      | intro _

/-! ## The steps of a recreation that touch neither the registry nor a uniform buffer -/

theorem keeps_quiet_cleanupSwapchain :
    Keeps quietFrame (cleanupSwapchain) := by
  unfold cleanupSwapchain
  repeat' with_reducible first
    | apply keeps_findDepthFormat
    | apply keeps_bind
    | apply keeps_readState
    | apply keeps_index
    | apply keeps_pure
    | apply keeps_raise
    | apply keeps_value
    | apply keeps_defined
    | apply keeps_ASH_ASSERT
    | apply keeps_forEach
    | apply keeps_forRange
    | apply keeps_forEachIdx
    | apply keeps_call
    | apply keeps_callS
    | apply keeps_update
    | apply keeps_fresh
    | apply keeps_freshN
    | split
    | intro _
  all_goals rfl

theorem keeps_quiet_chooseSwapExtent (w : World) (caps : VkSurfaceCapabilitiesKHR) :
    Keeps quietFrame (chooseSwapExtent w caps) := by
  unfold chooseSwapExtent
  repeat' with_reducible first
    | apply keeps_findDepthFormat
    | apply keeps_bind
    | apply keeps_readState
    | apply keeps_index
    | apply keeps_pure
    | apply keeps_raise
    | apply keeps_value
    | apply keeps_defined
    | apply keeps_ASH_ASSERT
    | apply keeps_forEach
    | apply keeps_forRange
    | apply keeps_forEachIdx
    | apply keeps_call
    | apply keeps_callS
    | apply keeps_update
    | apply keeps_fresh
    | apply keeps_freshN
    | split
    | intro _
  all_goals rfl

theorem keeps_quiet_createSwapchain (w : World) :
    Keeps quietFrame (createSwapchain w) := by
  unfold createSwapchain
  have h1 := keeps_quiet_chooseSwapExtent w
  repeat' with_reducible first
    | apply h1
    | apply keeps_findDepthFormat
    | apply keeps_bind
    | apply keeps_readState
    | apply keeps_index
    | apply keeps_pure
    | apply keeps_raise
    | apply keeps_value
    | apply keeps_defined
    | apply keeps_ASH_ASSERT
    | apply keeps_forEach
    | apply keeps_forRange
    | apply keeps_forEachIdx
    | apply keeps_call
    | apply keeps_callS
    | apply keeps_update
    | apply keeps_fresh
    | apply keeps_freshN
    | split
    | intro _
  all_goals rfl

theorem keeps_quiet_createImageView (w : World) (image : Handle) (format : VkFormat)
    (aspect : VkImageAspect) :
    Keeps quietFrame (createImageView w image format aspect) := by
  unfold createImageView
  repeat' with_reducible first
    | apply keeps_findDepthFormat
    | apply keeps_bind
    | apply keeps_readState
    | apply keeps_index
    | apply keeps_pure
    | apply keeps_raise
    | apply keeps_value
    | apply keeps_defined
    | apply keeps_ASH_ASSERT
    | apply keeps_forEach
    | apply keeps_forRange
    | apply keeps_forEachIdx
    | apply keeps_call
    | apply keeps_callS
    | apply keeps_update
    | apply keeps_fresh
    | apply keeps_freshN
    | split
    | intro _
  all_goals rfl

theorem keeps_quiet_createImageViews (w : World) :
    Keeps quietFrame (createImageViews w) := by
  unfold createImageViews
  have h1 := keeps_quiet_createImageView w
  repeat' with_reducible first
    | apply h1
    | apply keeps_findDepthFormat
    | apply keeps_bind
    | apply keeps_readState
    | apply keeps_index
    | apply keeps_pure
    | apply keeps_raise
    | apply keeps_value
    | apply keeps_defined
    | apply keeps_ASH_ASSERT
    | apply keeps_forEach
    | apply keeps_forRange
    | apply keeps_forEachIdx
    | apply keeps_call
    | apply keeps_callS
    | apply keeps_update
    | apply keeps_fresh
    | apply keeps_freshN
    | split
    | intro _
  all_goals rfl

theorem keeps_quiet_createRenderPass (w : World) :
    Keeps quietFrame (createRenderPass w) := by
  unfold createRenderPass
  repeat' with_reducible first
    | apply keeps_findDepthFormat
    | apply keeps_bind
    | apply keeps_readState
    | apply keeps_index
    | apply keeps_pure
    | apply keeps_raise
    | apply keeps_value
    | apply keeps_defined
    | apply keeps_ASH_ASSERT
    | apply keeps_forEach
    | apply keeps_forRange
    | apply keeps_forEachIdx
    | apply keeps_call
    | apply keeps_callS
    | apply keeps_update
    | apply keeps_fresh
    | apply keeps_freshN
    | split
    | intro _
  all_goals rfl

theorem keeps_quiet_createImage (w : World) (extent : VkExtent2D) (format : VkFormat) :
    Keeps quietFrame (createImage w extent format) := by
  unfold createImage
  repeat' with_reducible first
    | apply keeps_findDepthFormat
    | apply keeps_bind
    | apply keeps_readState
    | apply keeps_index
    | apply keeps_pure
    | apply keeps_raise
    | apply keeps_value
    | apply keeps_defined
    | apply keeps_ASH_ASSERT
    | apply keeps_forEach
    | apply keeps_forRange
    | apply keeps_forEachIdx
    | apply keeps_call
    | apply keeps_callS
    | apply keeps_update
    | apply keeps_fresh
    | apply keeps_freshN
    | split
    | intro _
  all_goals rfl

theorem keeps_quiet_beginSingleTimeCommands :
    Keeps quietFrame (beginSingleTimeCommands) := by
  unfold beginSingleTimeCommands
  repeat' with_reducible first
    | apply keeps_findDepthFormat
    | apply keeps_bind
    | apply keeps_readState
    | apply keeps_index
    | apply keeps_pure
    | apply keeps_raise
    | apply keeps_value
    | apply keeps_defined
    | apply keeps_ASH_ASSERT
    | apply keeps_forEach
    | apply keeps_forRange
    | apply keeps_forEachIdx
    | apply keeps_call
    | apply keeps_callS
    | apply keeps_update
    | apply keeps_fresh
    | apply keeps_freshN
    | split
    | intro _
  all_goals rfl

theorem keeps_quiet_endSingleTimeCommands (cb : Handle) :
    Keeps quietFrame (endSingleTimeCommands cb) := by
  unfold endSingleTimeCommands
  repeat' with_reducible first
    | apply keeps_findDepthFormat
    | apply keeps_bind
    | apply keeps_readState
    | apply keeps_index
    | apply keeps_pure
    | apply keeps_raise
    | apply keeps_value
    | apply keeps_defined
    | apply keeps_ASH_ASSERT
    | apply keeps_forEach
    | apply keeps_forRange
    | apply keeps_forEachIdx
    | apply keeps_call
    | apply keeps_callS
    | apply keeps_update
    | apply keeps_fresh
    | apply keeps_freshN
    | split
    | intro _
  all_goals rfl

theorem keeps_quiet_transitionImageLayout (image : Handle) (format : VkFormat)
    (oldLayout newLayout : VkImageLayout) :
    Keeps quietFrame (transitionImageLayout image format oldLayout newLayout) := by
  unfold transitionImageLayout
  have h1 := keeps_quiet_beginSingleTimeCommands
  have h2 := keeps_quiet_endSingleTimeCommands
  repeat' with_reducible first
    | apply h1
    | apply h2
    | apply keeps_findDepthFormat
    | apply keeps_bind
    | apply keeps_readState
    | apply keeps_index
    | apply keeps_pure
    | apply keeps_raise
    | apply keeps_value
    | apply keeps_defined
    | apply keeps_ASH_ASSERT
    | apply keeps_forEach
    | apply keeps_forRange
    | apply keeps_forEachIdx
    | apply keeps_call
    | apply keeps_callS
    | apply keeps_update
    | apply keeps_fresh
    | apply keeps_freshN
    | split
    | intro _
  all_goals rfl

theorem keeps_quiet_createDepthResources (w : World) :
    Keeps quietFrame (createDepthResources w) := by
  unfold createDepthResources
  have h1 := keeps_quiet_createImage w
  have h2 := keeps_quiet_createImageView w
  have h3 := keeps_quiet_transitionImageLayout
  repeat' with_reducible first
    | apply h1
    | apply h2
    | apply h3
    | apply keeps_findDepthFormat
    | apply keeps_bind
    | apply keeps_readState
    | apply keeps_index
    | apply keeps_pure
    | apply keeps_raise
    | apply keeps_value
    | apply keeps_defined
    | apply keeps_ASH_ASSERT
    | apply keeps_forEach
    | apply keeps_forRange
    | apply keeps_forEachIdx
    | apply keeps_call
    | apply keeps_callS
    | apply keeps_update
    | apply keeps_fresh
    | apply keeps_freshN
    | split
    | intro _
  all_goals rfl

theorem keeps_quiet_createFramebuffers (w : World) :
    Keeps quietFrame (createFramebuffers w) := by
  unfold createFramebuffers
  repeat' with_reducible first
    | apply keeps_findDepthFormat
    | apply keeps_bind
    | apply keeps_readState
    | apply keeps_index
    | apply keeps_pure
    | apply keeps_raise
    | apply keeps_value
    | apply keeps_defined
    | apply keeps_ASH_ASSERT
    | apply keeps_forEach
    | apply keeps_forRange
    | apply keeps_forEachIdx
    | apply keeps_call
    | apply keeps_callS
    | apply keeps_update
    | apply keeps_fresh
    | apply keeps_freshN
    | split
    | intro _
  all_goals rfl

theorem keeps_quiet_createDescriptorPool (w : World) (maxSets : Nat) :
    Keeps quietFrame (createDescriptorPool w maxSets) := by
  unfold createDescriptorPool
  repeat' with_reducible first
    | apply keeps_findDepthFormat
    | apply keeps_bind
    | apply keeps_readState
    | apply keeps_index
    | apply keeps_pure
    | apply keeps_raise
    | apply keeps_value
    | apply keeps_defined
    | apply keeps_ASH_ASSERT
    | apply keeps_forEach
    | apply keeps_forRange
    | apply keeps_forEachIdx
    | apply keeps_call
    | apply keeps_callS
    | apply keeps_update
    | apply keeps_fresh
    | apply keeps_freshN
    | split
    | intro _
  all_goals rfl

theorem quiet_le_registry (s t : State) (h : quietFrame.rel s t) : registryFrame.rel s t :=
  registry_rel_of_eq (congrArg Prod.fst h.1)

theorem keeps_registry_createCommandBuffers (K : Constants) (w : World) :
    Keeps registryFrame (createCommandBuffers K w) := by
  unfold createCommandBuffers
  have hrec := keeps_registry_recordCommandBuffers K w
  repeat' with_reducible first
    | exact hrec
    | apply keeps_bind
    | apply keeps_readState
    | apply keeps_ASH_ASSERT
    | apply keeps_call_any
    | apply keeps_update_any
    | apply keeps_freshN_any
    | intro _
  all_goals exact registry_rel_of_eq rfl

theorem keeps_registry_recreateSwapchain (K : Constants) (w : World) :
    Keeps registryFrame (recreateSwapchain K w) := by
  unfold recreateSwapchain recreateBody
  have h1 := keeps_registry_waitWhileMinimized w.framebufferWidth w.framebufferHeight w.polls
  have h2 := keeps_mono _ _ _ quiet_le_registry keeps_quiet_cleanupSwapchain
  have h3 := keeps_mono _ _ _ quiet_le_registry (keeps_quiet_createSwapchain w)
  have h4 := keeps_mono _ _ _ quiet_le_registry (keeps_quiet_createImageViews w)
  have h5 := keeps_mono _ _ _ quiet_le_registry (keeps_quiet_createRenderPass w)
  have h6 := keeps_mono _ _ _ quiet_le_registry (keeps_quiet_createDepthResources w)
  have h7 := keeps_mono _ _ _ quiet_le_registry (keeps_quiet_createFramebuffers w)
  have h8 := keeps_mono _ _ _ quiet_le_registry (keeps_quiet_createDescriptorPool w K.MAX_INSTANCES)
  have h9 := keeps_registry_recreateRenderables w
  have h10 := keeps_registry_createCommandBuffers K w
  repeat' with_reducible first
    | exact h1
    | exact h2
    | exact h3
    | exact h4
    | exact h5
    | exact h6
    | exact h7
    | exact h8
    | apply h9
    | exact h10
    | apply keeps_bind
    | apply keeps_readState
    | apply keeps_raise
    | apply keeps_call_any
    | apply keeps_update_any
    | split
    | intro _
  all_goals exact registry_rel_of_eq rfl

theorem keeps_registry_updateUniformBuffers (K : Constants) (i : Nat) :
    Keeps registryFrame (updateUniformBuffers K i) := by
  unfold updateUniformBuffers
  repeat' with_reducible first
    | apply keeps_bind
    | apply keeps_readState
    | apply keeps_index
    | apply keeps_pure
    | apply keeps_forEachIdx
    | apply keeps_call_any
    | split
    | intro _
  all_goals exact registry_rel_of_eq rfl

/-- Everything `render` does after `updateCommandBuffers` keeps the registry. -/
theorem render_tail_registry (K : Constants) (w : World) (s s' : State)
    (h : render K w s = .ok () s') :
    ∃ s1, updateCommandBuffers K w s = .ok () s1 ∧ registryFrame.rel s1 s' := by
  have h1 := keeps_registry_recreateSwapchain K w
  have h2 := keeps_registry_updateUniformBuffers K
  unfold render at h
  obtain ⟨_, s1, hu, h⟩ := bind_ok_inv h
  refine ⟨s1, hu, keeps_ok ?_ h⟩
  repeat' with_reducible first
    | exact h1
    | apply h2
    | apply keeps_bind
    | apply keeps_readState
    | apply keeps_index
    | apply keeps_pure
    | apply keeps_ASH_ASSERT
    | apply keeps_call_any
    | apply keeps_update_any
    | split
    | intro _
  all_goals exact registry_rel_of_eq rfl

theorem pipelineAt_present (name : String) (s s' : State) (p : Handle)
    (h : pipelineAt name s = .ok p s') : s'.graphicsPipelines.lookup name = some p := by
  unfold pipelineAt at h
  cases hl : s.graphicsPipelines.lookup name with
  | none =>
    rw [hl] at h
    simp only [Outcome.ok.injEq] at h
    obtain ⟨rfl, rfl⟩ := h
    show List.lookup name (s.graphicsPipelines ++ [(name, VK_NULL_HANDLE)]) =
      some VK_NULL_HANDLE
    rw [List.lookup_append, hl]
    simp [List.lookup]
  | some q =>
    rw [hl] at h
    simp only [Outcome.ok.injEq] at h
    obtain ⟨rfl, rfl⟩ := h
    exact hl

theorem recordMesh_present (K : Constants) (i : Nat) (cb : Handle) (r : Renderable)
    (h j m : Nat) (s s' : State) (hok : recordMesh K i cb r h j m s = .ok () s') :
    ∃ p, s'.graphicsPipelines.lookup r.pipeline = some p := by
  simp only [recordMesh, bind_ok_iff, readState_ok_iff, call_ok_iff, index_ok_iff,
    exists_eq_left, exists_and_left, exists_eq_right, and_assoc, exists_const, true_and,
    and_true, exists_eq_left', exists_and_right] at hok
  obtain ⟨p, s1, hp, ubo, hubo, sets, hsets, set, hset, rfl⟩ := hok
  have hpresent := pipelineAt_present _ _ _ _ hp
  exact ⟨p, hpresent⟩

theorem recordMeshes_present (K : Constants) (i : Nat) (cb : Handle) (r : Renderable)
    (h m : Nat) (ms : List Nat) (lo : Nat) (s s' : State)
    (hok : forEachIdx lo (m :: ms) (recordMesh K i cb r h) s = .ok () s') :
    ∃ p, s'.graphicsPipelines.lookup r.pipeline = some p := by
  simp only [forEachIdx, bind_ok_iff] at hok
  obtain ⟨_, s1, h1, h2⟩ := hok
  obtain ⟨p, hp⟩ := recordMesh_present _ _ _ _ _ _ _ _ _ h1
  exact ⟨p, (keeps_ok (keeps_forEachIdx registryFrame ms _
    (fun j x => keeps_registry_recordMesh K i cb r h j x) (lo + 1)) h2).1 _ _ hp⟩

theorem recordRenderables_present (K : Constants) (img : Nat) (cb : Handle) (V : State)
    (r : Renderable) (hmesh : (V.renderer.getModel r.model).meshes ≠ [])
    (rs : List Renderable) (hr : r ∈ rs) :
    ∀ (h : Nat) (s s' : State), recordView s = V →
      recordRenderables K img cb h rs s = .ok () s' →
      ∃ p, s'.graphicsPipelines.lookup r.pipeline = some p := by
  induction rs with
  | nil => simp at hr
  | cons x rs ih =>
    intro h s s' hV hok
    simp only [recordRenderables, bind_ok_iff, readState_ok_iff,
      exists_eq_left, exists_and_left, exists_eq_right, and_assoc, exists_const, true_and,
      and_true, exists_eq_left', exists_and_right] at hok
    obtain ⟨_, s1, hmeshes, hrest⟩ := hok
    have e_ren : s.renderer = V.renderer := (congrArg State.renderer hV :)
    rcases List.mem_cons.1 hr with rfl | hin
    · rw [e_ren] at hmeshes
      obtain ⟨m, ms, hm⟩ := List.exists_cons_of_ne_nil hmesh
      rw [hm] at hmeshes
      obtain ⟨p, hp⟩ := recordMeshes_present _ _ _ _ _ _ _ _ _ _ hmeshes
      exact ⟨p, (keeps_ok (keeps_registry_recordRenderables K img cb _ rs) hrest).1 _ _ hp⟩
    · obtain ⟨hv1, -⟩ := recordMeshes_ok _ _ _ _ _ _ _ _ _ hmeshes
      exact ih hin _ s1 s' (hv1.trans hV) hrest

theorem recordCommandBuffer_present (K : Constants) (w : World) (img : Nat) (scene : Scene)
    (r : Renderable) (s s' : State) (hscene : s.scene = some scene)
    (hr : r ∈ scene.renderables) (hmesh : (s.renderer.getModel r.model).meshes ≠ [])
    (hok : recordCommandBuffer K w img s = .ok () s') :
    ∃ p, s'.graphicsPipelines.lookup r.pipeline = some p := by
  simp only [recordCommandBuffer, bind_ok_iff, readState_ok_iff, call_ok_iff, callS_ok_iff,
    index_ok_iff, ASH_ASSERT_ok_iff, hscene,
    exists_eq_left, exists_and_left, exists_eq_right, and_assoc, exists_const, true_and,
    and_true, exists_eq_left', exists_and_right] at hok
  obtain ⟨cb, hcb, -, fb, -, _, s1, hren, -, rfl⟩ := hok
  refine recordRenderables_present K img cb (recordView s) r hmesh scene.renderables hr 0 _ s1
    ?_ hren
  simp [recordView, hscene]

theorem recordCommandBuffers_present (K : Constants) (w : World) (scene : Scene)
    (r : Renderable) (s s' : State) (hscene : s.scene = some scene)
    (hr : r ∈ scene.renderables) (hmesh : (s.renderer.getModel r.model).meshes ≠ [])
    (hcb : s.commandBuffers ≠ []) (hok : recordCommandBuffers K w s = .ok () s') :
    ∃ p, s'.graphicsPipelines.lookup r.pipeline = some p := by
  simp only [recordCommandBuffers, bind_ok_iff, readState_ok_iff,
    exists_eq_left, exists_and_left, exists_eq_right, and_assoc, exists_const, true_and,
    and_true, exists_eq_left', exists_and_right] at hok
  obtain ⟨n, hn⟩ : ∃ n, s.commandBuffers.length = n + 1 :=
    Nat.exists_eq_succ_of_ne_zero (by simpa using hcb)
  rw [hn] at hok
  simp only [forRange, bind_ok_iff] at hok
  obtain ⟨_, s1, h1, h2⟩ := hok
  obtain ⟨p, hp⟩ := recordCommandBuffer_present K w 0 scene r s s1 hscene hr hmesh h1
  exact ⟨p, (keeps_ok (keeps_forRange registryFrame n _
    (fun i => keeps_registry_recordCommandBuffer K w i) 1) h2).1 _ _ hp⟩

set_option maxRecDepth 100000 in
theorem stray_render_eval :
    (render demoConstants demoWorld strayState).isOk = true ∧
    (render demoConstants demoWorld strayState).state.graphicsPipelines =
      [("main", 20), ("glow", VK_NULL_HANDLE)] ∧
    Call.vkCmdBindPipeline 22 VK_NULL_HANDLE ∈
      emitted strayState (render demoConstants demoWorld strayState) := by
  decide!

/-- C21. `render()` changes the pipeline registry when a renderable names a
pipeline that is not registered.  For every returning `render()` on a scene
with a renderable `r` whose model has a mesh, with at least one command
buffer, and with `r.pipeline` not a key of `graphicsPipelines`: afterwards
`r.pipeline` is a key of the registry and maps to the null pipeline
(`graphicsPipelines[renderable.pipeline]` inserted it while recording), so the
registry is not what it was; the entries that were there keep their values. -/
theorem render_registers_null_pipeline (K : Constants) (w : World) (s s' : State)
    (scene : Scene) (r : Renderable) (h : render K w s = .ok () s')
    (hscene : s.scene = some scene) (hr : r ∈ scene.renderables)
    (hmesh : (s.renderer.getModel r.model).meshes ≠ []) (hcb : s.commandBuffers ≠ [])
    (hmissing : s.graphicsPipelines.lookup r.pipeline = none) :
    s'.graphicsPipelines.lookup r.pipeline = some VK_NULL_HANDLE ∧
    s'.graphicsPipelines ≠ s.graphicsPipelines ∧
    (∀ name v, s.graphicsPipelines.lookup name = some v →
      s'.graphicsPipelines.lookup name = some v) := by
  obtain ⟨s1, hu, htail⟩ := render_tail_registry K w s s' h
  have hrec : ∃ s0, s0.scene = s.scene ∧ s0.renderer = s.renderer ∧
      s0.commandBuffers = s.commandBuffers ∧ s0.graphicsPipelines = s.graphicsPipelines ∧
      recordCommandBuffers K w s0 = .ok () s1 :=
    ⟨{ s with trace := s.trace ++ [.vkQueueWaitIdle, .vkResetCommandPool s.commandPool] },
      rfl, rfl, rfl, rfl, by
        simpa only [updateCommandBuffers, bind_ok_iff, readState_ok_iff, call_ok_iff,
          exists_eq_left, exists_and_left, exists_eq_right, and_assoc, exists_const, true_and,
          and_true, exists_eq_left', exists_and_right, List.append_assoc,
          List.singleton_append] using hu⟩
  obtain ⟨s0, e1, e2, e3, e4, hrec⟩ := hrec
  obtain ⟨p, hp⟩ := recordCommandBuffers_present K w scene r s0 s1 (e1.trans hscene) hr
    (by rw [e2]; exact hmesh) (by rw [e3]; exact hcb) hrec
  have hs1 : registryFrame.rel s s1 :=
    registryFrame.trans _ _ _ (registry_rel_of_eq e4)
      (keeps_ok (keeps_registry_recordCommandBuffers K w) hrec)
  have hrel : registryFrame.rel s s' := registryFrame.trans _ _ _ hs1 htail
  have hp' := htail.1 _ _ hp
  have hnull : s'.graphicsPipelines.lookup r.pipeline = some VK_NULL_HANDLE := by
    rcases hrel.2 _ hmissing with hn | hn
    · rw [hn] at hp'
      cases hp'
    · exact hn
  refine ⟨hnull, ?_, hrel.1⟩
  intro e
  rw [e, hmissing] at hnull
  cases hnull

/-- C21 on the running engine with a renderable naming `"glow"`: one
`render()` returns, has bound the null pipeline and leaves `"glow"` in the
registry. -/
theorem render_registers_null_pipeline_witness :
    (render demoConstants demoWorld strayState).state.graphicsPipelines =
      [("main", 20), ("glow", VK_NULL_HANDLE)] ∧
    Call.vkCmdBindPipeline 22 VK_NULL_HANDLE ∈
      emitted strayState (render demoConstants demoWorld strayState) ∧
    (render demoConstants demoWorld strayState).state.graphicsPipelines.lookup "glow" =
      some VK_NULL_HANDLE ∧
    (render demoConstants demoWorld strayState).state.graphicsPipelines ≠
      strayState.graphicsPipelines ∧
    (∀ name v, strayState.graphicsPipelines.lookup name = some v →
      (render demoConstants demoWorld strayState).state.graphicsPipelines.lookup name =
        some v) :=
  ⟨stray_render_eval.2.1, stray_render_eval.2.2,
    render_registers_null_pipeline demoConstants demoWorld strayState _
      ⟨[⟨some ⟨0, "glow", [[⟨12, 31⟩, ⟨12, 32⟩]]⟩, some 7⟩]⟩
      ⟨0, "glow", [[⟨12, 31⟩, ⟨12, 32⟩]]⟩
      (ok_of_isOk _ stray_render_eval.1) rfl (by simp [Scene.renderables])
      (by simp [strayState, demoState, demoRenderer])
      (by simp [strayState, demoState])
      (by simp [strayState, demoState, List.lookup])⟩

/-! ## Claims about teardown -/

theorem forEach_call_pair {α : Type} (xs : List α) (f g : α → Call) (s : State) :
    forEach xs (fun x => do call (f x); call (g x)) s =
      .ok () { s with trace := s.trace ++ (xs.map (fun x => [f x, g x])).flatten } := by
  induction xs generalizing s with
  | nil => simp [forEach]
  | cons x xs ih => simp [forEach, ih]

theorem index_run {α : Type} (xs : List α) (i : Nat) (h : i < xs.length) (s : State) :
    index xs i s = .ok (xs.get ⟨i, h⟩) s := by
  simp [index, List.getElem?_eq_getElem h]

theorem destroySync_run (a r f : List Handle) (n : Nat) :
    ∀ (lo : Nat) (s : State), lo + n ≤ a.length → lo + n ≤ r.length → lo + n ≤ f.length →
    forRange lo n (fun i => do
        let imageAvailable ← index a i
        call (.vkDestroy .VkSemaphore imageAvailable)
        let renderFinished ← index r i
        call (.vkDestroy .VkSemaphore renderFinished)
        let fence ← index f i
        call (.vkDestroy .VkFence fence)) s =
      .ok () { s with trace := s.trace ++ ((List.range' lo n).map (fun i =>
        [Call.vkDestroy .VkSemaphore (a.getD i 0), Call.vkDestroy .VkSemaphore (r.getD i 0),
          Call.vkDestroy .VkFence (f.getD i 0)])).flatten } := by
  induction n with
  | zero => intro lo s _ _ _; simp [forRange]
  | succ n ih =>
    intro lo s ha hr hf
    have h1 : lo < a.length := by omega
    have h2 : lo < r.length := by omega
    have h3 : lo < f.length := by omega
    have e1 := index_run a lo h1
    have e2 := index_run r lo h2
    have e3 := index_run f lo h3
    simp only [forRange, run_bind, run_call, e1, e2, e3]
    rw [ih (lo + 1) _ (by omega) (by omega) (by omega)]
    simp [List.range'_succ, List.getD_eq_getElem?_getD, List.getElem?_eq_getElem, h1, h2, h3]

/-- The function `cleanup` returns when the three arrays of synchronisation
objects hold `MAX_FRAMES_IN_FLIGHT` entries, having made exactly these calls. -/
theorem cleanup_run (K : Constants) (s : State)
    (ha : K.MAX_FRAMES_IN_FLIGHT ≤ s.imageAvailableSemaphores.length)
    (hr : K.MAX_FRAMES_IN_FLIGHT ≤ s.renderFinishedSemaphores.length)
    (hf : K.MAX_FRAMES_IN_FLIGHT ≤ s.inFlightFences.length) :
    cleanup K s = .ok () { s with trace := s.trace ++
      ((cleanupFront s ++ .vkDestroy .VmaAllocator s.allocator :: cleanupMid K s) ++
        .vkDestroy .VkDevice s.device :: cleanupBack s) } := by
  have hsync := fun t => destroySync_run s.imageAvailableSemaphores s.renderFinishedSemaphores
    s.inFlightFences K.MAX_FRAMES_IN_FLIGHT 0 t (by omega) (by omega) (by omega)
  cases hv : s.enableValidationLayers <;>
    simp [cleanup, cleanupSwapchain_run, forEach_call, forEach_call_pair, hsync, hv, teardownCalls,
      cleanupFront, cleanupMid, cleanupBack]

theorem index_some {α : Type} (xs : List α) (i : Nat) (a : α) (h : xs[i]? = some a)
    (s : State) : index xs i s = .ok a s := by
  simp [index, h]

theorem index_none {α : Type} (xs : List α) (i : Nat) (h : xs[i]? = none)
    (s : State) : index xs i s = .fault .undefinedBehaviour s := by
  simp [index, h, raise]

/-- The loop of `updateUniformBuffers` when `uniformBuffers[currentImage]`
exists: it returns after one map, one write and one unmap per entity. -/
theorem uniformLoop_run (uniformBuffers : List Handle) (k : Nat) (buffer : Handle)
    (hb : uniformBuffers[k]? = some buffer) (stride size : Nat)
    (xs : List (Renderable × Nat)) :
    ∀ (lo : Nat) (s : State),
    forEachIdx lo xs (fun i entity => do
        let buffer ← index uniformBuffers k
        call (.vmaMapMemory buffer)
        call (.memcpy buffer ((i * stride) % 2 ^ 64) size entity.2)
        call (.vmaUnmapMemory buffer)) s =
      .ok () { s with trace := s.trace ++ ((xs.enumFrom lo).map (fun p =>
        [Call.vmaMapMemory buffer, Call.memcpy buffer ((p.1 * stride) % 2 ^ 64) size p.2.2,
          Call.vmaUnmapMemory buffer])).flatten } := by
  induction xs with
  | nil => intro lo s; simp [forEachIdx]
  | cons x xs ih =>
    intro lo s
    have e := index_some uniformBuffers k buffer hb
    simp only [forEachIdx, run_bind, run_call, e]
    rw [ih (lo + 1)]
    simp [List.enumFrom]

/-- The loop of `updateUniformBuffers` when `uniformBuffers[currentImage]` is
out of range: the first entity faults before any call. -/
theorem uniformLoop_none (uniformBuffers : List Handle) (k : Nat)
    (hb : uniformBuffers[k]? = none) (stride size : Nat)
    (x : Renderable × Nat) (xs : List (Renderable × Nat)) (lo : Nat) (s : State) :
    forEachIdx lo (x :: xs) (fun i entity => do
        let buffer ← index uniformBuffers k
        call (.vmaMapMemory buffer)
        call (.memcpy buffer ((i * stride) % 2 ^ 64) size entity.2)
        call (.vmaUnmapMemory buffer)) s = .fault .undefinedBehaviour s := by
  have e := index_none uniformBuffers k hb
  simp only [forEachIdx, run_bind, e]

/-- What `updateUniformBuffers` does when the scene is set and the uniform
buffer of the image exists. -/
theorem updateUniformBuffers_run (K : Constants) (k : Nat) (s : State) (scene : Scene)
    (buffer : Handle) (hscene : s.scene = some scene)
    (hb : s.uniformBuffers[k]? = some buffer) :
    updateUniformBuffers K k s =
      .ok () { s with trace := s.trace ++
        ((scene.renderablesWithTransform.enumFrom 0).map (fun p =>
          [Call.vmaMapMemory buffer,
            Call.memcpy buffer ((p.1 * alignedStride K s) % 2 ^ 64)
              K.sizeofUniformBufferObject p.2.2,
            Call.vmaUnmapMemory buffer])).flatten } := by
  have h := uniformLoop_run s.uniformBuffers k buffer hb (alignedStride K s)
    K.sizeofUniformBufferObject scene.renderablesWithTransform 0 s
  simp only [updateUniformBuffers, run_bind, run_readState, hscene]
  simp only [hscene] at h
  exact h

theorem length_resize {α : Type} (xs : List α) (n : Nat) (d : α) :
    (resize xs n d).length = n := by
  simp [resize]
  omega

/-- A returning loop of `createUniformBuffers` from image `lo` over `n`
images: the buffers made are the next `n` handles, each created with `size`
bytes and stored at its image index. -/
theorem createUniformBuffers_loop (w : World) (size n : Nat) :
    ∀ (lo : Nat) (a b : State),
      forRange lo n (fun i => do
        let buffer ← createBuffer w size
        update (fun s => { s with uniformBuffers := s.uniformBuffers.set i buffer })) a =
          .ok () b →
      b.trace = a.trace ++ (List.range' a.nextHandle n).map (Call.vmaCreateBuffer size) ∧
      b.physicalDevice = a.physicalDevice ∧
      ∀ j, b.uniformBuffers[j]? =
        if lo ≤ j ∧ j < lo + n ∧ j < a.uniformBuffers.length then
          some (a.nextHandle + (j - lo))
        else a.uniformBuffers[j]? := by
  induction n with
  | zero =>
    intro lo a b h
    simp only [forRange, run_pure, Outcome.ok.injEq, true_and] at h
    subst h
    refine ⟨by simp, rfl, fun j => ?_⟩
    rw [if_neg (by omega)]
  | succ n ih =>
    intro lo a b h
    simp only [forRange, createBuffer, bind_ok_iff, fresh_ok_iff, call_ok_iff,
      ASH_ASSERT_ok_iff, pure_ok_iff, update_ok_iff,
      exists_eq_left, exists_and_left, exists_eq_right, and_assoc, exists_const, true_and,
      and_true, exists_eq_left', exists_and_right] at h
    obtain ⟨-, h⟩ := h
    obtain ⟨ht, hp, hu⟩ := ih (lo + 1) _ b h
    refine ⟨?_, hp, fun j => ?_⟩
    · rw [ht]
      simp [List.range'_succ]
    · rw [hu j]
      simp only [List.length_set, List.getElem?_set]
      by_cases hj : lo = j
      · subst hj
        by_cases hlt : lo < a.uniformBuffers.length
        · simp [hlt]
        · have hnone : a.uniformBuffers[lo]? = none := List.getElem?_eq_none (by omega)
          simp [hlt, hnone]
      · by_cases hc : lo + 1 ≤ j ∧ j < lo + 1 + n ∧ j < a.uniformBuffers.length
        · have hc2 : lo ≤ j ∧ j < lo + (n + 1) ∧ j < a.uniformBuffers.length := by omega
          rw [if_pos hc, if_pos hc2]
          congr 1
          omega
        · have hc2 : ¬ (lo ≤ j ∧ j < lo + (n + 1) ∧ j < a.uniformBuffers.length) := by omega
          rw [if_neg hc, if_neg hc2, if_neg hj]

/-- A returning `createUniformBuffers`. -/
theorem createUniformBuffers_ok (K : Constants) (w : World) (s s' : State)
    (h : createUniformBuffers K w s = .ok () s') :
    s'.uniformBuffers = List.range' s.nextHandle s.swapchainImages.length ∧
    s'.trace = s.trace ++
      (List.range' s.nextHandle s.swapchainImages.length).map
        (Call.vmaCreateBuffer (uniformBufferSize K s)) ∧
    s'.physicalDevice = s.physicalDevice := by
  simp only [createUniformBuffers, bind_ok_iff, readState_ok_iff, update_ok_iff,
    exists_eq_left, exists_and_left, exists_eq_right, and_assoc, exists_const, true_and,
    and_true, exists_eq_left', exists_and_right] at h
  obtain ⟨ht, hp, hu⟩ := createUniformBuffers_loop w _ _ 0 _ s' h
  refine ⟨?_, ht, hp⟩
  apply List.ext_getElem?
  intro j
  rw [hu j]
  simp only [length_resize, Nat.zero_le, true_and, Nat.zero_add, Nat.sub_zero, and_self]
  by_cases hj : j < s.swapchainImages.length
  · rw [if_pos hj, List.getElem?_range' _ _ hj]
    simp
  · rw [if_neg hj, List.getElem?_eq_none (by rw [length_resize]; omega),
      List.getElem?_eq_none (by simp; omega)]

theorem createBuffer_run (w : World) (hw : ∀ c, w.result c = .VK_SUCCESS) (size : Nat)
    (a : State) :
    createBuffer w size a =
      .ok a.nextHandle { a with
        nextHandle := a.nextHandle + 1
        trace := a.trace ++ [.vmaCreateBuffer size a.nextHandle] } := by
  simp [createBuffer, hw]

/-- When the driver reports success, the loop of `createUniformBuffers` returns. -/
theorem createUniformBuffers_loop_returns (w : World) (hw : ∀ c, w.result c = .VK_SUCCESS)
    (size n : Nat) :
    ∀ (lo : Nat) (a : State),
      (forRange lo n (fun i => do
        let buffer ← createBuffer w size
        update (fun s => { s with uniformBuffers := s.uniformBuffers.set i buffer })) a).isOk =
          true := by
  induction n with
  | zero => intro lo a; rfl
  | succ n ih =>
    intro lo a
    have e := createBuffer_run w hw size
    simp only [forRange, run_bind, e, run_update]
    exact ih _ _

/-- The aligned stride is at least the size it aligns, whatever the alignment,
as long as `base + align - 1` fits 64 bits. -/
theorem base_le_stride (align base : Nat) (hfit : base + align - 1 < 2 ^ 64) :
    base ≤ calculateDynamicAllignment align base := by
  unfold calculateDynamicAllignment
  by_cases ha : align > 0
  · rw [if_pos ha, Nat.mod_eq_of_lt hfit, land_eq_and]
    have hxc : base + align - 1 = base + (align - 1) := by omega
    rw [hxc] at hfit ⊢
    generalize align - 1 = c at hfit ⊢
    have hc : c < 2 ^ 64 := by omega
    generalize hx : base + c = x at hfit ⊢
    have hr : x &&& (2 ^ 64 - 1 - c) < 2 ^ 64 := lt_of_le_of_lt Nat.and_le_left hfit
    have hc' : x &&& c < 2 ^ 64 := lt_of_le_of_lt Nat.and_le_left hfit
    have hdis : (x &&& (2 ^ 64 - 1 - c)) &&& (x &&& c) = 0 := by
      apply Nat.eq_of_testBit_eq
      intro i
      simp only [Nat.testBit_and, testBit_mask _ hc, Nat.zero_testBit]
      cases c.testBit i <;> simp
    have hor : (x &&& (2 ^ 64 - 1 - c)) ||| (x &&& c) = x := by
      apply Nat.eq_of_testBit_eq
      intro i
      simp only [Nat.testBit_and, Nat.testBit_or, testBit_mask _ hc]
      by_cases hi : i < 64
      · cases c.testBit i <;> cases x.testBit i <;> simp [hi]
      · have := testBit_high x hfit i (by omega)
        simp [this]
    have hsum := add_mod_eq_or _ _ hr hc' hdis
    rw [hor] at hsum
    have h1 : x &&& c ≤ c := Nat.and_le_right
    have h2 : x &&& (2 ^ 64 - 1 - c) ≤ x := Nat.and_le_left
    omega
  · rw [if_neg ha]

/-- C23. `createUniformBuffers` creates exactly one buffer per swapchain
image, each of `alignedStride * MAX_INSTANCES` bytes (in 64 bits), and stores
them in `uniformBuffers` in image order; it returns whenever the driver
reports success.  But `updateUniformBuffers` does not compare the number of
entities with `MAX_INSTANCES`: for a scene with more than `MAX_INSTANCES`
entities that have a renderable and a transform it returns having written the
`sizeof(UniformBufferObject)` bytes of entity number `MAX_INSTANCES` at byte
offset `uniformBufferSize`, the first byte past the end of the buffer.
With at most `MAX_INSTANCES` such entities, and sizes that fit 64 bits, every
block written does lie inside the buffer. -/
theorem uniform_block_past_buffer_end (K : Constants) (w : World) :
    (∀ s s', createUniformBuffers K w s = .ok () s' →
      s'.uniformBuffers = List.range' s.nextHandle s.swapchainImages.length ∧
      emitted s (createUniformBuffers K w s) =
        s'.uniformBuffers.map (Call.vmaCreateBuffer (uniformBufferSize K s)) ∧
      uniformBufferSize K s' = uniformBufferSize K s) ∧
    ((∀ c, w.result c = .VK_SUCCESS) → ∀ s, (createUniformBuffers K w s).isOk = true) ∧
    (∀ s scene k buffer, s.scene = some scene → s.uniformBuffers[k]? = some buffer →
      K.MAX_INSTANCES < scene.renderablesWithTransform.length →
      (updateUniformBuffers K k s).isOk = true ∧
      ∃ entity, scene.renderablesWithTransform[K.MAX_INSTANCES]? = some entity ∧
        Call.memcpy buffer (uniformBufferSize K s) K.sizeofUniformBufferObject entity.2 ∈
          emitted s (updateUniformBuffers K k s)) ∧
    (∀ s scene k, s.scene = some scene →
      scene.renderablesWithTransform.length ≤ K.MAX_INSTANCES →
      alignedStride K s * K.MAX_INSTANCES < 2 ^ 64 →
      K.sizeofUniformBufferObject + s.physicalDevice.minUniformBufferOffsetAlignment - 1 <
        2 ^ 64 →
      ∀ buffer offset size transform,
        Call.memcpy buffer offset size transform ∈ emitted s (updateUniformBuffers K k s) →
        offset + size ≤ uniformBufferSize K s) := by
  refine ⟨?_, ?_, ?_, ?_⟩
  · intro s s' h
    obtain ⟨hu, ht, hp⟩ := createUniformBuffers_ok K w s s' h
    refine ⟨hu, ?_, ?_⟩
    · rw [h, emitted, state_ok, ht, List.drop_left, hu]
    · simp only [uniformBufferSize, alignedStride, hp]
  · intro hw s
    simp only [createUniformBuffers, run_bind, run_readState, run_update]
    exact createUniformBuffers_loop_returns w hw _ _ _ _
  · intro s scene k buffer hscene hb hmany
    rw [updateUniformBuffers_run K k s scene buffer hscene hb]
    refine ⟨rfl, scene.renderablesWithTransform.get ⟨K.MAX_INSTANCES, hmany⟩,
      List.getElem?_eq_getElem hmany, ?_⟩
    simp only [emitted, state_ok, List.drop_left, List.mem_flatten, List.mem_map]
    refine ⟨_, ⟨(K.MAX_INSTANCES, scene.renderablesWithTransform.get ⟨K.MAX_INSTANCES, hmany⟩),
      ?_, rfl⟩, ?_⟩
    · have := (List.mk_add_mem_enumFrom_iff_getElem? (n := 0) (i := K.MAX_INSTANCES)
        (x := scene.renderablesWithTransform.get ⟨K.MAX_INSTANCES, hmany⟩)
        (l := scene.renderablesWithTransform)).2 (List.getElem?_eq_getElem hmany)
      simpa using this
    · simp [uniformBufferSize, Nat.mul_comm]
  · intro s scene k hscene hfew hsize hfit buffer offset size transform hmem
    cases hb : s.uniformBuffers[k]? with
    | none =>
      cases hl : scene.renderablesWithTransform with
      | nil =>
        have : updateUniformBuffers K k s = .ok () s := by
          simp [updateUniformBuffers, hscene, hl, forEachIdx]
        rw [this] at hmem
        simp [emitted] at hmem
      | cons x xs =>
        have : updateUniformBuffers K k s = .fault .undefinedBehaviour s := by
          simp only [updateUniformBuffers, run_bind, run_readState, hscene, hl]
          exact uniformLoop_none s.uniformBuffers k hb _ _ x xs 0 s
        rw [this] at hmem
        simp [emitted, Outcome.state] at hmem
    | some b =>
      rw [updateUniformBuffers_run K k s scene b hscene hb] at hmem
      simp only [emitted, state_ok, List.drop_left, List.mem_flatten, List.mem_map] at hmem
      obtain ⟨l, ⟨p, hp, rfl⟩, hc⟩ := hmem
      simp only [List.mem_cons, List.mem_singleton, List.not_mem_nil, or_false,
        Call.memcpy.injEq, false_or, reduceCtorEq] at hc
      obtain ⟨-, rfl, rfl, -⟩ := hc
      obtain ⟨-, hlt, -⟩ := List.mem_enumFrom hp
      have hstride : K.sizeofUniformBufferObject ≤ alignedStride K s :=
        base_le_stride _ _ hfit
      have h1 : (p.1 + 1) * alignedStride K s ≤ K.MAX_INSTANCES * alignedStride K s :=
        Nat.mul_le_mul_right _ (by omega)
      have h2 : p.1 * alignedStride K s % 2 ^ 64 ≤ p.1 * alignedStride K s :=
        Nat.mod_le _ _
      rw [Nat.succ_mul] at h1
      rw [uniformBufferSize, Nat.mod_eq_of_lt hsize, Nat.mul_comm (alignedStride K s)]
      omega

set_option maxRecDepth 100000 in
theorem crowded_eval :
    uniformBufferSize smallConstants crowdedState = 512 ∧
    emitted bufferlessState (createUniformBuffers smallConstants demoWorld bufferlessState) =
      [.vmaCreateBuffer 512 100, .vmaCreateBuffer 512 101] ∧
    emitted crowdedState (updateUniformBuffers smallConstants 0 crowdedState) =
      [.vmaMapMemory 16, .memcpy 16 0 192 7, .vmaUnmapMemory 16,
        .vmaMapMemory 16, .memcpy 16 256 192 8, .vmaUnmapMemory 16,
        .vmaMapMemory 16, .memcpy 16 512 192 9, .vmaUnmapMemory 16] := by
  decide!

/-- C23 on a running engine with room for two instances and three
renderables: the buffers are created with 512 bytes and the third transform
is written at offset 512. -/
theorem uniform_block_past_buffer_end_witness :
    uniformBufferSize smallConstants crowdedState = 512 ∧
    emitted bufferlessState (createUniformBuffers smallConstants demoWorld bufferlessState) =
      [.vmaCreateBuffer 512 100, .vmaCreateBuffer 512 101] ∧
    Call.memcpy 16 512 192 9 ∈
      emitted crowdedState (updateUniformBuffers smallConstants 0 crowdedState) ∧
    ((updateUniformBuffers smallConstants 0 crowdedState).isOk = true ∧
      ∃ entity,
        (Scene.renderablesWithTransform
          ⟨[⟨some ⟨0, "main", [[⟨12, 31⟩, ⟨12, 32⟩]]⟩, some 7⟩,
            ⟨some ⟨0, "main", [[⟨12, 33⟩, ⟨12, 34⟩]]⟩, some 8⟩,
            ⟨some ⟨0, "main", [[⟨12, 35⟩, ⟨12, 36⟩]]⟩, some 9⟩]⟩)[
              smallConstants.MAX_INSTANCES]? = some entity ∧
        Call.memcpy 16 (uniformBufferSize smallConstants crowdedState)
            smallConstants.sizeofUniformBufferObject entity.2 ∈
          emitted crowdedState (updateUniformBuffers smallConstants 0 crowdedState)) :=
  ⟨crowded_eval.1, crowded_eval.2.1, by rw [crowded_eval.2.2]; simp,
    (uniform_block_past_buffer_end smallConstants demoWorld).2.2.1 crowdedState _ 0 16 rfl
      (by simp [crowdedState, demoState])
      (by simp [Scene.renderablesWithTransform, smallConstants])⟩

/-! ## Claims about the instance index -/

/-- Among the entities `pre`, those with a renderable and a transform are at
most those with a renderable, and fewer when one lacks its transform. -/
theorem count_with_transform (pre : List Entity) :
    (Scene.mk pre).renderablesWithTransform.length ≤ (Scene.mk pre).renderables.length ∧
    ((∃ e ∈ pre, e.renderable ≠ none ∧ e.transform = none) →
      (Scene.mk pre).renderablesWithTransform.length < (Scene.mk pre).renderables.length) := by
  induction pre with
  | nil => simp [Scene.renderablesWithTransform, Scene.renderables]
  | cons e es ih =>
    obtain ⟨ih1, ih2⟩ := ih
    obtain ⟨r, t⟩ := e
    simp only [Scene.renderablesWithTransform, Scene.renderables] at ih1 ih2 ⊢
    cases r <;> cases t <;>
      simp only [List.filterMap_cons, List.length_cons, List.mem_cons, exists_eq_or_imp,
        ne_eq, not_true_eq_false, false_and, false_or, and_true, not_false_eq_true,
        true_and, and_false, forall_const, reduceCtorEq] <;>
      first
        | exact ⟨ih1, ih2⟩
        | exact ⟨by omega, fun h => by have := ih2 h; omega⟩
        | exact ⟨by omega, by omega⟩

theorem trace_grows {β : Type} {V : State → β} {P : β → Call → Prop} {α : Type}
    {m : Proc α} (hm : Keeps (frameOf V P) m) {s s' : State} {a : α} (h : m s = .ok a s') :
    ∃ seg, s'.trace = s.trace ++ seg := by
  obtain ⟨-, seg, ht, -⟩ := keeps_ok hm h
  exact ⟨seg, ht⟩

/-- A returning renderable loop binds, for the renderable at position `n` of
the list, its descriptor set of the first mesh with the dynamic offset of
instance index `i + n`. -/
theorem recordRenderables_bind (K : Constants) (img : Nat) (cb : Handle) (V : State)
    (r : Renderable) (hmesh : (V.renderer.getModel r.model).meshes ≠ [])
    (rs : List Renderable) :
    ∀ (n i : Nat) (s s' : State), rs[n]? = some r → recordView s = V →
      recordRenderables K img cb (i % 2 ^ 32) rs s = .ok () s' →
      ∃ sets set seg, r.descriptorSets[0]? = some sets ∧ sets[img]? = some set ∧
        s'.trace = s.trace ++ seg ∧
        Call.vkCmdBindDescriptorSets cb V.pipelineLayout 0 set
          [((i + n) * alignedStride K V) % 2 ^ 32] ∈ seg := by
  induction rs with
  | nil => intro n i s s' hn; simp at hn
  | cons x rs ih =>
    intro n i s s' hn hV hok
    simp only [recordRenderables, bind_ok_iff, readState_ok_iff,
      exists_eq_left, exists_and_left, exists_eq_right, and_assoc, exists_const, true_and,
      and_true, exists_eq_left', exists_and_right] at hok
    obtain ⟨_, s1, hmeshes, hrest⟩ := hok
    have e_ren : s.renderer = V.renderer := (congrArg State.renderer hV :)
    have e_str : alignedStride K s = alignedStride K V := (congrArg (alignedStride K) hV :)
    have e_lay : s.pipelineLayout = V.pipelineLayout := (congrArg State.pipelineLayout hV :)
    have hnext : (i % 2 ^ 32 + 1) % 2 ^ 32 = (i + 1) % 2 ^ 32 := by omega
    rw [hnext] at hrest
    cases n with
    | zero =>
      simp only [List.getElem?_cons_zero, Option.some.injEq] at hn
      subst hn
      rw [e_ren] at hmeshes
      obtain ⟨m, ms, hm⟩ := List.exists_cons_of_ne_nil hmesh
      rw [hm] at hmeshes
      simp only [forEachIdx, bind_ok_iff] at hmeshes
      obtain ⟨_, s2, hfirst, hothers⟩ := hmeshes
      obtain ⟨p, ubo, sets, set, -, hsets, hset, ht2⟩ := recordMesh_calls _ _ _ _ _ _ _ _ _ hfirst
      obtain ⟨seg1, ht1⟩ := trace_grows (keeps_forEachIdx recordFrame ms _
        (fun j y => keeps_recordMesh K img cb x (i % 2 ^ 32) j y) 1) hothers
      obtain ⟨seg2, ht'⟩ := trace_grows (keeps_recordRenderables K img cb _ rs) hrest
      obtain ⟨front, hfront, hmem⟩ : ∃ front, s2.trace = s.trace ++ front ∧
          Call.vkCmdBindDescriptorSets cb V.pipelineLayout 0 set
            [((i + 0) * alignedStride K V) % 2 ^ 32] ∈ front := by
        refine ⟨_, ht2, ?_⟩
        rw [e_str, e_lay, ← Nat.mul_mod]
        simp
      exact ⟨sets, set, front ++ seg1 ++ seg2, hsets, hset,
        by simp [ht', ht1, hfront],
        List.mem_append_left _ (List.mem_append_left _ hmem)⟩
    | succ n =>
      simp only [List.getElem?_cons_succ] at hn
      obtain ⟨hv1, -⟩ := recordMeshes_ok _ _ _ _ _ _ _ _ _ hmeshes
      obtain ⟨segm, htm⟩ := trace_grows (keeps_forEachIdx recordFrame _ _
        (fun j y => keeps_recordMesh K img cb x (i % 2 ^ 32) j y) 0) hmeshes
      obtain ⟨sets, set, seg, hsets, hset, ht, hmem⟩ := ih n (i + 1) s1 s' hn (hv1.trans hV) hrest
      refine ⟨sets, set, segm ++ seg, hsets, hset, by simp [ht, htm], ?_⟩
      have e : i + 1 + n = i + (n + 1) := by omega
      rw [e] at hmem
      exact List.mem_append_right _ hmem

theorem recordCommandBuffer_bind (K : Constants) (w : World) (img : Nat) (scene : Scene)
    (r : Renderable) (n : Nat) (s s' : State) (hscene : s.scene = some scene)
    (hn : scene.renderables[n]? = some r)
    (hmesh : (s.renderer.getModel r.model).meshes ≠ [])
    (hok : recordCommandBuffer K w img s = .ok () s') :
    ∃ cb sets set seg, s.commandBuffers[img]? = some cb ∧
      r.descriptorSets[0]? = some sets ∧ sets[img]? = some set ∧
      s'.trace = s.trace ++ seg ∧
      Call.vkCmdBindDescriptorSets cb s.pipelineLayout 0 set
        [(n * alignedStride K s) % 2 ^ 32] ∈ seg := by
  simp only [recordCommandBuffer, bind_ok_iff, readState_ok_iff, call_ok_iff, callS_ok_iff,
    index_ok_iff, ASH_ASSERT_ok_iff, hscene,
    exists_eq_left, exists_and_left, exists_eq_right, and_assoc, exists_const, true_and,
    and_true, exists_eq_left', exists_and_right] at hok
  obtain ⟨cb, hcb, -, fb, -, _, s1, hren, -, rfl⟩ := hok
  obtain ⟨sets, set, seg, hsets, hset, ht, hmem⟩ :=
    recordRenderables_bind K img cb (recordView s) r hmesh scene.renderables n 0 _ s1 hn
      (by simp [recordView, hscene]) hren
  rw [Nat.zero_add] at hmem
  refine ⟨cb, sets, set,
    [.vkBeginCommandBuffer cb, .vkCmdBeginRenderPass cb s.renderPass fb s.swapchainExtent,
      .vkCmdSetViewport cb s.swapchainExtent.width s.swapchainExtent.height,
      .vkCmdSetScissor cb s.swapchainExtent] ++
      (seg ++ [.vkCmdEndRenderPass cb, .vkEndCommandBuffer cb]),
    hcb, hsets, hset, ?_, ?_⟩
  · simp [ht]
  · exact List.mem_append_right _ (List.mem_append_left _ hmem)

theorem recordCommandBuffers_bind (K : Constants) (w : World) (scene : Scene)
    (r : Renderable) (n : Nat) (s s' : State) (hscene : s.scene = some scene)
    (hn : scene.renderables[n]? = some r)
    (hmesh : (s.renderer.getModel r.model).meshes ≠ []) (hcb : s.commandBuffers ≠ [])
    (hok : recordCommandBuffers K w s = .ok () s') :
    ∃ cb sets set, s.commandBuffers[0]? = some cb ∧
      r.descriptorSets[0]? = some sets ∧ sets[0]? = some set ∧
      Call.vkCmdBindDescriptorSets cb s.pipelineLayout 0 set
        [(n * alignedStride K s) % 2 ^ 32] ∈ emitted s (recordCommandBuffers K w s) := by
  rw [hok]
  simp only [recordCommandBuffers, bind_ok_iff, readState_ok_iff,
    exists_eq_left, exists_and_left, exists_eq_right, and_assoc, exists_const, true_and,
    and_true, exists_eq_left', exists_and_right] at hok
  obtain ⟨N, hN⟩ : ∃ N, s.commandBuffers.length = N + 1 :=
    Nat.exists_eq_succ_of_ne_zero (by simpa using hcb)
  rw [hN] at hok
  simp only [forRange, bind_ok_iff] at hok
  obtain ⟨_, s1, h1, h2⟩ := hok
  obtain ⟨cb, sets, set, seg, hcb0, hsets, hset, ht, hmem⟩ :=
    recordCommandBuffer_bind K w 0 scene r n s s1 hscene hn hmesh h1
  obtain ⟨seg2, ht2⟩ := trace_grows (keeps_forRange recordFrame N _
    (fun i => keeps_recordCommandBuffer K w i) 1) h2
  refine ⟨cb, sets, set, hcb0, hsets, hset, ?_⟩
  rw [emitted, state_ok, ht2, ht, List.append_assoc, List.drop_left]
  exact List.mem_append_left _ hmem

set_option maxRecDepth 100000 in
theorem orphan_eval :
    (recordCommandBuffers demoConstants demoWorld orphanState).isOk = true ∧
    alignedStride demoConstants orphanState = 256 ∧
    emitted orphanState (updateUniformBuffers demoConstants 0 orphanState) =
      [.vmaMapMemory 16, .memcpy 16 0 192 7, .vmaUnmapMemory 16] ∧
    Call.vkCmdBindDescriptorSets 22 19 0 ⟨12, 31⟩ [256] ∈
      emitted orphanState (recordCommandBuffers demoConstants demoWorld orphanState) := by
  decide!

/-- C27. The two instance indices disagree as soon as an entity has a
renderable and no transform.  Take a scene whose registry lists the entities
`pre`, then an entity with renderable `r` and transform `t`.
`updateUniformBuffers` counts the entities with a renderable and a transform:
it writes `t` at the byte offset of the number of such entities in `pre`.
`recordCommandBuffers` counts the entities with a renderable: a returning one
binds the descriptor set of `r` (first mesh, image 0) with the dynamic offset
of the number of entities of `pre` that have a renderable.  The first number
is at most the second, and it is smaller when some entity of `pre` has a renderable
and no transform; the two offsets then differ (for a positive stride and an
offset below `2^32`), so the draw of `r` reads a block that does not hold
`t`. -/
theorem transform_slot_mismatch (K : Constants) (w : World) (s s' : State) (scene : Scene)
    (pre post : List Entity) (r : Renderable) (t k : Nat) (buffer : Handle)
    (hscene : s.scene = some scene)
    (hreg : scene.registry = pre ++ ⟨some r, some t⟩ :: post)
    (hb : s.uniformBuffers[k]? = some buffer)
    (hmesh : (s.renderer.getModel r.model).meshes ≠ []) (hcb : s.commandBuffers ≠ [])
    (hrec : recordCommandBuffers K w s = .ok () s') :
    Call.memcpy buffer
        (((Scene.mk pre).renderablesWithTransform.length * alignedStride K s) % 2 ^ 64)
        K.sizeofUniformBufferObject t ∈ emitted s (updateUniformBuffers K k s) ∧
    (∃ cb sets set, s.commandBuffers[0]? = some cb ∧
      r.descriptorSets[0]? = some sets ∧ sets[0]? = some set ∧
      Call.vkCmdBindDescriptorSets cb s.pipelineLayout 0 set
          [((Scene.mk pre).renderables.length * alignedStride K s) % 2 ^ 32] ∈
        emitted s (recordCommandBuffers K w s)) ∧
    (Scene.mk pre).renderablesWithTransform.length ≤ (Scene.mk pre).renderables.length ∧
    ((∃ e ∈ pre, e.renderable ≠ none ∧ e.transform = none) →
      (Scene.mk pre).renderablesWithTransform.length < (Scene.mk pre).renderables.length ∧
      (0 < alignedStride K s →
        (Scene.mk pre).renderables.length * alignedStride K s < 2 ^ 32 →
        ((Scene.mk pre).renderablesWithTransform.length * alignedStride K s) % 2 ^ 64 ≠
          ((Scene.mk pre).renderables.length * alignedStride K s) % 2 ^ 32)) := by
  obtain ⟨hle, hlt⟩ := count_with_transform pre
  have hT : scene.renderablesWithTransform[(Scene.mk pre).renderablesWithTransform.length]? =
      some (r, t) := by
    simp only [Scene.renderablesWithTransform, hreg, List.filterMap_append,
      List.filterMap_cons]
    rw [List.getElem?_append_right (Nat.le_refl _)]
    simp
  have hR : scene.renderables[(Scene.mk pre).renderables.length]? = some r := by
    simp only [Scene.renderables, hreg, List.filterMap_append, List.filterMap_cons]
    rw [List.getElem?_append_right (Nat.le_refl _)]
    simp
  refine ⟨?_, recordCommandBuffers_bind K w scene r _ s s' hscene hR hmesh hcb hrec, hle, ?_⟩
  · rw [updateUniformBuffers_run K k s scene buffer hscene hb]
    simp only [emitted, state_ok, List.drop_left, List.mem_flatten, List.mem_map]
    refine ⟨_, ⟨((Scene.mk pre).renderablesWithTransform.length, (r, t)), ?_, rfl⟩, by simp⟩
    have := (List.mk_add_mem_enumFrom_iff_getElem? (n := 0)
      (i := (Scene.mk pre).renderablesWithTransform.length) (x := (r, t))
      (l := scene.renderablesWithTransform)).2 hT
    simpa using this
  · intro hex
    refine ⟨hlt hex, fun hpos hfit => ?_⟩
    have h1 := hlt hex
    have h2 : (Scene.mk pre).renderablesWithTransform.length * alignedStride K s <
        (Scene.mk pre).renderables.length * alignedStride K s :=
      Nat.mul_lt_mul_of_pos_right h1 hpos
    rw [Nat.mod_eq_of_lt hfit, Nat.mod_eq_of_lt (by omega)]
    omega

/-- C27 on the running engine with a transform-less renderable in front:
the transform 7 is written at offset 0 and the draw of its renderable binds
offset 256. -/
theorem transform_slot_mismatch_witness :
    emitted orphanState (updateUniformBuffers demoConstants 0 orphanState) =
      [.vmaMapMemory 16, .memcpy 16 0 192 7, .vmaUnmapMemory 16] ∧
    Call.vkCmdBindDescriptorSets 22 19 0 ⟨12, 31⟩ [256] ∈
      emitted orphanState (recordCommandBuffers demoConstants demoWorld orphanState) ∧
    ((Scene.mk [⟨some ⟨0, "main", [[⟨12, 33⟩, ⟨12, 34⟩]]⟩, none⟩]).renderablesWithTransform.length <
      (Scene.mk [⟨some ⟨0, "main", [[⟨12, 33⟩, ⟨12, 34⟩]]⟩, none⟩]).renderables.length ∧
    (0 < alignedStride demoConstants orphanState →
      (Scene.mk [⟨some ⟨0, "main", [[⟨12, 33⟩, ⟨12, 34⟩]]⟩, none⟩]).renderables.length *
        alignedStride demoConstants orphanState < 2 ^ 32 →
      ((Scene.mk [⟨some ⟨0, "main", [[⟨12, 33⟩, ⟨12, 34⟩]]⟩,
          none⟩]).renderablesWithTransform.length *
        alignedStride demoConstants orphanState) % 2 ^ 64 ≠
      ((Scene.mk [⟨some ⟨0, "main", [[⟨12, 33⟩, ⟨12, 34⟩]]⟩, none⟩]).renderables.length *
        alignedStride demoConstants orphanState) % 2 ^ 32)) :=
  ⟨orphan_eval.2.2.1, orphan_eval.2.2.2,
    (transform_slot_mismatch demoConstants demoWorld orphanState _
      ⟨[⟨some ⟨0, "main", [[⟨12, 33⟩, ⟨12, 34⟩]]⟩, none⟩,
        ⟨some ⟨0, "main", [[⟨12, 31⟩, ⟨12, 32⟩]]⟩, some 7⟩]⟩
      [⟨some ⟨0, "main", [[⟨12, 33⟩, ⟨12, 34⟩]]⟩, none⟩] []
      ⟨0, "main", [[⟨12, 31⟩, ⟨12, 32⟩]]⟩ 7 0 16 rfl rfl
      (by simp [orphanState, demoState])
      (by simp [orphanState, demoState, demoRenderer])
      (by simp [orphanState, demoState])
      (ok_of_isOk _ orphan_eval.1)).2.2.2
      ⟨⟨some ⟨0, "main", [[⟨12, 33⟩, ⟨12, 34⟩]]⟩, none⟩, by simp, by simp, rfl⟩⟩

/-! ## Claims about creation and destruction -/

theorem keeps_layout_of_view {α : Type} (V : State → State) (P : State → Call → Prop)
    (m : Proc α)
    (hV : ∀ s, ((V s).descriptorSetLayout, (V s).imageDescriptorSetLayout) =
      (s.descriptorSetLayout, s.imageDescriptorSetLayout))
    (hm : Keeps (frameOf V P) m) : Keeps layoutFrame m := by
  refine keeps_mono _ _ _ (frameOf_mono V _ P _ ?_ (fun _ _ _ => trivial)) hm
  intro s t h
  rw [← hV s, ← hV t, h]

theorem keeps_layout_simple (w : World) :
    Keeps layoutFrame (createInstance w) ∧ Keeps layoutFrame (setupDebugMessenger w) ∧
    Keeps layoutFrame (createSurface w) ∧ Keeps layoutFrame (createLogicalDevice w) ∧
    Keeps layoutFrame (createAllocator w) ∧ Keeps layoutFrame (createPipelineCache w) ∧
    Keeps layoutFrame (createCommandPools w) ∧ Keeps layoutFrame (createTextureSampler w) := by
  unfold createInstance setupDebugMessenger createSurface createLogicalDevice createAllocator
    createPipelineCache createCommandPools createTextureSampler layoutFrame
  refine ⟨?_, ?_, ?_, ?_, ?_, ?_, ?_, ?_⟩
  all_goals
    repeat' with_reducible first
      | apply keeps_bind
      | apply keeps_readState
      | apply keeps_pure
      | apply keeps_value
      | apply keeps_ASH_ASSERT
      | apply keeps_call
      | apply keeps_update
      | apply keeps_fresh
      | split
      | intro _
  all_goals first | rfl | trivial

theorem keeps_layout_pickFirstSuitable (devices : List DeviceReport) :
    Keeps layoutFrame (pickFirstSuitable devices) := by
  induction devices with
  | nil => exact keeps_pure _ _
  | cons d rest ih =>
    unfold pickFirstSuitable
    split
    · unfold layoutFrame
      apply keeps_update
      · intro _
        rfl
      · intro _
        rfl
    · exact ih

theorem keeps_layout_pickPhysicalDevice (w : World) :
    Keeps layoutFrame (pickPhysicalDevice w) := by
  have h := keeps_layout_pickFirstSuitable w.devices
  unfold pickPhysicalDevice
  unfold layoutFrame at *
  repeat' with_reducible first
    | exact h
    | apply keeps_bind
    | apply keeps_readState
    | apply keeps_ASH_ASSERT
    | apply keeps_update
    | intro _
  all_goals rfl

theorem keeps_layout_createStageModules (w : World) (pipeline : Pipeline) (n : Nat) :
    ∀ (i : Nat) (modules : List Handle),
      Keeps layoutFrame (createStageModules w pipeline i n modules) := by
  induction n with
  | zero => intro i modules; exact keeps_pure _ _
  | succ n ih =>
    intro i modules
    unfold createStageModules createShaderModule
    unfold layoutFrame at *
    repeat' with_reducible first
      | apply ih
      | apply keeps_bind
      | apply keeps_index
      | apply keeps_pure
      | apply keeps_ASH_ASSERT
      | apply keeps_call
      | apply keeps_fresh
      | intro _
    all_goals first | rfl | trivial

theorem keeps_layout_createGraphicsPipelines (w : World) (pipelines : List Pipeline) :
    Keeps layoutFrame (createGraphicsPipelines w pipelines) := by
  have h := keeps_layout_createStageModules w
  unfold createGraphicsPipelines createUserPipeline createShaderModule
  unfold layoutFrame at *
  repeat' with_reducible first
    | apply h
    | apply keeps_bind
    | apply keeps_index
    | apply keeps_pure
    | apply keeps_ASH_ASSERT
    | apply keeps_forEach
    | apply keeps_call
    | apply keeps_update
    | apply keeps_fresh
    | intro _
  all_goals first | rfl | trivial

theorem keeps_layout_buffers (K : Constants) (w : World) :
    Keeps layoutFrame (createUniformBuffers K w) ∧
    Keeps layoutFrame (createUboDescriptorSets w) ∧
    Keeps layoutFrame (createSyncObjects K w) := by
  unfold createUniformBuffers createUboDescriptorSets createSyncObjects createBuffer layoutFrame
  refine ⟨?_, ?_, ?_⟩
  all_goals
    repeat' with_reducible first
      | apply keeps_bind
      | apply keeps_readState
      | apply keeps_index
      | apply keeps_pure
      | apply keeps_ASH_ASSERT
      | apply keeps_forRange
      | apply keeps_call
      | apply keeps_update
      | apply keeps_fresh
      | apply keeps_freshN
      | split
      | intro _
  all_goals first | rfl | trivial

theorem keeps_layout_swapchain (K : Constants) (w : World) :
    Keeps layoutFrame (createSwapchain w) ∧ Keeps layoutFrame (createImageViews w) ∧
    Keeps layoutFrame (createRenderPass w) ∧
    Keeps layoutFrame (createDescriptorPool w K.MAX_INSTANCES) ∧
    Keeps layoutFrame (createDepthResources w) ∧ Keeps layoutFrame (createFramebuffers w) ∧
    Keeps layoutFrame (createCommandBuffers K w) :=
  ⟨keeps_layout_of_view recreateView _ _ (fun _ => rfl) (keeps_createSwapchain w),
    keeps_layout_of_view rebuildView _ _ (fun _ => rfl) (keeps_createImageViews w),
    keeps_layout_of_view rebuildView _ _ (fun _ => rfl) (keeps_createRenderPass w),
    keeps_layout_of_view rebuildView _ _ (fun _ => rfl) (keeps_createDescriptorPool w K.MAX_INSTANCES),
    keeps_layout_of_view rebuildView _ _ (fun _ => rfl) (keeps_createDepthResources w),
    keeps_layout_of_view rebuildView _ _ (fun _ => rfl) (keeps_createFramebuffers w),
    keeps_layout_of_view rebuildView _ _ (fun _ => rfl) (keeps_createCommandBuffers K w)⟩

theorem bind_ok_rel {α β : Type} {F : Frame} {m : Proc α} (hm : Keeps F m)
    {f : α → Proc β} {s s' : State} {b : β} (h : (m >>= f) s = .ok b s') :
    ∃ a s1, F.rel s s1 ∧ f a s1 = .ok b s' := by
  obtain ⟨a, s1, h1, h2⟩ := bind_ok_inv h
  exact ⟨a, s1, keeps_ok hm h1, h2⟩

/-- A returning `createSyncObjects` leaves `MAX_FRAMES_IN_FLIGHT` semaphores
of each kind and as many fences. -/
theorem createSyncObjects_lengths (K : Constants) (w : World) (s s' : State)
    (h : createSyncObjects K w s = .ok () s') :
    s'.imageAvailableSemaphores.length = K.MAX_FRAMES_IN_FLIGHT ∧
    s'.renderFinishedSemaphores.length = K.MAX_FRAMES_IN_FLIGHT ∧
    s'.inFlightFences.length = K.MAX_FRAMES_IN_FLIGHT := by
  simp only [createSyncObjects, bind_ok_iff, update_ok_iff, call_ok_iff, fresh_ok_iff,
    ASH_ASSERT_ok_iff,
    exists_eq_left, exists_and_left, exists_eq_right, and_assoc, exists_const, true_and,
    and_true, exists_eq_left', exists_and_right] at h
  obtain ⟨_, sl, hloop, -, rfl⟩ := h
  have key := forRange_ok _
    (fun (_ : Nat) a b =>
      b.imageAvailableSemaphores.length = a.imageAvailableSemaphores.length ∧
      b.renderFinishedSemaphores.length = a.renderFinishedSemaphores.length ∧
      b.inFlightFences.length = a.inFlightFences.length)
    (fun a => ⟨rfl, rfl, rfl⟩) ?_ _ _ _ _ hloop
  · obtain ⟨h1, h2, h3⟩ := key
    refine ⟨?_, ?_, ?_⟩
    · show sl.imageAvailableSemaphores.length = _
      rw [h1]
      simp [resize]
      omega
    · show sl.renderFinishedSemaphores.length = _
      rw [h2]
      simp [resize]
      omega
    · show sl.inFlightFences.length = _
      rw [h3]
      simp [resize]
      omega
  · intro lo k a a1 a2 hbody hQ
    simp only [bind_ok_iff, update_ok_iff, call_ok_iff, fresh_ok_iff, ASH_ASSERT_ok_iff,
      exists_eq_left, exists_and_left, exists_eq_right, and_assoc, exists_const, true_and,
      and_true, exists_eq_left', exists_and_right] at hbody
    obtain ⟨-, -, -, rfl⟩ := hbody
    obtain ⟨h1, h2, h3⟩ := hQ
    exact ⟨by rw [h1]; simp, by rw [h2]; simp, by rw [h3]; simp⟩

/-- A returning `init`: the two descriptor-set layouts it created, where in
the trace, and the synchronisation objects it leaves. -/
theorem init_ok_layouts (K : Constants) (w : World) (pipelines : List Pipeline)
    (s s' : State) (h : init K w pipelines s = .ok () s') :
    ∃ front back handle,
      s'.descriptorSetLayout = handle ∧ s'.imageDescriptorSetLayout = handle + 1 ∧
      s'.trace = s.trace ++ (front ++
        [Call.vkCreate .VkDescriptorSetLayout handle,
          Call.vkCreate .VkDescriptorSetLayout (handle + 1)] ++ back) ∧
      s'.imageAvailableSemaphores.length = K.MAX_FRAMES_IN_FLIGHT ∧
      s'.renderFinishedSemaphores.length = K.MAX_FRAMES_IN_FLIGHT ∧
      s'.inFlightFences.length = K.MAX_FRAMES_IN_FLIGHT := by
  obtain ⟨ki, ksd, ksu, kld, kal, kpc, kcp, kts⟩ := keeps_layout_simple w
  obtain ⟨kub, kud, kso⟩ := keeps_layout_buffers K w
  obtain ⟨ksw, kiv, krp, kdp, kdr, kfb, kcb⟩ := keeps_layout_swapchain K w
  unfold init at h
  obtain ⟨_, s1, r1, h⟩ := bind_ok_rel ki h
  obtain ⟨_, s2, r2, h⟩ := bind_ok_rel ksd h
  obtain ⟨_, s3, r3, h⟩ := bind_ok_rel ksu h
  obtain ⟨_, s4, r4, h⟩ := bind_ok_rel (keeps_layout_pickPhysicalDevice w) h
  obtain ⟨_, s5, r5, h⟩ := bind_ok_rel kld h
  obtain ⟨_, s6, r6, h⟩ := bind_ok_rel kal h
  obtain ⟨_, s7, r7, h⟩ := bind_ok_rel ksw h
  obtain ⟨_, s8, r8, h⟩ := bind_ok_rel kiv h
  obtain ⟨_, s9, r9, h⟩ := bind_ok_rel krp h
  obtain ⟨_, s10, r10, h⟩ := bind_ok_rel kpc h
  obtain ⟨_, s11, h11, h⟩ := bind_ok_inv h
  obtain ⟨_, s12, r12, h⟩ := bind_ok_rel (keeps_layout_createGraphicsPipelines w pipelines) h
  obtain ⟨_, s13, r13, h⟩ := bind_ok_rel kdp h
  obtain ⟨_, s14, r14, h⟩ := bind_ok_rel kub h
  obtain ⟨_, s15, r15, h⟩ := bind_ok_rel kud h
  obtain ⟨_, s16, r16, h⟩ := bind_ok_rel kcp h
  obtain ⟨_, s17, r17, h⟩ := bind_ok_rel kdr h
  obtain ⟨_, s18, r18, h⟩ := bind_ok_rel kfb h
  obtain ⟨_, s19, r19, h⟩ := bind_ok_rel kcb h
  obtain ⟨_, s20, r20, h⟩ := bind_ok_rel kts h
  have r21 := keeps_ok kso h
  obtain ⟨hl1, hl2, hl3⟩ := createSyncObjects_lengths K w s20 s' h
  have hhead : layoutFrame.rel s s10 :=
    layoutFrame.trans _ _ _ r1 (layoutFrame.trans _ _ _ r2 (layoutFrame.trans _ _ _ r3
      (layoutFrame.trans _ _ _ r4 (layoutFrame.trans _ _ _ r5 (layoutFrame.trans _ _ _ r6
        (layoutFrame.trans _ _ _ r7 (layoutFrame.trans _ _ _ r8
          (layoutFrame.trans _ _ _ r9 r10))))))))
  have htail : layoutFrame.rel s11 s' :=
    layoutFrame.trans _ _ _ r12 (layoutFrame.trans _ _ _ r13 (layoutFrame.trans _ _ _ r14
      (layoutFrame.trans _ _ _ r15 (layoutFrame.trans _ _ _ r16 (layoutFrame.trans _ _ _ r17
        (layoutFrame.trans _ _ _ r18 (layoutFrame.trans _ _ _ r19
          (layoutFrame.trans _ _ _ r20 r21))))))))
  obtain ⟨-, front, hfront, -⟩ := hhead
  obtain ⟨hview, back, hback, -⟩ := htail
  simp only [createDescriptorSetLayout, bind_ok_iff, update_ok_iff, call_ok_iff, fresh_ok_iff,
    ASH_ASSERT_ok_iff,
    exists_eq_left, exists_and_left, exists_eq_right, and_assoc, exists_const, true_and,
    and_true, exists_eq_left', exists_and_right] at h11
  obtain ⟨-, -, rfl⟩ := h11
  simp only [Prod.mk.injEq] at hview
  refine ⟨front, back, s10.nextHandle, hview.1, hview.2, ?_, hl1, hl2, hl3⟩
  rw [hback]
  simp [hfront]

set_option maxRecDepth 100000 in
set_option maxHeartbeats 4000000 in
theorem boot_init_eval :
    (init demoConstants demoWorld [glowPipeline] bootState).isOk = true ∧
    (init demoConstants demoWorld [glowPipeline] bootState).state.descriptorSetLayout = 12 ∧
    (init demoConstants demoWorld [glowPipeline] bootState).state.imageDescriptorSetLayout =
      13 := by
  decide!

/-- C30. `cleanup()` never destroys the second descriptor-set layout.  For
every `init()` that returns: both layouts of `createDescriptorSetLayout` were
created by it, `descriptorSetLayout` and `imageDescriptorSetLayout`, and they
are different objects; the `cleanup()` that follows returns and destroys
`descriptorSetLayout`, but none of its calls destroys
`imageDescriptorSetLayout`: that object is created and left undestroyed. -/
theorem image_layout_never_destroyed (K : Constants) (w : World) (pipelines : List Pipeline)
    (s s' : State) (h : init K w pipelines s = .ok () s') :
    Call.vkCreate .VkDescriptorSetLayout s'.descriptorSetLayout ∈
      emitted s (init K w pipelines s) ∧
    Call.vkCreate .VkDescriptorSetLayout s'.imageDescriptorSetLayout ∈
      emitted s (init K w pipelines s) ∧
    s'.imageDescriptorSetLayout ≠ s'.descriptorSetLayout ∧
    (cleanup K s').isOk = true ∧
    Call.vkDestroy .VkDescriptorSetLayout s'.descriptorSetLayout ∈
      emitted s' (cleanup K s') ∧
    (∀ c ∈ emitted s' (cleanup K s'),
      c ≠ Call.vkDestroy .VkDescriptorSetLayout s'.imageDescriptorSetLayout) := by
  obtain ⟨front, back, handle, hd, hi, ht, hl1, hl2, hl3⟩ := init_ok_layouts K w pipelines s s' h
  have hne : s'.imageDescriptorSetLayout ≠ s'.descriptorSetLayout := by
    rw [hd, hi]
    exact Nat.succ_ne_self handle
  rw [h, cleanup_run K s' (by omega) (by omega) (by omega)]
  simp only [emitted, state_ok, List.drop_left, ht]
  refine ⟨?_, ?_, hne, rfl, ?_, ?_⟩
  · rw [hd]
    simp
  · rw [hi]
    simp
  · simp [cleanupFront]
  · rintro c hc rfl
    cases hv : s'.enableValidationLayers <;>
      simp [cleanupFront, cleanupMid, cleanupBack, teardownCalls, hv] at hc <;>
      exact hne hc

/-- C30 on an engine started from nothing with one caller-supplied
pipeline: `init()` creates the layouts 12 and 13, `cleanup()` destroys 12
only. -/
theorem image_layout_never_destroyed_witness :
    (init demoConstants demoWorld [glowPipeline] bootState).state.descriptorSetLayout = 12 ∧
    (init demoConstants demoWorld [glowPipeline] bootState).state.imageDescriptorSetLayout =
      13 ∧
    (Call.vkCreate .VkDescriptorSetLayout
        (init demoConstants demoWorld [glowPipeline] bootState).state.descriptorSetLayout ∈
      emitted bootState (init demoConstants demoWorld [glowPipeline] bootState) ∧
    Call.vkCreate .VkDescriptorSetLayout
        (init demoConstants demoWorld [glowPipeline] bootState).state.imageDescriptorSetLayout ∈
      emitted bootState (init demoConstants demoWorld [glowPipeline] bootState) ∧
    (init demoConstants demoWorld [glowPipeline] bootState).state.imageDescriptorSetLayout ≠
      (init demoConstants demoWorld [glowPipeline] bootState).state.descriptorSetLayout ∧
    (cleanup demoConstants
      (init demoConstants demoWorld [glowPipeline] bootState).state).isOk = true ∧
    Call.vkDestroy .VkDescriptorSetLayout
        (init demoConstants demoWorld [glowPipeline] bootState).state.descriptorSetLayout ∈
      emitted (init demoConstants demoWorld [glowPipeline] bootState).state
        (cleanup demoConstants (init demoConstants demoWorld [glowPipeline] bootState).state) ∧
    (∀ c ∈ emitted (init demoConstants demoWorld [glowPipeline] bootState).state
        (cleanup demoConstants (init demoConstants demoWorld [glowPipeline] bootState).state),
      c ≠ Call.vkDestroy .VkDescriptorSetLayout
        (init demoConstants demoWorld [glowPipeline]
          bootState).state.imageDescriptorSetLayout)) :=
  ⟨boot_init_eval.2.1, boot_init_eval.2.2,
    image_layout_never_destroyed demoConstants demoWorld [glowPipeline] bootState _
      (ok_of_isOk _ boot_init_eval.1)⟩

end Ash
